import Mathlib

/-! # job-operator: a shallow embedding of the three controllers

The repository holds three Kubernetes controllers, each its own Go program:

* `src/stateless/cmd/controller/main.go`: `TaskJobReconciler` (namespace `Stateless`),
* `src/stateful/cmd/controller/main.go`: `DatabaseReconciler` (namespace `Stateful`),
* `src/cmd/controller/main.go`: `HPCJobReconciler` (namespace `HPC`).

The Kubernetes API objects the controllers read and write are structures holding the
fields the source touches, spelled as in Go.  The API server is a `World`: stores of
objects keyed by (namespace, name), the pods a label selector lists, a clock, and a list
of injected faults.  Every API call of a pass is recorded, with its answer, in the
world's trace, so that a theorem can speak about what a pass sent and in which order.
-/

namespace JobOperator

/-! ## Machine integers and time -/

/-- Go conversion `int32(n)` of an `int`: wrap-around to the signed 32-bit range. -/
def int32 (n : Int) : Int := (n + 2147483648) % 4294967296 - 2147483648

/-- A `metav1.Time`, in seconds since the Unix epoch. -/
abbrev Time := Int

/-- The zero value `metav1.Time{}`: January 1, year 1, 00:00:00 UTC. -/
def zeroTime : Time := -62135596800

/-! ## Kubernetes objects (the fields the controllers use) -/

/-- Go `metav1.TypeMeta`. -/
structure TypeMeta where
  Kind : String := ""
  APIVersion : String := ""
  deriving DecidableEq, Repr

/-- Go `metav1.ObjectMeta`. Maps are association lists. -/
structure ObjectMeta where
  Name : String := ""
  Namespace : String := ""
  Labels : List (String × String) := []
  ResourceVersion : String := ""
  deriving DecidableEq, Repr

/-- Go `corev1.ContainerStateWaiting`. -/
structure ContainerStateWaiting where
  Reason : String := ""
  deriving DecidableEq, Repr

/-- Go `corev1.ContainerState`; `Waiting` is a pointer, `none` is nil. -/
structure ContainerState where
  Waiting : Option ContainerStateWaiting := none
  deriving DecidableEq, Repr

/-- Go `corev1.ContainerStatus`. -/
structure ContainerStatus where
  Name : String := ""
  Ready : Bool := false
  State : ContainerState := {}
  deriving DecidableEq, Repr

/-- Go `corev1.PodStatus`; the phase is a string, as in Go. -/
structure PodStatus where
  Phase : String := ""
  ContainerStatuses : List ContainerStatus := []
  deriving DecidableEq, Repr

/-- Go `corev1.Pod`. -/
structure Pod where
  ObjectMeta : ObjectMeta := {}
  Status : PodStatus := {}
  deriving DecidableEq, Repr

/-- Go constant `corev1.PodPending`. -/
def PodPending : String := "Pending"
/-- Go constant `corev1.PodRunning`. -/
def PodRunning : String := "Running"
/-- Go constant `corev1.PodSucceeded`. -/
def PodSucceeded : String := "Succeeded"
/-- Go constant `corev1.PodFailed`. -/
def PodFailed : String := "Failed"
/-- Go constant `corev1.PullIfNotPresent`. -/
def PullIfNotPresent : String := "IfNotPresent"
/-- Go constant `corev1.ClusterIPNone`. -/
def ClusterIPNone : String := "None"
/-- Go constant `corev1.ReadWriteOnce`. -/
def ReadWriteOnce : String := "ReadWriteOnce"
/-- Go constant `corev1.ResourceStorage`. -/
def ResourceStorage : String := "storage"

/-- Go `intstr.IntOrString`. -/
inductive IntOrString
  | ofInt (i : Int)
  | ofString (s : String)
  deriving DecidableEq, Repr

/-- Go `corev1.Probe` with a TCP socket handler. -/
structure Probe where
  TCPSocketPort : IntOrString
  InitialDelaySeconds : Int := 0
  PeriodSeconds : Int := 0
  deriving DecidableEq, Repr

/-- Go `corev1.Container`; `Env` holds (Name, Value), `VolumeMounts` (Name, MountPath). -/
structure Container where
  Name : String := ""
  Image : String := ""
  ImagePullPolicy : String := ""
  Ports : List Int := []
  Env : List (String × String) := []
  VolumeMounts : List (String × String) := []
  ReadinessProbe : Option Probe := none
  deriving DecidableEq, Repr

/-- Go `corev1.PodTemplateSpec`: the labels of its metadata and the containers of its spec. -/
structure PodTemplateSpec where
  Labels : List (String × String) := []
  Containers : List Container := []
  deriving DecidableEq, Repr

/-- Go `appsv1.DeploymentSpec`; `Replicas` and `Selector` are pointers. -/
structure DeploymentSpec where
  Replicas : Option Int := none
  Selector : Option (List (String × String)) := none
  Template : PodTemplateSpec := {}
  deriving DecidableEq, Repr

/-- Go `appsv1.DeploymentStatus`. -/
structure DeploymentStatus where
  Replicas : Int := 0
  ReadyReplicas : Int := 0
  deriving DecidableEq, Repr

/-- Go `appsv1.Deployment`. -/
structure Deployment where
  ObjectMeta : ObjectMeta := {}
  Spec : DeploymentSpec := {}
  Status : DeploymentStatus := {}
  deriving DecidableEq, Repr

/-- Go `corev1.ServicePort`. -/
structure ServicePort where
  Port : Int := 0
  TargetPort : IntOrString := IntOrString.ofInt 0
  deriving DecidableEq, Repr

/-- Go `corev1.ServiceSpec`. -/
structure ServiceSpec where
  ClusterIP : String := ""
  Selector : List (String × String) := []
  Ports : List ServicePort := []
  deriving DecidableEq, Repr

/-- Go `corev1.Service`. -/
structure Service where
  ObjectMeta : ObjectMeta := {}
  Spec : ServiceSpec := {}
  deriving DecidableEq, Repr

/-- A parsed `resource.Quantity`, kept as the text it was parsed from. -/
structure Quantity where
  text : String
  deriving DecidableEq, Repr

/-- Go `corev1.PersistentVolumeClaim`: name, access modes and resource requests. -/
structure PersistentVolumeClaim where
  ObjectMeta : ObjectMeta := {}
  AccessModes : List String := []
  Requests : List (String × Quantity) := []
  deriving DecidableEq, Repr

/-- Go `appsv1.StatefulSetSpec`. -/
structure StatefulSetSpec where
  Replicas : Option Int := none
  Selector : Option (List (String × String)) := none
  ServiceName : String := ""
  Template : PodTemplateSpec := {}
  VolumeClaimTemplates : List PersistentVolumeClaim := []
  deriving DecidableEq, Repr

/-- Go `appsv1.StatefulSetStatus`. -/
structure StatefulSetStatus where
  Replicas : Int := 0
  ReadyReplicas : Int := 0
  deriving DecidableEq, Repr

/-- Go `appsv1.StatefulSet`. -/
structure StatefulSet where
  ObjectMeta : ObjectMeta := {}
  Spec : StatefulSetSpec := {}
  Status : StatefulSetStatus := {}
  deriving DecidableEq, Repr

/-- Go `ctrl.Request`: the namespaced name of the custom resource to reconcile. -/
structure Request where
  Namespace : String
  Name : String
  deriving DecidableEq, Repr

/-- Go `ctrl.Result`; `RequeueAfter` in seconds, 0 when unset. -/
structure Result where
  RequeueAfter : Nat := 0
  deriving DecidableEq, Repr

/-! ## The API server -/

/-- The error answers of the API server; `k8serrors.IsNotFound` holds of `notFound` only,
`invalid` is the answer to an object the server refuses to store. -/
inductive ApiError
  | notFound
  | alreadyExists
  | conflict
  | invalid
  | unavailable
  deriving DecidableEq, Repr

/-- An error returned by a pass: the chain of `fmt.Errorf` contexts, outermost first, and
the API error they wrap. -/
structure ReconcileError where
  context : List String
  cause : ApiError
  deriving DecidableEq, Repr

/-- How a pass ends: a result, an error, or a Go runtime panic. -/
inductive Outcome
  | ok (res : Result)
  | error (err : ReconcileError)
  | panic (msg : String)
  deriving DecidableEq, Repr

/-- The pass ended in a Go runtime panic, not by returning. -/
def Outcome.isPanic : Outcome → Bool
  | .panic _ => true
  | _ => false

/-- The API calls a pass can issue, with their arguments, and the blocking sleep. -/
inductive Call (CR : Type)
  | getCR (ns name : String)
  | updateStatus (obj : CR)
  | getDeployment (ns name : String)
  | createDeployment (ns : String) (obj : Deployment)
  | updateDeployment (ns : String) (obj : Deployment)
  | deleteDeployment (ns name : String)
  | getService (ns name : String)
  | createService (ns : String) (obj : Service)
  | deleteService (ns name : String)
  | getStatefulSet (ns name : String)
  | createStatefulSet (ns : String) (obj : StatefulSet)
  | updateStatefulSet (ns : String) (obj : StatefulSet)
  | listPods (ns selector : String)
  | sleep (seconds : Nat)
  deriving DecidableEq, Repr

/-- A call together with the answer it got: `none` is success. -/
structure Event (CR : Type) where
  call : Call CR
  answer : Option ApiError
  deriving DecidableEq, Repr

/-- What the server and the client need to know of a custom resource kind: its key, how a
status update changes the stored object (the status subresource only), and the
`DeepCopyObject` of the kind, through which the cached client hands out a stored object. -/
class CustomResource (CR : Type) where
  meta : CR → ObjectMeta
  putStatus : CR → CR → CR
  DeepCopyObject : CR → CR

/-- How the server holds a `*metav1.Time` it was sent: the zero time is written as JSON
`null` (`metav1.Time.MarshalJSON`), which reads back as no time; any other time is kept. -/
def storedTime (t : Option Time) : Option Time :=
  if t = some zeroTime then none else t

/-- The cluster as one controller sees it. `faults` are the answers forced on the next API
calls, in order: `some e` makes the call fail with `e` and have no effect, `none` (or an
exhausted list) lets the call go through. -/
structure World (CR : Type) where
  crs : String × String → Option CR := fun _ => none
  deployments : String × String → Option Deployment := fun _ => none
  services : String × String → Option Service := fun _ => none
  statefulSets : String × String → Option StatefulSet := fun _ => none
  pods : String × String → List Pod := fun _ => []
  now : Time := 0
  faults : List (Option ApiError) := []
  trace : List (Event CR) := []

namespace World

variable {CR : Type}

/-- The fault injected into the next API call, if any. -/
def fault (w : World CR) : Option ApiError :=
  match w.faults with
  | some e :: _ => some e
  | _ => none

/-- Record a call and its answer, and consume the fault slot of the call. -/
def record (w : World CR) (call : Call CR) (answer : Option ApiError) : World CR :=
  { w with faults := w.faults.tail, trace := w.trace ++ [⟨call, answer⟩] }

/-- Store (`some`) or remove (`none`) the custom resource under a key. -/
def setCR (w : World CR) (key : String × String) (v : Option CR) : World CR :=
  { w with crs := Function.update w.crs key v }

/-- Store (`some`) or remove (`none`) the deployment under a key. -/
def setDeployment (w : World CR) (key : String × String) (v : Option Deployment) : World CR :=
  { w with deployments := Function.update w.deployments key v }

/-- Store (`some`) or remove (`none`) the service under a key. -/
def setService (w : World CR) (key : String × String) (v : Option Service) : World CR :=
  { w with services := Function.update w.services key v }

/-- Store (`some`) or remove (`none`) the stateful set under a key. -/
def setStatefulSet (w : World CR) (key : String × String) (v : Option StatefulSet) : World CR :=
  { w with statefulSets := Function.update w.statefulSets key v }

/-- Go `r.Client.Get(ctx, req.NamespacedName, obj)` (`r.Get` in the stateful kind). The
client of each reconciler is `mgr.GetClient()` (the `Complete(...)` call of each `main`),
which reads from the manager's cache and hands out the `DeepCopyObject()` of the object it
holds: `obj` is filled with that copy. -/
def getCR [CustomResource CR] (ns name : String) (w : World CR) :
    Except ApiError CR × World CR :=
  match w.fault with
  | some e => (.error e, w.record (.getCR ns name) (some e))
  | none =>
    match w.crs (ns, name) with
    | some cr => (.ok (CustomResource.DeepCopyObject cr), w.record (.getCR ns name) none)
    | none => (.error .notFound, w.record (.getCR ns name) (some .notFound))

/-- Go `r.Status().Update(ctx, obj)`: replaces the status of the stored object. -/
def updateStatus [CustomResource CR] (obj : CR) (w : World CR) : Option ApiError × World CR :=
  let key := ((CustomResource.meta obj).Namespace, (CustomResource.meta obj).Name)
  match w.fault with
  | some e => (some e, w.record (.updateStatus obj) (some e))
  | none =>
    match w.crs key with
    | some stored =>
      (none, (w.record (.updateStatus obj) none).setCR key
        (some (CustomResource.putStatus stored obj)))
    | none => (some .notFound, w.record (.updateStatus obj) (some .notFound))

/-- Go `Deployments(ns).Get(ctx, name, ...)`. -/
def getDeployment (ns name : String) (w : World CR) : Except ApiError Deployment × World CR :=
  match w.fault with
  | some e => (.error e, w.record (.getDeployment ns name) (some e))
  | none =>
    match w.deployments (ns, name) with
    | some d => (.ok d, w.record (.getDeployment ns name) none)
    | none => (.error .notFound, w.record (.getDeployment ns name) (some .notFound))

/-- Go `Deployments(ns).Create(ctx, obj, ...)`. -/
def createDeployment (ns : String) (obj : Deployment) (w : World CR) :
    Option ApiError × World CR :=
  match w.fault with
  | some e => (some e, w.record (.createDeployment ns obj) (some e))
  | none =>
    match w.deployments (ns, obj.ObjectMeta.Name) with
    | some _ => (some .alreadyExists, w.record (.createDeployment ns obj) (some .alreadyExists))
    | none =>
      (none, (w.record (.createDeployment ns obj) none).setDeployment
        (ns, obj.ObjectMeta.Name) (some obj))

/-- Go `Deployments(ns).Update(ctx, obj, ...)`. -/
def updateDeployment (ns : String) (obj : Deployment) (w : World CR) :
    Option ApiError × World CR :=
  match w.fault with
  | some e => (some e, w.record (.updateDeployment ns obj) (some e))
  | none =>
    match w.deployments (ns, obj.ObjectMeta.Name) with
    | some _ =>
      (none, (w.record (.updateDeployment ns obj) none).setDeployment
        (ns, obj.ObjectMeta.Name) (some obj))
    | none => (some .notFound, w.record (.updateDeployment ns obj) (some .notFound))

/-- Go `Deployments(ns).Delete(ctx, name, ...)`. -/
def deleteDeployment (ns name : String) (w : World CR) : Option ApiError × World CR :=
  match w.fault with
  | some e => (some e, w.record (.deleteDeployment ns name) (some e))
  | none =>
    match w.deployments (ns, name) with
    | some _ => (none, (w.record (.deleteDeployment ns name) none).setDeployment (ns, name) none)
    | none => (some .notFound, w.record (.deleteDeployment ns name) (some .notFound))

/-- Go `Services(ns).Get(ctx, name, ...)`. -/
def getService (ns name : String) (w : World CR) : Except ApiError Service × World CR :=
  match w.fault with
  | some e => (.error e, w.record (.getService ns name) (some e))
  | none =>
    match w.services (ns, name) with
    | some s => (.ok s, w.record (.getService ns name) none)
    | none => (.error .notFound, w.record (.getService ns name) (some .notFound))

/-- Go `Services(ns).Create(ctx, obj, ...)`. -/
def createService (ns : String) (obj : Service) (w : World CR) : Option ApiError × World CR :=
  match w.fault with
  | some e => (some e, w.record (.createService ns obj) (some e))
  | none =>
    match w.services (ns, obj.ObjectMeta.Name) with
    | some _ => (some .alreadyExists, w.record (.createService ns obj) (some .alreadyExists))
    | none =>
      (none, (w.record (.createService ns obj) none).setService
        (ns, obj.ObjectMeta.Name) (some obj))

/-- Go `Services(ns).Delete(ctx, name, ...)`. -/
def deleteService (ns name : String) (w : World CR) : Option ApiError × World CR :=
  match w.fault with
  | some e => (some e, w.record (.deleteService ns name) (some e))
  | none =>
    match w.services (ns, name) with
    | some _ => (none, (w.record (.deleteService ns name) none).setService (ns, name) none)
    | none => (some .notFound, w.record (.deleteService ns name) (some .notFound))

/-- Go `StatefulSets(ns).Get(ctx, name, ...)`. -/
def getStatefulSet (ns name : String) (w : World CR) : Except ApiError StatefulSet × World CR :=
  match w.fault with
  | some e => (.error e, w.record (.getStatefulSet ns name) (some e))
  | none =>
    match w.statefulSets (ns, name) with
    | some s => (.ok s, w.record (.getStatefulSet ns name) none)
    | none => (.error .notFound, w.record (.getStatefulSet ns name) (some .notFound))

/-- Go `StatefulSets(ns).Create(ctx, obj, ...)`. -/
def createStatefulSet (ns : String) (obj : StatefulSet) (w : World CR) :
    Option ApiError × World CR :=
  match w.fault with
  | some e => (some e, w.record (.createStatefulSet ns obj) (some e))
  | none =>
    match w.statefulSets (ns, obj.ObjectMeta.Name) with
    | some _ => (some .alreadyExists, w.record (.createStatefulSet ns obj) (some .alreadyExists))
    | none =>
      (none, (w.record (.createStatefulSet ns obj) none).setStatefulSet
        (ns, obj.ObjectMeta.Name) (some obj))

/-- Go `StatefulSets(ns).Update(ctx, obj, ...)`. -/
def updateStatefulSet (ns : String) (obj : StatefulSet) (w : World CR) :
    Option ApiError × World CR :=
  match w.fault with
  | some e => (some e, w.record (.updateStatefulSet ns obj) (some e))
  | none =>
    match w.statefulSets (ns, obj.ObjectMeta.Name) with
    | some _ =>
      (none, (w.record (.updateStatefulSet ns obj) none).setStatefulSet
        (ns, obj.ObjectMeta.Name) (some obj))
    | none => (some .notFound, w.record (.updateStatefulSet ns obj) (some .notFound))

/-- Go `Pods(ns).List(ctx, ListOptions with a LabelSelector)`. -/
def listPods (ns selector : String) (w : World CR) : Except ApiError (List Pod) × World CR :=
  match w.fault with
  | some e => (.error e, w.record (.listPods ns selector) (some e))
  | none => (.ok (w.pods (ns, selector)), w.record (.listPods ns selector) none)

/-- Go `time.Sleep`: blocks the pass; the clock moves on, no API call is made. -/
def sleep (seconds : Nat) (w : World CR) : World CR :=
  { w with now := w.now + seconds, trace := w.trace ++ [⟨.sleep seconds, none⟩] }

/-- No fault is injected into the next `n` API calls. -/
def quiet (w : World CR) (n : Nat) : Bool := (w.faults.take n).all Option.isNone

/-- The world as the next pass of the controller finds it: the same cluster, the faults
injected into that pass, and an empty trace. -/
def nextPass (w : World CR) (faults : List (Option ApiError)) : World CR :=
  { w with faults := faults, trace := [] }

end World

/-- Whether a call asks the server to change something. -/
def Call.isWrite {CR : Type} : Call CR → Bool
  | .updateStatus _ => true
  | .createDeployment _ _ => true
  | .updateDeployment _ _ => true
  | .deleteDeployment _ _ => true
  | .createService _ _ => true
  | .deleteService _ _ => true
  | .createStatefulSet _ _ => true
  | .updateStatefulSet _ _ => true
  | _ => false

/-- Whether a call is a write to the status of the custom resource. -/
def Call.isStatusWrite {CR : Type} : Call CR → Bool
  | .updateStatus _ => true
  | _ => false

/-- Whether a call is a write to a child (deployment, service, stateful set). -/
def Call.isChildWrite {CR : Type} (c : Call CR) : Bool := c.isWrite && !c.isStatusWrite

/-- The writes among the events of a trace. -/
def writes {CR : Type} (t : List (Event CR)) : List (Event CR) := t.filter (fun e => e.call.isWrite)

/-- The status writes among the events of a trace. -/
def statusWrites {CR : Type} (t : List (Event CR)) : List (Event CR) :=
  t.filter (fun e => e.call.isStatusWrite)

/-- The child writes among the events of a trace. -/
def childWrites {CR : Type} (t : List (Event CR)) : List (Event CR) :=
  t.filter (fun e => e.call.isChildWrite)

/-- The replica count carried by a create or an update of a workload controller (a
deployment or a stateful set); `none` for every other call, and for an unset count. -/
def Call.replicas {CR : Type} : Call CR → Option Int
  | .createDeployment _ obj => obj.Spec.Replicas
  | .updateDeployment _ obj => obj.Spec.Replicas
  | .createStatefulSet _ obj => obj.Spec.Replicas
  | .updateStatefulSet _ obj => obj.Spec.Replicas
  | _ => none

/-- The event is a create or an update of a workload controller that carries a negative
replica count and that the server accepted. -/
def Event.negativeAccepted {CR : Type} (ev : Event CR) : Bool :=
  match ev.call.replicas with
  | some n => decide (n < 0) && ev.answer.isNone
  | none => false

/-- The server refused every create and every update of the trace that carries a negative
replica count, as the validation of the Kubernetes API server does. -/
def refusesNegative {CR : Type} (t : List (Event CR)) : Bool :=
  t.all (fun ev => !ev.negativeAccepted)

/-! ## Go formatting helpers -/

/-- Go `fmt.Sprintf("%v", m)` of a `map[string]string`: `map[k1:v1 k2:v2]`, keys sorted. -/
def sprintMap (m : List (String × String)) : String :=
  "map[" ++ " ".intercalate
    ((m.insertionSort (fun a b => a.1 ≤ b.1)).map (fun kv => kv.1 ++ ":" ++ kv.2)) ++ "]"

/-! ## The stateless kind: `src/stateless` -/

namespace Stateless

/-- Go `TaskJobSpec` (`src/stateless/api/v1/jobtypes.go`). -/
structure TaskJobSpec where
  JobName : String := ""
  JobParams : List (String × String) := []
  Image : String := ""
  ImagePullPolicy : String := ""
  Replicas : Int := 0
  deriving DecidableEq, Repr

/-- Go `TaskJobStatus`. -/
structure TaskJobStatus where
  State : String := ""
  CompletionTime : Option Time := none
  deriving DecidableEq, Repr

/-- Go `TaskJob`. -/
structure TaskJob where
  TypeMeta : TypeMeta := {}
  ObjectMeta : ObjectMeta := {}
  Spec : TaskJobSpec := {}
  Status : TaskJobStatus := {}
  deriving DecidableEq, Repr

/-- Go `TaskJob.DeepCopyInto` (`src/stateless/api/v1/deepcopy.go`, lines 7-18): the object
`out` as the call leaves it, `src` being the receiver. -/
def DeepCopyInto (src out : TaskJob) : TaskJob :=
  { out with
    TypeMeta := src.TypeMeta
    ObjectMeta := src.ObjectMeta
    Spec :=
      { JobName := src.Spec.JobName
        JobParams := src.Spec.JobParams
        Image := src.Spec.Image
        ImagePullPolicy := src.Spec.ImagePullPolicy
        Replicas := src.Spec.Replicas } }

/-- Go `TaskJob.DeepCopyObject` (lines 21-26). -/
def DeepCopyObject (src : TaskJob) : TaskJob := DeepCopyInto src {}

instance : CustomResource TaskJob where
  meta := fun cr => cr.ObjectMeta
  putStatus := fun stored sent =>
    { stored with
      Status :=
        { State := sent.Status.State
          CompletionTime := storedTime sent.Status.CompletionTime } }
  DeepCopyObject := DeepCopyObject

/-- Go `getDeploymentObject` (`src/stateless/cmd/controller/main.go`, lines 199-242). -/
def getDeploymentObject (taskJob : TaskJob) : Deployment :=
  let pullPolicy :=
    if taskJob.Spec.ImagePullPolicy ≠ "" then taskJob.Spec.ImagePullPolicy else PullIfNotPresent
  { ObjectMeta := { Name := taskJob.Spec.JobName }
    Spec :=
      { Replicas := some (int32 taskJob.Spec.Replicas)
        Selector := some [("app", taskJob.Spec.JobName)]
        Template :=
          { Labels := [("app", taskJob.Spec.JobName)]
            Containers :=
              [{ Name := taskJob.Spec.JobName
                 Image := taskJob.Spec.Image
                 ImagePullPolicy := pullPolicy
                 Ports := [8080]
                 Env := [("JOB_NAME", taskJob.Spec.JobName),
                         ("JOB_PARAMS", sprintMap taskJob.Spec.JobParams)] }] } } }

/-- Go `getServiceObject` (lines 244-259). -/
def getServiceObject (taskJob : TaskJob) : Service :=
  { ObjectMeta := { Name := taskJob.Spec.JobName }
    Spec :=
      { Selector := [("app", taskJob.Spec.JobName)]
        Ports := [{ Port := 8080, TargetPort := IntOrString.ofInt 8080 }] } }

/-- The test of line 286: the container is waiting with reason `CrashLoopBackOff`. -/
def crashLooping (cs : ContainerStatus) : Bool :=
  match cs.State.Waiting with
  | some waiting => waiting.Reason == "CrashLoopBackOff"
  | none => false

/-- The inner loop of `updateJobStatus` (lines 282-289) over the container statuses of a
Running pod; the pair carried is (`allReady`, `hasFailed`). -/
def containerLoop : List ContainerStatus → Bool × Bool → Bool × Bool
  | [], acc => acc
  | cs :: rest, (allReady, hasFailed) =>
    containerLoop rest
      (if !cs.Ready then false else allReady, if crashLooping cs then true else hasFailed)

/-- The three variables of `updateJobStatus` that the pod loop updates (lines 274-276). -/
structure Scan where
  state : String
  hasReady : Bool
  hasFailed : Bool
  deriving DecidableEq, Repr

/-- One round of the pod loop: the `switch pod.Status.Phase` of lines 279-297. -/
def scanPod (pod : Pod) (s : Scan) : Scan :=
  if pod.Status.Phase = PodRunning then
    let r := containerLoop pod.Status.ContainerStatuses (true, s.hasFailed)
    { s with hasReady := if r.1 then true else s.hasReady, hasFailed := r.2 }
  else if pod.Status.Phase = PodFailed then { s with hasFailed := true }
  else if pod.Status.Phase = PodSucceeded then { s with state := "Completed" }
  else s

/-- The pod loop of `updateJobStatus` (lines 278-298). -/
def scanPods : List Pod → Scan → Scan
  | [], s => s
  | pod :: rest, s => scanPods rest (scanPod pod s)

/-- The final state decision of `updateJobStatus` (lines 300-306). -/
def decideState (s : Scan) : String :=
  if s.hasFailed then "Failed"
  else if s.hasReady && s.state != "Completed" then "Running"
  else s.state

/-- The state `updateJobStatus` infers from the listed pods (lines 273-306). -/
def inferState (pods : List Pod) : String :=
  decideState (scanPods pods { state := "Pending", hasReady := false, hasFailed := false })

/-- Go `TaskJobReconciler.updateJobStatus` (lines 261-324): the error it returns, if any,
the `taskJob` object as the function leaves it, and the world after. -/
def updateJobStatus (taskJob : TaskJob) (w : World TaskJob) :
    Option ApiError × TaskJob × World TaskJob :=
  match w.listPods taskJob.ObjectMeta.Namespace ("app=" ++ taskJob.Spec.JobName) with
  | (.error e, w) => (some e, taskJob, w)
  | (.ok pods, w) =>
    let state := inferState pods
    if taskJob.Status.State ≠ state then
      let taskJob := { taskJob with Status := { taskJob.Status with State := state } }
      let taskJob :=
        if state = "Completed" then
          { taskJob with Status := { taskJob.Status with CompletionTime := some w.now } }
        else taskJob
      match w.updateStatus taskJob with
      | (some e, w) => (some e, taskJob, w)
      | (none, w) => (none, taskJob, w)
    else (none, taskJob, w)

/-- The deletion path of `Reconcile` (lines 68-78), taken when the TaskJob is not found. -/
def cleanup (req : Request) (jobName : String) (w : World TaskJob) : Outcome × World TaskJob :=
  match w.deleteDeployment req.Namespace jobName with
  | (some e, w) => (.error ⟨["couldn't delete deployment"], e⟩, w)
  | (none, w) =>
    match w.deleteService req.Namespace jobName with
    | (some e, w) => (.error ⟨["couldn't delete service"], e⟩, w)
    | (none, w) => (.ok {}, w)

/-- The create path of `Reconcile` (lines 91-105), taken when the deployment is not found. -/
def createChildren (req : Request) (taskJob : TaskJob) (w : World TaskJob) :
    Outcome × World TaskJob :=
  match w.createDeployment req.Namespace (getDeploymentObject taskJob) with
  | (some e, w) => (.error ⟨["couldn't create deployment"], e⟩, w)
  | (none, w) =>
    match w.createService req.Namespace (getServiceObject taskJob) with
    | (some e, w) => (.error ⟨["couldn't create service"], e⟩, w)
    | (none, w) => (.ok {}, w)

/-- The replica update of `Reconcile` (lines 113-124), taken when the replica count of the
fetched deployment differs from the one of the spec. -/
def scaleDeployment (req : Request) (taskJob : TaskJob) (deployment : Deployment)
    (w : World TaskJob) : Outcome × World TaskJob :=
  let deployment :=
    { deployment with
      Spec := { deployment.Spec with Replicas := some (int32 taskJob.Spec.Replicas) } }
  match w.updateDeployment req.Namespace deployment with
  | (some e, w) => (.error ⟨["couldn't update deployment"], e⟩, w)
  | (none, w) => (.ok {}, w)

/-- Go `TaskJobReconciler.Reconcile` (lines 49-135). The name of the children is computed
from the `taskJob` variable before the fetch fills it (lines 53-62). -/
def Reconcile (req : Request) (w : World TaskJob) : Outcome × World TaskJob :=
  let taskJob : TaskJob := {}
  let jobName := if taskJob.Spec.JobName = "" then req.Name else taskJob.Spec.JobName
  match w.getCR req.Namespace req.Name with
  | (.error e, w) =>
    if e = .notFound then cleanup req jobName w else (.error ⟨[], e⟩, w)
  | (.ok taskJob, w) =>
    match w.getDeployment req.Namespace jobName with
    | (.error e, w) =>
      if e = .notFound then createChildren req taskJob w
      else (.error ⟨["couldn't get object"], e⟩, w)
    | (.ok deployment, w) =>
      match deployment.Spec.Replicas with
      | none => (.panic "invalid memory address or nil pointer dereference", w)
      | some live =>
        if live ≠ taskJob.Spec.Replicas then scaleDeployment req taskJob deployment w
        else
          match updateJobStatus taskJob w with
          | (some e, _, w) => (.error ⟨[], e⟩, w)
          | (none, _, w) => (.ok { RequeueAfter := 10 }, w)

end Stateless

/-! ## The stateful kind: `src/stateful` -/

namespace Stateful

/-- Go `DatabaseSpec` (`src/stateful/api/v1/database_types.go`). -/
structure DatabaseSpec where
  DatabaseName : String := ""
  Image : String := ""
  Replicas : Int := 0
  Storage : String := ""
  Password : String := ""
  ImagePullPolicy : String := ""
  deriving DecidableEq, Repr

/-- Go `DatabaseStatus`; `ReadyReplicas` is an `int32`. -/
structure DatabaseStatus where
  Phase : String := ""
  ReadyReplicas : Int := 0
  deriving DecidableEq, Repr

/-- Go `Database`. -/
structure Database where
  TypeMeta : TypeMeta := {}
  ObjectMeta : ObjectMeta := {}
  Spec : DatabaseSpec := {}
  Status : DatabaseStatus := {}
  deriving DecidableEq, Repr

/-- Go `Database.DeepCopyInto` (`src/stateful/api/v1/deepcopy.go`, lines 7-19): the object
`out` as the call leaves it, `src` being the receiver. -/
def DeepCopyInto (src out : Database) : Database :=
  { out with
    TypeMeta := src.TypeMeta
    ObjectMeta := src.ObjectMeta
    Spec :=
      { DatabaseName := src.Spec.DatabaseName
        Image := src.Spec.Image
        Replicas := src.Spec.Replicas
        Storage := src.Spec.Storage
        Password := src.Spec.Password
        ImagePullPolicy := src.Spec.ImagePullPolicy } }

/-- Go `Database.DeepCopyObject` (lines 22-27). -/
def DeepCopyObject (src : Database) : Database := DeepCopyInto src {}

instance : CustomResource Database where
  meta := fun cr => cr.ObjectMeta
  putStatus := fun stored sent => { stored with Status := sent.Status }
  DeepCopyObject := DeepCopyObject

/-- Go `intstrFromInt` (lines 274-276). -/
def intstrFromInt (i : Int) : IntOrString := IntOrString.ofInt i

/-- Go `makeHeadlessService` (`src/stateful/cmd/controller/main.go`, lines 190-201). -/
def makeHeadlessService (name : String) : Service :=
  { ObjectMeta := { Name := name }
    Spec :=
      { ClusterIP := ClusterIPNone
        Ports := [{ Port := 5432, TargetPort := intstrFromInt 5432 }]
        Selector := [("app", name)] } }

/-- Go `resource.MustParse`: the quantity when the text is a valid quantity, and a panic
(`none`) when it is not. Which texts are valid is decided by the Kubernetes library, not by
this repository, and is a parameter. -/
def MustParse (validQuantity : String → Bool) (str : String) : Option Quantity :=
  if validQuantity str then some ⟨str⟩ else none

/-- Go `makeStatefulSet` (lines 203-271); `none` is the panic of `resource.MustParse`. -/
def makeStatefulSet (validQuantity : String → Bool) (db : Database) (name : String) :
    Option StatefulSet :=
  let replicas := int32 db.Spec.Replicas
  let storage := if db.Spec.Storage = "" then "1Gi" else db.Spec.Storage
  match MustParse validQuantity storage with
  | none => none
  | some quantity =>
    let pvc : PersistentVolumeClaim :=
      { ObjectMeta := { Name := "data" }
        AccessModes := [ReadWriteOnce]
        Requests := [(ResourceStorage, quantity)] }
    let image := if db.Spec.Image = "" then "postgres:15-alpine" else db.Spec.Image
    let pullPolicy :=
      if db.Spec.ImagePullPolicy ≠ "" then db.Spec.ImagePullPolicy else PullIfNotPresent
    let labels := [("app", name)]
    some
      { ObjectMeta := { Name := name }
        Spec :=
          { Replicas := some replicas
            Selector := some labels
            ServiceName := name
            Template :=
              { Labels := labels
                Containers :=
                  [{ Name := "postgres"
                     Image := image
                     ImagePullPolicy := pullPolicy
                     Ports := [5432]
                     Env := [("POSTGRES_PASSWORD", db.Spec.Password)]
                     VolumeMounts := [("data", "/var/lib/postgresql/data")]
                     ReadinessProbe :=
                       some { TCPSocketPort := intstrFromInt 5432
                              InitialDelaySeconds := 5
                              PeriodSeconds := 5 } }] }
            VolumeClaimTemplates := [pvc] } }

/-- The phase `Reconcile` infers from the ready replicas of the stateful set and its
replica count (lines 114-122). -/
def inferPhase (ready replicas : Int) : String :=
  if ready = 0 then "Pending"
  else if ready < replicas then "Running"
  else "Ready"

/-- The status step of `DatabaseReconciler.Reconcile` (lines 113-134), run on the fetched
`db` and `sts`, where `replicas` is `*sts.Spec.Replicas`: the outcome, the
`db` object as the pass leaves it, and the world after. -/
def syncStatus (db : Database) (sts : StatefulSet) (replicas : Int) (w : World Database) :
    Outcome × Database × World Database :=
  let ready := sts.Status.ReadyReplicas
  let phase := inferPhase ready replicas
  if db.Status.Phase ≠ phase ∨ db.Status.ReadyReplicas ≠ ready then
    let db := { db with Status := { Phase := phase, ReadyReplicas := ready } }
    match w.updateStatus db with
    | (some e, w) => (.error ⟨["update status"], e⟩, db, w)
    | (none, w) => (.ok { RequeueAfter := 10 }, db, w)
  else (.ok { RequeueAfter := 10 }, db, w)

/-- The replica update of `DatabaseReconciler.Reconcile` (lines 104-110), taken when the
replica pointer of the fetched `sts` is nil or its value differs from `desired`. -/
def syncReplicas (req : Request) (sts : StatefulSet) (desired : Int) (w : World Database) :
    Outcome × World Database :=
  let sts := { sts with Spec := { sts.Spec with Replicas := some desired } }
  match w.updateStatefulSet req.Namespace sts with
  | (some e, w) => (.error ⟨["update statefulset replicas"], e⟩, w)
  | (none, w) => (.ok { RequeueAfter := 5 }, w)

/-- The second half of `DatabaseReconciler.Reconcile` (lines 86-135): the stateful set. -/
def ensureStatefulSet (validQuantity : String → Bool) (req : Request) (db : Database)
    (name : String) (w : World Database) : Outcome × World Database :=
  match w.getStatefulSet req.Namespace name with
  | (.error e, w) =>
    if e = .notFound then
      match makeStatefulSet validQuantity db name with
      | none => (.panic "cannot parse quantity", w)
      | some stsObj =>
        match w.createStatefulSet req.Namespace stsObj with
        | (some e, w) => (.error ⟨["create statefulset"], e⟩, w)
        | (none, w) => (.ok { RequeueAfter := 5 }, w)
    else (.error ⟨[], e⟩, w)
  | (.ok sts, w) =>
    let desired := int32 db.Spec.Replicas
    match sts.Spec.Replicas with
    | none => syncReplicas req sts desired w
    | some live =>
      if live ≠ desired then syncReplicas req sts desired w
      else
        let r := syncStatus db sts live w
        (r.1, r.2.2)

/-- The name `Reconcile` gives the children of `db` (lines 61-65). -/
def childName (db : Database) : String :=
  if db.Spec.DatabaseName = "" then db.ObjectMeta.Name else db.Spec.DatabaseName

/-- Go `DatabaseReconciler.Reconcile` (lines 47-135). -/
def Reconcile (validQuantity : String → Bool) (req : Request) (w : World Database) :
    Outcome × World Database :=
  match w.getCR req.Namespace req.Name with
  | (.error e, w) =>
    if e = .notFound then (.ok {}, w) else (.error ⟨[], e⟩, w)
  | (.ok db, w) =>
    let name := childName db
    match w.getService req.Namespace name with
    | (.error e, w) =>
      if e = .notFound then
        match w.createService req.Namespace (makeHeadlessService name) with
        | (some e, w) => (.error ⟨["create service"], e⟩, w)
        | (none, w) => ensureStatefulSet validQuantity req db name w
      else (.error ⟨[], e⟩, w)
    | (.ok _, w) => ensureStatefulSet validQuantity req db name w

end Stateful

/-! ## The HPC kind: `src/api`, `src/cmd` -/

namespace HPC

/-- Go `HPCJobSpec` (`src/api/v1/jobtypes.go`). -/
structure HPCJobSpec where
  JobName : String := ""
  State : String := ""
  JobParams : List (String × String) := []
  Image : String := ""
  ImagePullPolicy : String := ""
  Replicas : Int := 0
  deriving DecidableEq, Repr

/-- Go `HPCJobStatus`. -/
structure HPCJobStatus where
  State : String := ""
  CompletionTime : Option Time := none
  deriving DecidableEq, Repr

/-- Go `HPCJob`. -/
structure HPCJob where
  TypeMeta : TypeMeta := {}
  ObjectMeta : ObjectMeta := {}
  Spec : HPCJobSpec := {}
  Status : HPCJobStatus := {}
  deriving DecidableEq, Repr

/-- Go `HPCJob.DeepCopyInto` (`src/api/v1/deepcopy.go`, lines 7-18): the object `out` as the
call leaves it, `src` being the receiver. -/
def DeepCopyInto (src out : HPCJob) : HPCJob :=
  { out with
    TypeMeta := src.TypeMeta
    ObjectMeta := src.ObjectMeta
    Spec :=
      { JobName := src.Spec.JobName
        State := src.Spec.State
        JobParams := src.Spec.JobParams
        Replicas := src.Spec.Replicas
        Image := src.Spec.Image } }

/-- Go `HPCJob.DeepCopyObject` (lines 21-26). -/
def DeepCopyObject (src : HPCJob) : HPCJob := DeepCopyInto src {}

instance : CustomResource HPCJob where
  meta := fun cr => cr.ObjectMeta
  putStatus := fun stored sent =>
    { stored with
      Status :=
        { State := sent.Status.State
          CompletionTime := storedTime sent.Status.CompletionTime } }
  DeepCopyObject := DeepCopyObject

/-- Go `getDeploymentObject` (`src/cmd/controller/main.go`, lines 208-251). -/
def getDeploymentObject (hpcJob : HPCJob) : Deployment :=
  let pullPolicy :=
    if hpcJob.Spec.ImagePullPolicy ≠ "" then hpcJob.Spec.ImagePullPolicy else PullIfNotPresent
  { ObjectMeta := { Name := hpcJob.ObjectMeta.Name }
    Spec :=
      { Replicas := some (int32 hpcJob.Spec.Replicas)
        Selector := some [("app", hpcJob.ObjectMeta.Name)]
        Template :=
          { Labels := [("app", hpcJob.ObjectMeta.Name)]
            Containers :=
              [{ Name := hpcJob.ObjectMeta.Name
                 Image := hpcJob.Spec.Image
                 ImagePullPolicy := pullPolicy
                 Ports := [8080]
                 Env := [("JOB_NAME", hpcJob.Spec.JobName),
                         ("JOB_PARAMS", sprintMap hpcJob.Spec.JobParams)] }] } } }

/-- Go `getServiceObject` (lines 253-268). -/
def getServiceObject (hpcJob : HPCJob) : Service :=
  { ObjectMeta := { Name := hpcJob.ObjectMeta.Name }
    Spec :=
      { Selector := [("app", hpcJob.ObjectMeta.Name)]
        Ports := [{ Port := 8080, TargetPort := IntOrString.ofInt 8080 }] } }

/-- Go `HPCJobReconciler.updateJobStatus` (lines 271-302): the error it returns, if any, the
`hpcJob` object as the function leaves it, and the world after. -/
def updateJobStatus (hpcJob : HPCJob) (w : World HPCJob) :
    Option ApiError × HPCJob × World HPCJob :=
  let hpcJob :=
    if hpcJob.Status.State = "" then
      { hpcJob with Status := { hpcJob.Status with State := "Pending" } }
    else hpcJob
  match w.updateStatus hpcJob with
  | (some e, w) => (some e, hpcJob, w)
  | (none, w) => (none, hpcJob, w)

/-- The deletion path of `Reconcile` (lines 64-75), taken when the HPCJob is not found. -/
def cleanup (req : Request) (hpcJobName : String) (w : World HPCJob) :
    Outcome × World HPCJob :=
  match w.deleteDeployment req.Namespace hpcJobName with
  | (some e, w) => (.error ⟨["couldn't delete deployment"], e⟩, w)
  | (none, w) =>
    match w.deleteService req.Namespace hpcJobName with
    | (some e, w) => (.error ⟨["couldn't delete service"], e⟩, w)
    | (none, w) => (.ok {}, w)

/-- The create path of `Reconcile` (lines 87-101), taken when the deployment is not found. -/
def createChildren (req : Request) (hpcJob : HPCJob) (w : World HPCJob) :
    Outcome × World HPCJob :=
  match w.createDeployment req.Namespace (getDeploymentObject hpcJob) with
  | (some e, w) => (.error ⟨["couldn't create deployment"], e⟩, w)
  | (none, w) =>
    match w.createService req.Namespace (getServiceObject hpcJob) with
    | (some e, w) => (.error ⟨["couldn't create service"], e⟩, w)
    | (none, w) => (.ok {}, w)

/-- The replica update of `Reconcile` (lines 109-120), taken when the replica count of the
fetched deployment differs from the one of the spec. -/
def scaleDeployment (req : Request) (hpcJob : HPCJob) (deployment : Deployment)
    (w : World HPCJob) : Outcome × World HPCJob :=
  let deployment :=
    { deployment with
      Spec := { deployment.Spec with Replicas := some (int32 hpcJob.Spec.Replicas) } }
  match w.updateDeployment req.Namespace deployment with
  | (some e, w) => (.error ⟨["couldn't update deployment"], e⟩, w)
  | (none, w) => (.ok {}, w)

/-- The simulated completion of `Reconcile` (lines 130-143), run on the `hpcJob` object as
`updateJobStatus` left it. -/
def simulateCompletion (hpcJob : HPCJob) (w : World HPCJob) : Outcome × World HPCJob :=
  if hpcJob.Status.State ≠ "Completed" then
    let w := w.sleep 5
    let hpcJob :=
      { hpcJob with Status := { State := "Completed", CompletionTime := some zeroTime } }
    match w.updateStatus hpcJob with
    | (some e, w) => (.error ⟨["failed to update HPCJob status"], e⟩, w)
    | (none, w) => (.ok {}, w)
  else (.ok {}, w)

/-- Go `HPCJobReconciler.Reconcile` (lines 49-144). The name of the children is computed
from the `hpcJob` variable before the fetch fills it (lines 53-59). -/
def Reconcile (req : Request) (w : World HPCJob) : Outcome × World HPCJob :=
  let hpcJob : HPCJob := {}
  let hpcJobName := hpcJob.ObjectMeta.Name ++ req.Name
  match w.getCR req.Namespace req.Name with
  | (.error e, w) =>
    if e = .notFound then cleanup req hpcJobName w else (.error ⟨[], e⟩, w)
  | (.ok hpcJob, w) =>
    match w.getDeployment req.Namespace hpcJobName with
    | (.error e, w) =>
      if e = .notFound then createChildren req hpcJob w
      else (.error ⟨["couldn't get object"], e⟩, w)
    | (.ok deployment, w) =>
      match deployment.Spec.Replicas with
      | none => (.panic "invalid memory address or nil pointer dereference", w)
      | some live =>
        if live ≠ hpcJob.Spec.Replicas then scaleDeployment req hpcJob deployment w
        else
          match updateJobStatus hpcJob w with
          | (some e, _, w) =>
            (.error ⟨["failed to update job status", "failed to update HPCJob status"], e⟩, w)
          | (none, hpcJob, w) => simulateCompletion hpcJob w

end HPC

/-! ## Example objects -/

namespace Examples

/-- A pod in the Failed phase. -/
def failedPod : Pod := { Status := { Phase := PodFailed } }

/-- A Running pod whose only container is ready. -/
def readyPod : Pod :=
  { Status := { Phase := PodRunning, ContainerStatuses := [{ Name := "main", Ready := true }] } }

/-- A Running pod whose only container is not ready yet. -/
def unreadyPod : Pod :=
  { Status := { Phase := PodRunning, ContainerStatuses := [{ Name := "main", Ready := false }] } }

/-- A pod in the Succeeded phase. -/
def succeededPod : Pod := { Status := { Phase := PodSucceeded } }

/-- A pod in the Pending phase, no container status yet. -/
def pendingPod : Pod := { Status := { Phase := PodPending } }

/-- A container status waiting with reason CrashLoopBackOff. -/
def crashLoopStatus : ContainerStatus :=
  { Name := "main", Ready := false, State := { Waiting := some { Reason := "CrashLoopBackOff" } } }

/-- A pod in the Pending phase that reports a container in CrashLoopBackOff. -/
def crashLoopPendingPod : Pod :=
  { Status := { Phase := PodPending, ContainerStatuses := [crashLoopStatus] } }

/-- A pod in the Running phase that reports a container in CrashLoopBackOff. -/
def crashLoopRunningPod : Pod :=
  { Status := { Phase := PodRunning, ContainerStatuses := [crashLoopStatus] } }

/-- A sample validity test for storage quantities: it accepts "1Gi" and "10Gi". -/
def validQuantity (str : String) : Bool := str == "1Gi" || str == "10Gi"

/-- The request for the Database `default/db`. -/
def dbReq : Request := { Namespace := "default", Name := "db" }

/-- A Database `default/db` asking for three replicas, no status yet. -/
def database : Stateful.Database :=
  { ObjectMeta := { Name := "db", Namespace := "default" }
    Spec := { DatabaseName := "db", Image := "postgres:16", Replicas := 3, Storage := "1Gi" } }

/-- The stateful set of `database` with three desired replicas, `ready` of them ready. -/
def dbStatefulSet (ready : Int) : StatefulSet :=
  { ObjectMeta := { Name := "db", Namespace := "default" }
    Spec := { Replicas := some 3, Selector := some [("app", "db")], ServiceName := "db" }
    Status := { Replicas := 3, ReadyReplicas := ready } }

/-- A cluster holding `database`, its headless service and its stateful set with `ready`
ready replicas; no fault is injected. -/
def dbWorld (ready : Int) : World Stateful.Database :=
  { crs := fun k => if k = ("default", "db") then some database else none
    services := fun k =>
      if k = ("default", "db") then some (Stateful.makeHeadlessService "db") else none
    statefulSets := fun k => if k = ("default", "db") then some (dbStatefulSet ready) else none }

/-- The cluster after a pass on `dbWorld 0`, once two replicas have become ready. -/
def dbWorldSecond : World Stateful.Database :=
  ((Stateful.Reconcile validQuantity dbReq (dbWorld 0)).2.nextPass []).setStatefulSet
    ("default", "db") (some (dbStatefulSet 2))

/-- The cluster after a further pass on `dbWorldSecond`, once all three replicas are ready. -/
def dbWorldThird : World Stateful.Database :=
  ((Stateful.Reconcile validQuantity dbReq dbWorldSecond).2.nextPass []).setStatefulSet
    ("default", "db") (some (dbStatefulSet 3))

/-- The request for the custom resource `default/job`. -/
def jobReq : Request := { Namespace := "default", Name := "job" }

/-- A service `job` as the job controllers build it. -/
def jobService : Service :=
  { ObjectMeta := { Name := "job" }
    Spec := { Selector := [("app", "job")],
              Ports := [{ Port := 8080, TargetPort := IntOrString.ofInt 8080 }] } }

/-- A deployment `job` with `live` replicas. -/
def jobDeployment (live : Int) : Deployment :=
  { ObjectMeta := { Name := "job" }
    Spec := { Replicas := some live, Selector := some [("app", "job")],
              Template := { Labels := [("app", "job")] } }
    Status := { Replicas := live, ReadyReplicas := live } }

/-- A cluster of the stateless kind where the TaskJob `default/job` is gone, its deployment
is gone too, and its service is still there. -/
def taskOrphanService : World Stateless.TaskJob :=
  { services := fun k => if k = ("default", "job") then some jobService else none }

/-- A cluster of the stateless kind where the TaskJob `default/job` is gone and both of its
children are still there. -/
def taskOrphans : World Stateless.TaskJob :=
  { deployments := fun k => if k = ("default", "job") then some (jobDeployment 1) else none
    services := fun k => if k = ("default", "job") then some jobService else none }

/-- A cluster of the HPC kind where the HPCJob `default/job` is gone, its deployment is gone
too, and its service is still there. -/
def hpcOrphanService : World HPC.HPCJob :=
  { services := fun k => if k = ("default", "job") then some jobService else none }

/-- A cluster of the HPC kind where the HPCJob `default/job` is gone and both of its
children are still there. -/
def hpcOrphans : World HPC.HPCJob :=
  { deployments := fun k => if k = ("default", "job") then some (jobDeployment 1) else none
    services := fun k => if k = ("default", "job") then some jobService else none }

/-- A cluster of the stateful kind where the Database `default/db` is gone and both of its
children, the stateful set and the headless service, are still there. -/
def dbOrphans : World Stateful.Database :=
  { services := fun k =>
      if k = ("default", "db") then some (Stateful.makeHeadlessService "db") else none
    statefulSets := fun k => if k = ("default", "db") then some (dbStatefulSet 3) else none }

/-- An HPCJob `default/job` asking for one replica, whose stored state is "Completed", as
an HPC pass leaves it on the server. -/
def hpcCompletedJob : HPC.HPCJob :=
  { ObjectMeta := { Name := "job", Namespace := "default" }
    Spec := { JobName := "job", Image := "hpc:1", Replicas := 1 }
    Status := { State := "Completed" } }

/-- A converged cluster of the HPC kind: the HPCJob is "Completed", its deployment has the
desired replica count, its service exists; no fault is injected. -/
def hpcConverged : World HPC.HPCJob :=
  { crs := fun k => if k = ("default", "job") then some hpcCompletedJob else none
    deployments := fun k => if k = ("default", "job") then some (jobDeployment 1) else none
    services := fun k => if k = ("default", "job") then some jobService else none }

/-- A TaskJob `default/job` asking for five replicas, no status yet. -/
def taskJobFive : Stateless.TaskJob :=
  { ObjectMeta := { Name := "job", Namespace := "default" }
    Spec := { JobName := "job", Image := "task:1", Replicas := 5 } }

/-- A cluster of the stateless kind: `taskJobFive`, its deployment with two replicas, its
service; no fault is injected. -/
def taskScale : World Stateless.TaskJob :=
  { crs := fun k => if k = ("default", "job") then some taskJobFive else none
    deployments := fun k => if k = ("default", "job") then some (jobDeployment 2) else none
    services := fun k => if k = ("default", "job") then some jobService else none }

/-- An HPCJob `default/job` asking for five replicas, no status yet. -/
def hpcJobFive : HPC.HPCJob :=
  { ObjectMeta := { Name := "job", Namespace := "default" }
    Spec := { JobName := "job", Image := "hpc:1", Replicas := 5 } }

/-- A cluster of the HPC kind: `hpcJobFive`, its deployment with two replicas, its service;
no fault is injected. -/
def hpcScale : World HPC.HPCJob :=
  { crs := fun k => if k = ("default", "job") then some hpcJobFive else none
    deployments := fun k => if k = ("default", "job") then some (jobDeployment 2) else none
    services := fun k => if k = ("default", "job") then some jobService else none }

/-- A Database `default/db` asking for five replicas. -/
def databaseFive : Stateful.Database :=
  { ObjectMeta := { Name := "db", Namespace := "default" }
    Spec := { DatabaseName := "db", Image := "postgres:16", Replicas := 5, Storage := "1Gi" } }

/-- A stateful set `db` with two desired replicas, both ready. -/
def dbStatefulSetTwo : StatefulSet :=
  { ObjectMeta := { Name := "db", Namespace := "default" }
    Spec := { Replicas := some 2, Selector := some [("app", "db")], ServiceName := "db" }
    Status := { Replicas := 2, ReadyReplicas := 2 } }

/-- A cluster of the stateful kind: `databaseFive` and its stateful set with two replicas;
the headless service is absent; no fault is injected. -/
def dbScaleNoService : World Stateful.Database :=
  { crs := fun k => if k = ("default", "db") then some databaseFive else none
    statefulSets := fun k => if k = ("default", "db") then some dbStatefulSetTwo else none }

/-- A cluster of the stateless kind holding `taskJobFive` and no child yet. -/
def taskFresh : World Stateless.TaskJob :=
  { crs := fun k => if k = ("default", "job") then some taskJobFive else none }

/-- A cluster of the stateless kind: `taskJobFive` with no status yet, its deployment with
five replicas, its service, and one ready pod under the selector `app=job`. -/
def taskSteady : World Stateless.TaskJob :=
  { crs := fun k => if k = ("default", "job") then some taskJobFive else none
    deployments := fun k => if k = ("default", "job") then some (jobDeployment 5) else none
    services := fun k => if k = ("default", "job") then some jobService else none
    pods := fun k => if k = ("default", "app=job") then [readyPod] else [] }

/-- The cluster `taskSteady` once the state "Running" is stored on the TaskJob. -/
def taskRunning : World Stateless.TaskJob :=
  { taskSteady with
    crs := fun k =>
      if k = ("default", "job") then
        some { taskJobFive with Status := { State := "Running" } }
      else none }

/-- The cluster `dbWorld 3` once the status "Ready" with three ready replicas is stored on
the Database. -/
def dbReady : World Stateful.Database :=
  { dbWorld 3 with
    crs := fun k =>
      if k = ("default", "db") then
        some { database with Status := { Phase := "Ready", ReadyReplicas := 3 } }
      else none }

/-- A Database `default/db` whose spec leaves storage, image and pull policy empty. -/
def databaseBare : Stateful.Database :=
  { ObjectMeta := { Name := "db", Namespace := "default" }
    Spec := { DatabaseName := "db", Replicas := 1 } }

/-- An HPCJob with a pull policy in its spec and a completed status. -/
def hpcJobAlways : HPC.HPCJob :=
  { TypeMeta := { Kind := "HPCJob", APIVersion := "kubernetes.hpc.com/v1" }
    ObjectMeta := { Name := "job", Namespace := "default" }
    Spec := { JobName := "job", Image := "hpc:1", ImagePullPolicy := "Always", Replicas := 1 }
    Status := { State := "Completed", CompletionTime := some 1700000000 } }

/-- A TaskJob with a completed status. -/
def taskJobDone : Stateless.TaskJob :=
  { TypeMeta := { Kind := "TaskJob" }
    ObjectMeta := { Name := "job", Namespace := "default" }
    Spec := { JobName := "job", Image := "task:1", ImagePullPolicy := "Always", Replicas := 1 }
    Status := { State := "Completed", CompletionTime := some 1700000000 } }

/-- A Database whose status says "Ready" with three ready replicas. -/
def databaseReady : Stateful.Database :=
  { database with Status := { Phase := "Ready", ReadyReplicas := 3 } }

/-- A TaskJob `default/job` whose spec names the job `worker`. -/
def taskJobWorker : Stateless.TaskJob :=
  { ObjectMeta := { Name := "job", Namespace := "default" }
    Spec := { JobName := "worker", Image := "task:1", Replicas := 1 } }

/-- A cluster of the stateless kind holding `taskJobWorker` and no child yet. -/
def taskWorkerFresh : World Stateless.TaskJob :=
  { crs := fun k => if k = ("default", "job") then some taskJobWorker else none }

/-- A cluster of the stateless kind where `taskJobWorker` is gone and the children built for
it, named `worker`, are still there. -/
def taskWorkerOrphans : World Stateless.TaskJob :=
  { deployments := fun k =>
      if k = ("default", "worker") then some (Stateless.getDeploymentObject taskJobWorker)
      else none
    services := fun k =>
      if k = ("default", "worker") then some (Stateless.getServiceObject taskJobWorker)
      else none }

/-- A TaskJob `default/job` whose spec leaves the job name empty. -/
def taskJobUnnamed : Stateless.TaskJob :=
  { ObjectMeta := { Name := "job", Namespace := "default" }
    Spec := { Image := "task:1", Replicas := 1 } }

/-- The cluster `taskFresh` with a fault ahead: the fourth API call of the pass, the create
of the service, is answered with an error. -/
def taskCreateFails : World Stateless.TaskJob :=
  { taskFresh with faults := [none, none, none, some .unavailable] }

/-- A cluster of the HPC kind holding `hpcJobFive` and no child yet. -/
def hpcFresh : World HPC.HPCJob :=
  { crs := fun k => if k = ("default", "job") then some hpcJobFive else none }

/-- The cluster `hpcFresh` with a fault ahead: the fourth API call of the pass, the create
of the service, is answered with an error. -/
def hpcCreateFails : World HPC.HPCJob :=
  { hpcFresh with faults := [none, none, none, some .unavailable] }

/-- A TaskJob `default/job` asking for 4294967298 replicas, a count beyond 32 bits. -/
def taskJobHuge : Stateless.TaskJob :=
  { ObjectMeta := { Name := "job", Namespace := "default" }
    Spec := { JobName := "job", Image := "task:1", Replicas := 4294967298 } }

/-- A cluster of the stateless kind: `taskJobHuge`, its deployment with two replicas, its
service; no fault is injected. -/
def taskHuge : World Stateless.TaskJob :=
  { crs := fun k => if k = ("default", "job") then some taskJobHuge else none
    deployments := fun k => if k = ("default", "job") then some (jobDeployment 2) else none
    services := fun k => if k = ("default", "job") then some jobService else none }

/-- A TaskJob `default/job` asking for zero replicas. -/
def taskJobZero : Stateless.TaskJob :=
  { ObjectMeta := { Name := "job", Namespace := "default" }
    Spec := { JobName := "job", Image := "task:1", Replicas := 0 } }

/-- A TaskJob `default/job` asking for minus one replica. -/
def taskJobNegative : Stateless.TaskJob :=
  { ObjectMeta := { Name := "job", Namespace := "default" }
    Spec := { JobName := "job", Image := "task:1", Replicas := -1 } }

/-- A cluster of the stateless kind holding `taskJobNegative` and no child; the server
refuses the third API call of the pass, the create of the deployment, as invalid. -/
def taskNegative : World Stateless.TaskJob :=
  { crs := fun k => if k = ("default", "job") then some taskJobNegative else none
    faults := [none, none, some .invalid] }

/-- An HPCJob `default/job` asking for minus one replica. -/
def hpcJobNegative : HPC.HPCJob :=
  { ObjectMeta := { Name := "job", Namespace := "default" }
    Spec := { JobName := "job", Image := "hpc:1", Replicas := -1 } }

/-- A cluster of the HPC kind holding `hpcJobNegative` and no child; the server refuses the
third API call of the pass, the create of the deployment, as invalid. -/
def hpcNegative : World HPC.HPCJob :=
  { crs := fun k => if k = ("default", "job") then some hpcJobNegative else none
    faults := [none, none, some .invalid] }

/-- A Database `default/db` asking for minus one replica. -/
def databaseNegative : Stateful.Database :=
  { ObjectMeta := { Name := "db", Namespace := "default" }
    Spec := { DatabaseName := "db", Image := "postgres:16", Replicas := -1, Storage := "1Gi" } }

/-- A cluster of the stateful kind holding `databaseNegative` and its headless service, no
stateful set; the server refuses the fourth API call of the pass, the create of the
stateful set, as invalid. -/
def dbNegative : World Stateful.Database :=
  { crs := fun k => if k = ("default", "db") then some databaseNegative else none
    services := fun k =>
      if k = ("default", "db") then some (Stateful.makeHeadlessService "db") else none
    faults := [none, none, none, some .invalid] }

/-- A cluster of the stateless kind: `taskJobFive` with no status yet, its deployment with
five replicas, its service, one succeeded pod under the selector `app=job`, and the clock
at 1700000000. -/
def taskSucceeded : World Stateless.TaskJob :=
  { crs := fun k => if k = ("default", "job") then some taskJobFive else none
    deployments := fun k => if k = ("default", "job") then some (jobDeployment 5) else none
    services := fun k => if k = ("default", "job") then some jobService else none
    pods := fun k => if k = ("default", "app=job") then [succeededPod] else []
    now := 1700000000 }

/-- An HPCJob `default/job` asking for one replica, no status yet. -/
def hpcJobOne : HPC.HPCJob :=
  { ObjectMeta := { Name := "job", Namespace := "default" }
    Spec := { JobName := "job", Image := "hpc:1", Replicas := 1 } }

/-- A cluster of the HPC kind: `hpcJobOne`, its deployment with one replica, its service,
and the clock at 1700000000; no fault is injected. -/
def hpcSteady : World HPC.HPCJob :=
  { crs := fun k => if k = ("default", "job") then some hpcJobOne else none
    deployments := fun k => if k = ("default", "job") then some (jobDeployment 1) else none
    services := fun k => if k = ("default", "job") then some jobService else none
    now := 1700000000 }

/-- A Database `default/db` whose storage text, "big", is not a quantity. -/
def databaseBadStorage : Stateful.Database :=
  { ObjectMeta := { Name := "db", Namespace := "default" }
    Spec := { DatabaseName := "db", Image := "postgres:16", Replicas := 1, Storage := "big" } }

/-- A cluster of the stateful kind holding `databaseBadStorage` and no child yet; no fault
is injected. -/
def dbBadStorage : World Stateful.Database :=
  { crs := fun k => if k = ("default", "db") then some databaseBadStorage else none }

/-- A cluster of the stateful kind: `databaseBadStorage`, its headless service and a
stateful set `db` that carries no replica count; no fault is injected. -/
def dbNoReplicas : World Stateful.Database :=
  { crs := fun k => if k = ("default", "db") then some databaseBadStorage else none
    services := fun k =>
      if k = ("default", "db") then some (Stateful.makeHeadlessService "db") else none
    statefulSets := fun k =>
      if k = ("default", "db") then some { ObjectMeta := { Name := "db" } } else none }

/-- A deployment `job` that carries no replica count: the pointer is nil. -/
def deploymentNoReplicas : Deployment :=
  { ObjectMeta := { Name := "job" }
    Spec := { Selector := some [("app", "job")], Template := { Labels := [("app", "job")] } } }

/-- A cluster of the stateless kind: `taskJobFive` and a deployment `job` without a replica
count; no fault is injected. -/
def taskNoReplicas : World Stateless.TaskJob :=
  { crs := fun k => if k = ("default", "job") then some taskJobFive else none
    deployments := fun k => if k = ("default", "job") then some deploymentNoReplicas else none }

/-- A cluster of the HPC kind: `hpcJobFive` and a deployment `job` without a replica count;
no fault is injected. -/
def hpcNoReplicas : World HPC.HPCJob :=
  { crs := fun k => if k = ("default", "job") then some hpcJobFive else none
    deployments := fun k => if k = ("default", "job") then some deploymentNoReplicas else none }

/-- The cluster `taskScale` with a fault ahead: the second API call of the pass, the fetch of
the deployment, is answered with an error. -/
def taskScaleFetchFails : World Stateless.TaskJob :=
  { taskScale with faults := [none, some .unavailable] }

/-- A TaskJob `default/job` whose spec names the job `worker` and asks for five replicas. -/
def taskJobWorkerFive : Stateless.TaskJob :=
  { ObjectMeta := { Name := "job", Namespace := "default" }
    Spec := { JobName := "worker", Image := "task:1", Replicas := 5 } }

/-- The deployment `worker` as the stateless builder makes it for a TaskJob named `worker`
asking for two replicas. -/
def workerDeployment : Deployment :=
  Stateless.getDeploymentObject
    { ObjectMeta := { Name := "job", Namespace := "default" }
      Spec := { JobName := "worker", Image := "task:1", Replicas := 2 } }

/-- A cluster of the stateless kind: `taskJobWorkerFive` and its deployment, stored under
the job name `worker`, with two replicas; no fault is injected. -/
def taskWorkerScale : World Stateless.TaskJob :=
  { crs := fun k => if k = ("default", "job") then some taskJobWorkerFive else none
    deployments := fun k => if k = ("default", "worker") then some workerDeployment else none }

/-- A cluster of the stateless kind: `taskJobNegative` and its deployment with two replicas;
the server refuses the third API call of the pass, the update of the deployment, as
invalid. -/
def taskNegativeScale : World Stateless.TaskJob :=
  { crs := fun k => if k = ("default", "job") then some taskJobNegative else none
    deployments := fun k => if k = ("default", "job") then some (jobDeployment 2) else none
    faults := [none, none, some .invalid] }

/-- A Database `default/db` asking for minus one replica with the storage text "big", which
is not a quantity. -/
def databaseNegativeBad : Stateful.Database :=
  { ObjectMeta := { Name := "db", Namespace := "default" }
    Spec := { DatabaseName := "db", Image := "postgres:16", Replicas := -1, Storage := "big" } }

/-- A cluster of the stateful kind holding `databaseNegativeBad` and its headless service,
no stateful set; no fault is injected. -/
def dbNegativeBad : World Stateful.Database :=
  { crs := fun k => if k = ("default", "db") then some databaseNegativeBad else none
    services := fun k =>
      if k = ("default", "db") then some (Stateful.makeHeadlessService "db") else none }

/-- A TaskJob `default/job` asking for -4294967293 replicas, a negative count beyond 32
bits. -/
def taskJobWrap : Stateless.TaskJob :=
  { ObjectMeta := { Name := "job", Namespace := "default" }
    Spec := { JobName := "job", Image := "task:1", Replicas := -4294967293 } }

/-- A cluster of the stateless kind holding `taskJobWrap` and no child; no fault is
injected. -/
def taskWrap : World Stateless.TaskJob :=
  { crs := fun k => if k = ("default", "job") then some taskJobWrap else none }

/-- A cluster of the stateless kind holding `taskJobNegative`, its deployment with two
replicas and its service, where the fetch of the TaskJob is answered not found. -/
def taskNegativeUnseen : World Stateless.TaskJob :=
  { crs := fun k => if k = ("default", "job") then some taskJobNegative else none
    deployments := fun k => if k = ("default", "job") then some (jobDeployment 2) else none
    services := fun k => if k = ("default", "job") then some jobService else none
    faults := [some .notFound] }

/-- A cluster of the stateless kind: `taskJobDone`, stored as "Completed" since 1700000000,
its deployment with one replica, its service, one succeeded pod under the selector
`app=job`, and the clock at 1700000600; no fault is injected. -/
def taskDone : World Stateless.TaskJob :=
  { crs := fun k => if k = ("default", "job") then some taskJobDone else none
    deployments := fun k => if k = ("default", "job") then some (jobDeployment 1) else none
    services := fun k => if k = ("default", "job") then some jobService else none
    pods := fun k => if k = ("default", "app=job") then [succeededPod] else []
    now := 1700000600 }

/-- The cluster `taskDone` with a ready pod in place of the succeeded one. -/
def taskDoneRestarted : World Stateless.TaskJob :=
  { taskDone with pods := fun k => if k = ("default", "app=job") then [readyPod] else [] }

end Examples

/-! ## Theorems -/

/-! ### The API server: what each call does -/

namespace World

variable {CR : Type}

@[simp] theorem record_crs (w : World CR) (call : Call CR) (answer : Option ApiError) :
    (w.record call answer).crs = w.crs := rfl

@[simp] theorem record_deployments (w : World CR) (call : Call CR) (answer : Option ApiError) :
    (w.record call answer).deployments = w.deployments := rfl

@[simp] theorem record_services (w : World CR) (call : Call CR) (answer : Option ApiError) :
    (w.record call answer).services = w.services := rfl

@[simp] theorem record_statefulSets (w : World CR) (call : Call CR) (answer : Option ApiError) :
    (w.record call answer).statefulSets = w.statefulSets := rfl

@[simp] theorem record_pods (w : World CR) (call : Call CR) (answer : Option ApiError) :
    (w.record call answer).pods = w.pods := rfl

@[simp] theorem record_now (w : World CR) (call : Call CR) (answer : Option ApiError) :
    (w.record call answer).now = w.now := rfl

@[simp] theorem record_faults (w : World CR) (call : Call CR) (answer : Option ApiError) :
    (w.record call answer).faults = w.faults.tail := rfl

@[simp] theorem record_trace (w : World CR) (call : Call CR) (answer : Option ApiError) :
    (w.record call answer).trace = w.trace ++ [⟨call, answer⟩] := rfl

@[simp] theorem setCR_crs (w : World CR) (key : String × String) (v : Option CR) :
    (w.setCR key v).crs = Function.update w.crs key v := rfl

@[simp] theorem setCR_deployments (w : World CR) (key : String × String) (v : Option CR) :
    (w.setCR key v).deployments = w.deployments := rfl

@[simp] theorem setCR_services (w : World CR) (key : String × String) (v : Option CR) :
    (w.setCR key v).services = w.services := rfl

@[simp] theorem setCR_statefulSets (w : World CR) (key : String × String) (v : Option CR) :
    (w.setCR key v).statefulSets = w.statefulSets := rfl

@[simp] theorem setCR_pods (w : World CR) (key : String × String) (v : Option CR) :
    (w.setCR key v).pods = w.pods := rfl

@[simp] theorem setCR_now (w : World CR) (key : String × String) (v : Option CR) :
    (w.setCR key v).now = w.now := rfl

@[simp] theorem setCR_faults (w : World CR) (key : String × String) (v : Option CR) :
    (w.setCR key v).faults = w.faults := rfl

@[simp] theorem setCR_trace (w : World CR) (key : String × String) (v : Option CR) :
    (w.setCR key v).trace = w.trace := rfl

@[simp] theorem setCR_fault (w : World CR) (key : String × String) (v : Option CR) :
    (w.setCR key v).fault = w.fault := rfl

@[simp] theorem setDeployment_crs (w : World CR) (key : String × String) (v : Option Deployment) :
    (w.setDeployment key v).crs = w.crs := rfl

@[simp] theorem setDeployment_deployments (w : World CR) (key : String × String) (v : Option Deployment) :
    (w.setDeployment key v).deployments = Function.update w.deployments key v := rfl

@[simp] theorem setDeployment_services (w : World CR) (key : String × String) (v : Option Deployment) :
    (w.setDeployment key v).services = w.services := rfl

@[simp] theorem setDeployment_statefulSets (w : World CR) (key : String × String) (v : Option Deployment) :
    (w.setDeployment key v).statefulSets = w.statefulSets := rfl

@[simp] theorem setDeployment_pods (w : World CR) (key : String × String) (v : Option Deployment) :
    (w.setDeployment key v).pods = w.pods := rfl

@[simp] theorem setDeployment_now (w : World CR) (key : String × String) (v : Option Deployment) :
    (w.setDeployment key v).now = w.now := rfl

@[simp] theorem setDeployment_faults (w : World CR) (key : String × String) (v : Option Deployment) :
    (w.setDeployment key v).faults = w.faults := rfl

@[simp] theorem setDeployment_trace (w : World CR) (key : String × String) (v : Option Deployment) :
    (w.setDeployment key v).trace = w.trace := rfl

@[simp] theorem setDeployment_fault (w : World CR) (key : String × String) (v : Option Deployment) :
    (w.setDeployment key v).fault = w.fault := rfl

@[simp] theorem setService_crs (w : World CR) (key : String × String) (v : Option Service) :
    (w.setService key v).crs = w.crs := rfl

@[simp] theorem setService_deployments (w : World CR) (key : String × String) (v : Option Service) :
    (w.setService key v).deployments = w.deployments := rfl

@[simp] theorem setService_services (w : World CR) (key : String × String) (v : Option Service) :
    (w.setService key v).services = Function.update w.services key v := rfl

@[simp] theorem setService_statefulSets (w : World CR) (key : String × String) (v : Option Service) :
    (w.setService key v).statefulSets = w.statefulSets := rfl

@[simp] theorem setService_pods (w : World CR) (key : String × String) (v : Option Service) :
    (w.setService key v).pods = w.pods := rfl

@[simp] theorem setService_now (w : World CR) (key : String × String) (v : Option Service) :
    (w.setService key v).now = w.now := rfl

@[simp] theorem setService_faults (w : World CR) (key : String × String) (v : Option Service) :
    (w.setService key v).faults = w.faults := rfl

@[simp] theorem setService_trace (w : World CR) (key : String × String) (v : Option Service) :
    (w.setService key v).trace = w.trace := rfl

@[simp] theorem setService_fault (w : World CR) (key : String × String) (v : Option Service) :
    (w.setService key v).fault = w.fault := rfl

@[simp] theorem setStatefulSet_crs (w : World CR) (key : String × String) (v : Option StatefulSet) :
    (w.setStatefulSet key v).crs = w.crs := rfl

@[simp] theorem setStatefulSet_deployments (w : World CR) (key : String × String) (v : Option StatefulSet) :
    (w.setStatefulSet key v).deployments = w.deployments := rfl

@[simp] theorem setStatefulSet_services (w : World CR) (key : String × String) (v : Option StatefulSet) :
    (w.setStatefulSet key v).services = w.services := rfl

@[simp] theorem setStatefulSet_statefulSets (w : World CR) (key : String × String) (v : Option StatefulSet) :
    (w.setStatefulSet key v).statefulSets = Function.update w.statefulSets key v := rfl

@[simp] theorem setStatefulSet_pods (w : World CR) (key : String × String) (v : Option StatefulSet) :
    (w.setStatefulSet key v).pods = w.pods := rfl

@[simp] theorem setStatefulSet_now (w : World CR) (key : String × String) (v : Option StatefulSet) :
    (w.setStatefulSet key v).now = w.now := rfl

@[simp] theorem setStatefulSet_faults (w : World CR) (key : String × String) (v : Option StatefulSet) :
    (w.setStatefulSet key v).faults = w.faults := rfl

@[simp] theorem setStatefulSet_trace (w : World CR) (key : String × String) (v : Option StatefulSet) :
    (w.setStatefulSet key v).trace = w.trace := rfl

@[simp] theorem setStatefulSet_fault (w : World CR) (key : String × String) (v : Option StatefulSet) :
    (w.setStatefulSet key v).fault = w.fault := rfl

@[simp] theorem nextPass_crs (w : World CR) (faults : List (Option ApiError)) :
    (w.nextPass faults).crs = w.crs := rfl

@[simp] theorem nextPass_deployments (w : World CR) (faults : List (Option ApiError)) :
    (w.nextPass faults).deployments = w.deployments := rfl

@[simp] theorem nextPass_services (w : World CR) (faults : List (Option ApiError)) :
    (w.nextPass faults).services = w.services := rfl

@[simp] theorem nextPass_statefulSets (w : World CR) (faults : List (Option ApiError)) :
    (w.nextPass faults).statefulSets = w.statefulSets := rfl

@[simp] theorem nextPass_pods (w : World CR) (faults : List (Option ApiError)) :
    (w.nextPass faults).pods = w.pods := rfl

@[simp] theorem nextPass_now (w : World CR) (faults : List (Option ApiError)) :
    (w.nextPass faults).now = w.now := rfl

@[simp] theorem nextPass_faults (w : World CR) (faults : List (Option ApiError)) :
    (w.nextPass faults).faults = faults := rfl

@[simp] theorem nextPass_trace (w : World CR) (faults : List (Option ApiError)) :
    (w.nextPass faults).trace = [] := rfl

@[simp] theorem sleep_crs (w : World CR) (seconds : Nat) :
    (w.sleep seconds).crs = w.crs := rfl

@[simp] theorem sleep_deployments (w : World CR) (seconds : Nat) :
    (w.sleep seconds).deployments = w.deployments := rfl

@[simp] theorem sleep_services (w : World CR) (seconds : Nat) :
    (w.sleep seconds).services = w.services := rfl

@[simp] theorem sleep_statefulSets (w : World CR) (seconds : Nat) :
    (w.sleep seconds).statefulSets = w.statefulSets := rfl

@[simp] theorem sleep_pods (w : World CR) (seconds : Nat) :
    (w.sleep seconds).pods = w.pods := rfl

@[simp] theorem sleep_now (w : World CR) (seconds : Nat) :
    (w.sleep seconds).now = w.now + seconds := rfl

@[simp] theorem sleep_faults (w : World CR) (seconds : Nat) :
    (w.sleep seconds).faults = w.faults := rfl

@[simp] theorem sleep_trace (w : World CR) (seconds : Nat) :
    (w.sleep seconds).trace = w.trace ++ [⟨.sleep seconds, none⟩] := rfl

@[simp] theorem sleep_fault (w : World CR) (seconds : Nat) : (w.sleep seconds).fault = w.fault := rfl

theorem fault_of_faults_nil (w : World CR) (h : w.faults = []) : w.fault = none := by
  simp [fault, h]

theorem record_fault_of_faults_nil (w : World CR) (call : Call CR) (answer : Option ApiError)
    (h : w.faults = []) : (w.record call answer).fault = none := by
  simp [fault, h]

theorem fault_of_quiet (w : World CR) (n : Nat) (h : w.quiet (n + 1) = true) :
    w.fault = none := by
  unfold quiet at h
  unfold fault
  cases hf : w.faults with
  | nil => rfl
  | cons a rest =>
    rw [hf] at h
    cases a with
    | none => rfl
    | some e => simp at h

theorem record_quiet (w : World CR) (n : Nat) (call : Call CR) (answer : Option ApiError)
    (h : w.quiet (n + 1) = true) : (w.record call answer).quiet n = true := by
  unfold quiet at h ⊢
  cases hf : w.faults with
  | nil => simp [hf]
  | cons a rest =>
    rw [hf] at h
    simp only [List.take_succ_cons, List.all_cons, Bool.and_eq_true] at h
    simpa [hf] using h.2

theorem quiet_mono (w : World CR) (m n : Nat) (h : m ≤ n) (hq : w.quiet n = true) :
    w.quiet m = true := by
  unfold quiet at hq ⊢
  rw [List.all_eq_true] at hq ⊢
  intro x hx
  exact hq x (List.take_subset_take_left _ h hx)

@[simp] theorem setCR_quiet (w : World CR) (key : String × String) (v : Option CR) (n : Nat) :
    (w.setCR key v).quiet n = w.quiet n := rfl

@[simp] theorem setDeployment_quiet (w : World CR) (key : String × String)
    (v : Option Deployment) (n : Nat) : (w.setDeployment key v).quiet n = w.quiet n := rfl

@[simp] theorem setService_quiet (w : World CR) (key : String × String)
    (v : Option Service) (n : Nat) : (w.setService key v).quiet n = w.quiet n := rfl

@[simp] theorem setStatefulSet_quiet (w : World CR) (key : String × String)
    (v : Option StatefulSet) (n : Nat) : (w.setStatefulSet key v).quiet n = w.quiet n := rfl

@[simp] theorem sleep_quiet (w : World CR) (seconds n : Nat) :
    (w.sleep seconds).quiet n = w.quiet n := rfl

/-- The three answers of `getCR`: an injected fault, the copy of the stored object, or
not-found. -/
theorem getCR_cases [CustomResource CR] (ns name : String) (w : World CR) :
    (∃ e, w.fault = some e ∧
      w.getCR ns name = (.error e, w.record (.getCR ns name) (some e))) ∨
    (∃ obj, w.fault = none ∧ w.crs (ns, name) = some obj ∧
      w.getCR ns name =
        (.ok (CustomResource.DeepCopyObject obj), w.record (.getCR ns name) none)) ∨
    (w.fault = none ∧ w.crs (ns, name) = none ∧
      w.getCR ns name = (.error .notFound, w.record (.getCR ns name) (some .notFound))) := by
  unfold getCR
  cases hf : w.fault with
  | some e => exact Or.inl ⟨e, rfl, rfl⟩
  | none =>
    cases hc : w.crs (ns, name) with
    | some obj => exact Or.inr (Or.inl ⟨obj, rfl, rfl, rfl⟩)
    | none => exact Or.inr (Or.inr ⟨rfl, rfl, rfl⟩)

/-- The three answers of `getDeployment`: an injected fault, the stored object, or not-found. -/
theorem getDeployment_cases (ns name : String) (w : World CR) :
    (∃ e, w.fault = some e ∧
      w.getDeployment ns name = (.error e, w.record (.getDeployment ns name) (some e))) ∨
    (∃ obj, w.fault = none ∧ w.deployments (ns, name) = some obj ∧
      w.getDeployment ns name = (.ok obj, w.record (.getDeployment ns name) none)) ∨
    (w.fault = none ∧ w.deployments (ns, name) = none ∧
      w.getDeployment ns name = (.error .notFound, w.record (.getDeployment ns name) (some .notFound))) := by
  unfold getDeployment
  cases hf : w.fault with
  | some e => exact Or.inl ⟨e, rfl, rfl⟩
  | none =>
    cases hc : w.deployments (ns, name) with
    | some obj => exact Or.inr (Or.inl ⟨obj, rfl, rfl, rfl⟩)
    | none => exact Or.inr (Or.inr ⟨rfl, rfl, rfl⟩)

/-- The three answers of `getService`: an injected fault, the stored object, or not-found. -/
theorem getService_cases (ns name : String) (w : World CR) :
    (∃ e, w.fault = some e ∧
      w.getService ns name = (.error e, w.record (.getService ns name) (some e))) ∨
    (∃ obj, w.fault = none ∧ w.services (ns, name) = some obj ∧
      w.getService ns name = (.ok obj, w.record (.getService ns name) none)) ∨
    (w.fault = none ∧ w.services (ns, name) = none ∧
      w.getService ns name = (.error .notFound, w.record (.getService ns name) (some .notFound))) := by
  unfold getService
  cases hf : w.fault with
  | some e => exact Or.inl ⟨e, rfl, rfl⟩
  | none =>
    cases hc : w.services (ns, name) with
    | some obj => exact Or.inr (Or.inl ⟨obj, rfl, rfl, rfl⟩)
    | none => exact Or.inr (Or.inr ⟨rfl, rfl, rfl⟩)

/-- The three answers of `getStatefulSet`: an injected fault, the stored object, or not-found. -/
theorem getStatefulSet_cases (ns name : String) (w : World CR) :
    (∃ e, w.fault = some e ∧
      w.getStatefulSet ns name = (.error e, w.record (.getStatefulSet ns name) (some e))) ∨
    (∃ obj, w.fault = none ∧ w.statefulSets (ns, name) = some obj ∧
      w.getStatefulSet ns name = (.ok obj, w.record (.getStatefulSet ns name) none)) ∨
    (w.fault = none ∧ w.statefulSets (ns, name) = none ∧
      w.getStatefulSet ns name = (.error .notFound, w.record (.getStatefulSet ns name) (some .notFound))) := by
  unfold getStatefulSet
  cases hf : w.fault with
  | some e => exact Or.inl ⟨e, rfl, rfl⟩
  | none =>
    cases hc : w.statefulSets (ns, name) with
    | some obj => exact Or.inr (Or.inl ⟨obj, rfl, rfl, rfl⟩)
    | none => exact Or.inr (Or.inr ⟨rfl, rfl, rfl⟩)

/-- The three answers of `createDeployment`: an injected fault, already-exists, or success. -/
theorem createDeployment_cases (ns : String) (obj : Deployment) (w : World CR) :
    (∃ e, w.fault = some e ∧
      w.createDeployment ns obj = (some e, w.record (.createDeployment ns obj) (some e))) ∨
    (∃ old, w.fault = none ∧ w.deployments (ns, obj.ObjectMeta.Name) = some old ∧
      w.createDeployment ns obj = (some .alreadyExists, w.record (.createDeployment ns obj) (some .alreadyExists))) ∨
    (w.fault = none ∧ w.deployments (ns, obj.ObjectMeta.Name) = none ∧
      w.createDeployment ns obj = (none, (w.record (.createDeployment ns obj) none).setDeployment
        (ns, obj.ObjectMeta.Name) (some obj))) := by
  unfold createDeployment
  cases hf : w.fault with
  | some e => exact Or.inl ⟨e, rfl, rfl⟩
  | none =>
    cases hc : w.deployments (ns, obj.ObjectMeta.Name) with
    | some old => exact Or.inr (Or.inl ⟨old, rfl, rfl, rfl⟩)
    | none => exact Or.inr (Or.inr ⟨rfl, rfl, rfl⟩)

/-- The three answers of `createService`: an injected fault, already-exists, or success. -/
theorem createService_cases (ns : String) (obj : Service) (w : World CR) :
    (∃ e, w.fault = some e ∧
      w.createService ns obj = (some e, w.record (.createService ns obj) (some e))) ∨
    (∃ old, w.fault = none ∧ w.services (ns, obj.ObjectMeta.Name) = some old ∧
      w.createService ns obj = (some .alreadyExists, w.record (.createService ns obj) (some .alreadyExists))) ∨
    (w.fault = none ∧ w.services (ns, obj.ObjectMeta.Name) = none ∧
      w.createService ns obj = (none, (w.record (.createService ns obj) none).setService
        (ns, obj.ObjectMeta.Name) (some obj))) := by
  unfold createService
  cases hf : w.fault with
  | some e => exact Or.inl ⟨e, rfl, rfl⟩
  | none =>
    cases hc : w.services (ns, obj.ObjectMeta.Name) with
    | some old => exact Or.inr (Or.inl ⟨old, rfl, rfl, rfl⟩)
    | none => exact Or.inr (Or.inr ⟨rfl, rfl, rfl⟩)

/-- The three answers of `createStatefulSet`: an injected fault, already-exists, or success. -/
theorem createStatefulSet_cases (ns : String) (obj : StatefulSet) (w : World CR) :
    (∃ e, w.fault = some e ∧
      w.createStatefulSet ns obj = (some e, w.record (.createStatefulSet ns obj) (some e))) ∨
    (∃ old, w.fault = none ∧ w.statefulSets (ns, obj.ObjectMeta.Name) = some old ∧
      w.createStatefulSet ns obj = (some .alreadyExists, w.record (.createStatefulSet ns obj) (some .alreadyExists))) ∨
    (w.fault = none ∧ w.statefulSets (ns, obj.ObjectMeta.Name) = none ∧
      w.createStatefulSet ns obj = (none, (w.record (.createStatefulSet ns obj) none).setStatefulSet
        (ns, obj.ObjectMeta.Name) (some obj))) := by
  unfold createStatefulSet
  cases hf : w.fault with
  | some e => exact Or.inl ⟨e, rfl, rfl⟩
  | none =>
    cases hc : w.statefulSets (ns, obj.ObjectMeta.Name) with
    | some old => exact Or.inr (Or.inl ⟨old, rfl, rfl, rfl⟩)
    | none => exact Or.inr (Or.inr ⟨rfl, rfl, rfl⟩)

/-- The three answers of `updateDeployment`: an injected fault, success, or not-found. -/
theorem updateDeployment_cases (ns : String) (obj : Deployment) (w : World CR) :
    (∃ e, w.fault = some e ∧
      w.updateDeployment ns obj = (some e, w.record (.updateDeployment ns obj) (some e))) ∨
    (∃ old, w.fault = none ∧ w.deployments (ns, obj.ObjectMeta.Name) = some old ∧
      w.updateDeployment ns obj = (none, (w.record (.updateDeployment ns obj) none).setDeployment
        (ns, obj.ObjectMeta.Name) (some obj))) ∨
    (w.fault = none ∧ w.deployments (ns, obj.ObjectMeta.Name) = none ∧
      w.updateDeployment ns obj = (some .notFound, w.record (.updateDeployment ns obj) (some .notFound))) := by
  unfold updateDeployment
  cases hf : w.fault with
  | some e => exact Or.inl ⟨e, rfl, rfl⟩
  | none =>
    cases hc : w.deployments (ns, obj.ObjectMeta.Name) with
    | some old => exact Or.inr (Or.inl ⟨old, rfl, rfl, rfl⟩)
    | none => exact Or.inr (Or.inr ⟨rfl, rfl, rfl⟩)

/-- The three answers of `updateStatefulSet`: an injected fault, success, or not-found. -/
theorem updateStatefulSet_cases (ns : String) (obj : StatefulSet) (w : World CR) :
    (∃ e, w.fault = some e ∧
      w.updateStatefulSet ns obj = (some e, w.record (.updateStatefulSet ns obj) (some e))) ∨
    (∃ old, w.fault = none ∧ w.statefulSets (ns, obj.ObjectMeta.Name) = some old ∧
      w.updateStatefulSet ns obj = (none, (w.record (.updateStatefulSet ns obj) none).setStatefulSet
        (ns, obj.ObjectMeta.Name) (some obj))) ∨
    (w.fault = none ∧ w.statefulSets (ns, obj.ObjectMeta.Name) = none ∧
      w.updateStatefulSet ns obj = (some .notFound, w.record (.updateStatefulSet ns obj) (some .notFound))) := by
  unfold updateStatefulSet
  cases hf : w.fault with
  | some e => exact Or.inl ⟨e, rfl, rfl⟩
  | none =>
    cases hc : w.statefulSets (ns, obj.ObjectMeta.Name) with
    | some old => exact Or.inr (Or.inl ⟨old, rfl, rfl, rfl⟩)
    | none => exact Or.inr (Or.inr ⟨rfl, rfl, rfl⟩)

/-- The three answers of `deleteDeployment`: an injected fault, success, or not-found. -/
theorem deleteDeployment_cases (ns name : String) (w : World CR) :
    (∃ e, w.fault = some e ∧
      w.deleteDeployment ns name = (some e, w.record (.deleteDeployment ns name) (some e))) ∨
    (∃ old, w.fault = none ∧ w.deployments (ns, name) = some old ∧
      w.deleteDeployment ns name = (none, (w.record (.deleteDeployment ns name) none).setDeployment (ns, name) none)) ∨
    (w.fault = none ∧ w.deployments (ns, name) = none ∧
      w.deleteDeployment ns name = (some .notFound, w.record (.deleteDeployment ns name) (some .notFound))) := by
  unfold deleteDeployment
  cases hf : w.fault with
  | some e => exact Or.inl ⟨e, rfl, rfl⟩
  | none =>
    cases hc : w.deployments (ns, name) with
    | some old => exact Or.inr (Or.inl ⟨old, rfl, rfl, rfl⟩)
    | none => exact Or.inr (Or.inr ⟨rfl, rfl, rfl⟩)

/-- The three answers of `deleteService`: an injected fault, success, or not-found. -/
theorem deleteService_cases (ns name : String) (w : World CR) :
    (∃ e, w.fault = some e ∧
      w.deleteService ns name = (some e, w.record (.deleteService ns name) (some e))) ∨
    (∃ old, w.fault = none ∧ w.services (ns, name) = some old ∧
      w.deleteService ns name = (none, (w.record (.deleteService ns name) none).setService (ns, name) none)) ∨
    (w.fault = none ∧ w.services (ns, name) = none ∧
      w.deleteService ns name = (some .notFound, w.record (.deleteService ns name) (some .notFound))) := by
  unfold deleteService
  cases hf : w.fault with
  | some e => exact Or.inl ⟨e, rfl, rfl⟩
  | none =>
    cases hc : w.services (ns, name) with
    | some old => exact Or.inr (Or.inl ⟨old, rfl, rfl, rfl⟩)
    | none => exact Or.inr (Or.inr ⟨rfl, rfl, rfl⟩)

/-- The three answers of `updateStatus`: an injected fault, success, or not-found. -/
theorem updateStatus_cases [CustomResource CR] (obj : CR) (w : World CR) :
    (∃ e, w.fault = some e ∧
      w.updateStatus obj = (some e, w.record (.updateStatus obj) (some e))) ∨
    (∃ stored, w.fault = none ∧
      w.crs ((CustomResource.meta obj).Namespace, (CustomResource.meta obj).Name) = some stored ∧
      w.updateStatus obj = (none, (w.record (.updateStatus obj) none).setCR
        ((CustomResource.meta obj).Namespace, (CustomResource.meta obj).Name)
        (some (CustomResource.putStatus stored obj)))) ∨
    (w.fault = none ∧
      w.crs ((CustomResource.meta obj).Namespace, (CustomResource.meta obj).Name) = none ∧
      w.updateStatus obj = (some .notFound, w.record (.updateStatus obj) (some .notFound))) := by
  unfold updateStatus
  cases hf : w.fault with
  | some e => exact Or.inl ⟨e, rfl, rfl⟩
  | none =>
    cases hc : w.crs ((CustomResource.meta obj).Namespace, (CustomResource.meta obj).Name) with
    | some stored => exact Or.inr (Or.inl ⟨stored, rfl, by simp [hc]⟩)
    | none => exact Or.inr (Or.inr ⟨rfl, by simp [hc]⟩)

/-- The two answers of `listPods`: an injected fault, or the pods the selector matches. -/
theorem listPods_cases (ns selector : String) (w : World CR) :
    (∃ e, w.fault = some e ∧
      w.listPods ns selector = (.error e, w.record (.listPods ns selector) (some e))) ∨
    (w.fault = none ∧
      w.listPods ns selector =
        (.ok (w.pods (ns, selector)), w.record (.listPods ns selector) none)) := by
  unfold listPods
  cases hf : w.fault with
  | some e => exact Or.inl ⟨e, rfl, rfl⟩
  | none => exact Or.inr ⟨rfl, rfl⟩

end World

/-! ### Stateless kind: the state inferred from the pods -/

namespace Stateless

theorem running_ne_failed : PodRunning ≠ PodFailed := by decide

theorem failed_ne_running : PodFailed ≠ PodRunning := by decide

theorem succeeded_ne_running : PodSucceeded ≠ PodRunning := by decide

theorem succeeded_ne_failed : PodSucceeded ≠ PodFailed := by decide

theorem running_ne_succeeded : PodRunning ≠ PodSucceeded := by decide

theorem failed_ne_succeeded : PodFailed ≠ PodSucceeded := by decide

theorem crashLooping_iff (cs : ContainerStatus) :
    crashLooping cs = true ↔
      ∃ waiting, cs.State.Waiting = some waiting ∧ waiting.Reason = "CrashLoopBackOff" := by
  unfold crashLooping
  cases h : cs.State.Waiting with
  | none => simp
  | some waiting => simp

theorem containerLoop_allReady (css : List ContainerStatus) (a f : Bool) :
    (containerLoop css (a, f)).1 = true ↔ a = true ∧ ∀ cs ∈ css, cs.Ready = true := by
  induction css generalizing a f with
  | nil => simp [containerLoop]
  | cons cs rest ih =>
    rw [containerLoop, ih]
    cases hr : cs.Ready <;> simp [hr]

theorem containerLoop_hasFailed (css : List ContainerStatus) (a f : Bool) :
    (containerLoop css (a, f)).2 = true ↔ f = true ∨ ∃ cs ∈ css, crashLooping cs = true := by
  induction css generalizing a f with
  | nil => simp [containerLoop]
  | cons cs rest ih =>
    rw [containerLoop, ih]
    cases hc : crashLooping cs <;> simp [hc]

/-- What makes the pod loop set `hasFailed`: a Failed pod, or a Running pod with a
crash-looping container. -/
theorem scanPods_hasFailed (pods : List Pod) (s : Scan) :
    (scanPods pods s).hasFailed = true ↔
      s.hasFailed = true ∨ ∃ p ∈ pods, p.Status.Phase = PodFailed ∨
        (p.Status.Phase = PodRunning ∧ ∃ cs ∈ p.Status.ContainerStatuses, crashLooping cs = true) := by
  induction pods generalizing s with
  | nil => simp [scanPods]
  | cons p rest ih =>
    rw [scanPods, ih]
    unfold scanPod
    by_cases h1 : p.Status.Phase = PodRunning
    · have h2 : p.Status.Phase ≠ PodFailed := by rw [h1]; decide
      simp only [h1, if_true, containerLoop_hasFailed, List.mem_cons, exists_eq_or_imp]
      simp [running_ne_failed, or_assoc]
    · by_cases h2 : p.Status.Phase = PodFailed
      · simp [h2, failed_ne_running]
      · by_cases h3 : p.Status.Phase = PodSucceeded
        · simp [h3, succeeded_ne_running, succeeded_ne_failed]
        · simp [h1, h2, h3]

/-- What makes the pod loop set `hasReady`: a Running pod all of whose container statuses
are ready. -/
theorem scanPods_hasReady (pods : List Pod) (s : Scan) :
    (scanPods pods s).hasReady = true ↔
      s.hasReady = true ∨ ∃ p ∈ pods, p.Status.Phase = PodRunning ∧
        ∀ cs ∈ p.Status.ContainerStatuses, cs.Ready = true := by
  induction pods generalizing s with
  | nil => simp [scanPods]
  | cons p rest ih =>
    rw [scanPods, ih]
    unfold scanPod
    by_cases h1 : p.Status.Phase = PodRunning
    · simp only [h1, if_true, List.mem_cons, exists_eq_or_imp]
      by_cases hr : (containerLoop p.Status.ContainerStatuses (true, s.hasFailed)).1 = true
      · have hr2 := (containerLoop_allReady _ _ _).1 hr
        simp only [hr, if_true, true_or, true_iff]
        exact Or.inr (Or.inl ⟨trivial, hr2.2⟩)
      · have hr2 : ¬ ∀ cs ∈ p.Status.ContainerStatuses, cs.Ready = true := fun hall =>
          hr ((containerLoop_allReady _ _ _).2 ⟨rfl, hall⟩)
        simp [hr, hr2, h1]
    · by_cases h2 : p.Status.Phase = PodFailed
      · simp [h2, failed_ne_running]
      · by_cases h3 : p.Status.Phase = PodSucceeded
        · simp [h3, succeeded_ne_running, succeeded_ne_failed]
        · simp [h1, h2, h3]

theorem scanPods_state_completed (pods : List Pod) (s : Scan) (h : s.state = "Completed") :
    (scanPods pods s).state = "Completed" := by
  induction pods generalizing s with
  | nil => simpa [scanPods] using h
  | cons p rest ih =>
    rw [scanPods]
    apply ih
    unfold scanPod
    split
    · simpa using h
    · split
      · simpa using h
      · split <;> simp [h]

/-- A Succeeded pod makes the pod loop leave `state` at "Completed". -/
theorem scanPods_state_of_succeeded (pods : List Pod) (s : Scan)
    (h : ∃ p ∈ pods, p.Status.Phase = PodSucceeded) :
    (scanPods pods s).state = "Completed" := by
  induction pods generalizing s with
  | nil => simp at h
  | cons p rest ih =>
    rw [scanPods]
    rcases h with ⟨q, hq, hs⟩
    rcases List.mem_cons.1 hq with rfl | hq
    · apply scanPods_state_completed
      simp [scanPod, hs, succeeded_ne_running, succeeded_ne_failed]
    · exact ih _ ⟨q, hq, hs⟩

/-- Without a Succeeded pod the pod loop leaves `state` as it was. -/
theorem scanPods_state_of_no_succeeded (pods : List Pod) (s : Scan)
    (h : ∀ p ∈ pods, p.Status.Phase ≠ PodSucceeded) :
    (scanPods pods s).state = s.state := by
  induction pods generalizing s with
  | nil => simp [scanPods]
  | cons p rest ih =>
    rw [scanPods, ih _ (fun q hq => h q (List.mem_cons_of_mem _ hq))]
    have h3 := h p (List.mem_cons_self _ _)
    unfold scanPod
    split
    · rfl
    · split
      · rfl
      · simp [h3]

/-- C1: whenever the listed pods contain a pod in the Failed phase, the state that
`updateJobStatus` infers is "Failed", whatever the other pods are. -/
theorem inferState_failed_of_failed_pod (pods : List Pod)
    (h : ∃ p ∈ pods, p.Status.Phase = PodFailed) : inferState pods = "Failed" := by
  have hf : (scanPods pods { state := "Pending", hasReady := false, hasFailed := false }).hasFailed
      = true := by
    rw [scanPods_hasFailed]
    rcases h with ⟨p, hp, hph⟩
    exact Or.inr ⟨p, hp, Or.inl hph⟩
  simp [inferState, decideState, hf]

/-- C1, at one failed pod plus one ready pod: the state is "Failed" and not "Running". -/
theorem inferState_failed_of_failed_pod_witness :
    (∃ p ∈ [Examples.failedPod, Examples.readyPod], p.Status.Phase = PodFailed) ∧
      inferState [Examples.failedPod, Examples.readyPod] = "Failed" ∧
      inferState [Examples.failedPod, Examples.readyPod] ≠ "Running" :=
  have h : ∃ p ∈ [Examples.failedPod, Examples.readyPod], p.Status.Phase = PodFailed :=
    ⟨Examples.failedPod, by simp, rfl⟩
  ⟨h, inferState_failed_of_failed_pod _ h, by
    rw [inferState_failed_of_failed_pod _ h]; decide⟩

/-- C2: whenever the listed pods contain a pod in the Succeeded phase, no pod is in the
Failed phase and no Running pod reports a container waiting with reason CrashLoopBackOff
(the failure check of the pod loop does not trigger), the state that `updateJobStatus`
infers is "Completed", also when other pods of the list are Running and fully ready. -/
theorem inferState_completed_of_succeeded_pod (pods : List Pod)
    (hs : ∃ p ∈ pods, p.Status.Phase = PodSucceeded)
    (hnf : ∀ p ∈ pods, p.Status.Phase ≠ PodFailed)
    (hnc : ∀ p ∈ pods, p.Status.Phase = PodRunning → ∀ cs ∈ p.Status.ContainerStatuses,
      ¬ ∃ waiting, cs.State.Waiting = some waiting ∧ waiting.Reason = "CrashLoopBackOff") :
    inferState pods = "Completed" := by
  have hf : (scanPods pods { state := "Pending", hasReady := false, hasFailed := false }).hasFailed
      = false := by
    rw [← Bool.not_eq_true, scanPods_hasFailed]
    rintro (h | ⟨p, hp, h | ⟨hr, cs, hcs, hc⟩⟩)
    · simp at h
    · exact hnf p hp h
    · exact hnc p hp hr cs hcs ((crashLooping_iff cs).1 hc)
  have hst := scanPods_state_of_succeeded pods
    { state := "Pending", hasReady := false, hasFailed := false } hs
  simp [inferState, decideState, hf, hst]

/-- C2, at one succeeded pod next to a pod that is still Running and fully ready. -/
theorem inferState_completed_of_succeeded_pod_witness :
    inferState [Examples.readyPod, Examples.succeededPod] = "Completed" :=
  inferState_completed_of_succeeded_pod [Examples.readyPod, Examples.succeededPod]
    ⟨Examples.succeededPod, by simp, rfl⟩
    (by decide)
    (by decide)

/-- C3: when no pod is in the Failed phase, no Running pod reports a container waiting with
reason CrashLoopBackOff and no pod is in the Succeeded phase, the state that
`updateJobStatus` infers is "Running" if and only if some pod is in the Running phase with
every one of its container statuses ready, and is "Pending" otherwise; the empty list and
every list of pods that are all in the Pending phase give "Pending". -/
theorem inferState_running_iff_ready_pod :
    (∀ pods : List Pod,
      (∀ p ∈ pods, p.Status.Phase ≠ PodFailed) →
      (∀ p ∈ pods, p.Status.Phase = PodRunning → ∀ cs ∈ p.Status.ContainerStatuses,
        ¬ ∃ waiting, cs.State.Waiting = some waiting ∧ waiting.Reason = "CrashLoopBackOff") →
      (∀ p ∈ pods, p.Status.Phase ≠ PodSucceeded) →
      ((inferState pods = "Running" ↔
          ∃ p ∈ pods, p.Status.Phase = PodRunning ∧
            ∀ cs ∈ p.Status.ContainerStatuses, cs.Ready = true) ∧
        (inferState pods = "Pending" ↔
          ¬ ∃ p ∈ pods, p.Status.Phase = PodRunning ∧
            ∀ cs ∈ p.Status.ContainerStatuses, cs.Ready = true))) ∧
    inferState [] = "Pending" ∧
    (∀ pods : List Pod, (∀ p ∈ pods, p.Status.Phase = PodPending) →
      inferState pods = "Pending") := by
  have main : ∀ pods : List Pod,
      (∀ p ∈ pods, p.Status.Phase ≠ PodFailed) →
      (∀ p ∈ pods, p.Status.Phase = PodRunning → ∀ cs ∈ p.Status.ContainerStatuses,
        ¬ ∃ waiting, cs.State.Waiting = some waiting ∧ waiting.Reason = "CrashLoopBackOff") →
      (∀ p ∈ pods, p.Status.Phase ≠ PodSucceeded) →
      ((inferState pods = "Running" ↔
          ∃ p ∈ pods, p.Status.Phase = PodRunning ∧
            ∀ cs ∈ p.Status.ContainerStatuses, cs.Ready = true) ∧
        (inferState pods = "Pending" ↔
          ¬ ∃ p ∈ pods, p.Status.Phase = PodRunning ∧
            ∀ cs ∈ p.Status.ContainerStatuses, cs.Ready = true)) := by
    intro pods hnf hnc hns
    have hf : (scanPods pods
        { state := "Pending", hasReady := false, hasFailed := false }).hasFailed = false := by
      rw [← Bool.not_eq_true, scanPods_hasFailed]
      rintro (h | ⟨p, hp, h | ⟨hr, cs, hcs, hc⟩⟩)
      · simp at h
      · exact hnf p hp h
      · exact hnc p hp hr cs hcs ((crashLooping_iff cs).1 hc)
    have hst := scanPods_state_of_no_succeeded pods
      { state := "Pending", hasReady := false, hasFailed := false } hns
    have hrd := scanPods_hasReady pods
      { state := "Pending", hasReady := false, hasFailed := false }
    simp only [Bool.false_eq_true, false_or] at hrd
    rw [← hrd]
    cases hr : (scanPods pods
        { state := "Pending", hasReady := false, hasFailed := false }).hasReady <;>
      simp [inferState, decideState, hf, hst, hr]
  refine ⟨main, by decide, ?_⟩
  intro pods hp
  have hne : ∀ p ∈ pods, p.Status.Phase ≠ PodRunning := fun p h => by
    rw [hp p h]; decide
  refine ((main pods (fun p h => by rw [hp p h]; decide)
    (fun p h hr => absurd hr (hne p h)) (fun p h => by rw [hp p h]; decide)).2).2 ?_
  rintro ⟨p, h, hr, _⟩
  exact hne p h hr

/-- C3, at a list with one ready pod and one pending pod ("Running"), and at a list with a
pending pod and a Running pod that is not ready ("Pending"). -/
theorem inferState_running_iff_ready_pod_witness :
    inferState [Examples.pendingPod, Examples.readyPod] = "Running" ∧
      inferState [Examples.pendingPod, Examples.unreadyPod] = "Pending" ∧
      inferState [Examples.pendingPod, Examples.pendingPod] = "Pending" :=
  ⟨((inferState_running_iff_ready_pod.1 [Examples.pendingPod, Examples.readyPod]
      (by decide) (by decide) (by decide)).1).2 ⟨Examples.readyPod, by simp, rfl, by decide⟩,
    ((inferState_running_iff_ready_pod.1 [Examples.pendingPod, Examples.unreadyPod]
      (by decide) (by decide) (by decide)).2).2 (by decide),
    inferState_running_iff_ready_pod.2.2 [Examples.pendingPod, Examples.pendingPod]
      (by decide)⟩

/-- C4, as stated, fails: a pod in the Pending phase that reports a container waiting with
reason CrashLoopBackOff leaves the inferred state at "Pending"; the container statuses are
read for Running pods only. -/
theorem crashLoop_any_phase_counterexample :
    ¬ ∀ pods : List Pod,
      (∃ p ∈ pods, ∃ cs ∈ p.Status.ContainerStatuses, ∃ waiting,
        cs.State.Waiting = some waiting ∧ waiting.Reason = "CrashLoopBackOff") →
      inferState pods = "Failed" := by
  intro h
  have h1 := h [Examples.crashLoopPendingPod]
    ⟨Examples.crashLoopPendingPod, by simp, Examples.crashLoopStatus, by
      simp [Examples.crashLoopPendingPod], ⟨"CrashLoopBackOff"⟩, rfl, rfl⟩
  have h2 : inferState [Examples.crashLoopPendingPod] = "Pending" := by decide
  rw [h2] at h1
  exact absurd h1 (by decide)

/-- C4, amended: whenever a pod in the Running phase reports a container waiting with
reason CrashLoopBackOff, the state that `updateJobStatus` infers is "Failed". -/
theorem inferState_failed_of_running_crashLoop (pods : List Pod)
    (h : ∃ p ∈ pods, p.Status.Phase = PodRunning ∧ ∃ cs ∈ p.Status.ContainerStatuses,
      ∃ waiting, cs.State.Waiting = some waiting ∧ waiting.Reason = "CrashLoopBackOff") :
    inferState pods = "Failed" := by
  have hf : (scanPods pods { state := "Pending", hasReady := false, hasFailed := false }).hasFailed
      = true := by
    rw [scanPods_hasFailed]
    rcases h with ⟨p, hp, hr, cs, hcs, hc⟩
    exact Or.inr ⟨p, hp, Or.inr ⟨hr, cs, hcs, (crashLooping_iff cs).2 hc⟩⟩
  simp [inferState, decideState, hf]

/-- C4, amended, at a ready pod next to a Running pod in CrashLoopBackOff. -/
theorem inferState_failed_of_running_crashLoop_witness :
    inferState [Examples.readyPod, Examples.crashLoopRunningPod] = "Failed" :=
  inferState_failed_of_running_crashLoop [Examples.readyPod, Examples.crashLoopRunningPod]
    ⟨Examples.crashLoopRunningPod, by simp, rfl, Examples.crashLoopStatus, by
      simp [Examples.crashLoopRunningPod], ⟨"CrashLoopBackOff"⟩, rfl, rfl⟩

end Stateless

/-! ### The copy a fetch hands out -/

namespace Stateless

@[simp] theorem taskJob_copy_Spec (cr : TaskJob) : (DeepCopyObject cr).Spec = cr.Spec := rfl

@[simp] theorem taskJob_copy_ObjectMeta (cr : TaskJob) :
    (DeepCopyObject cr).ObjectMeta = cr.ObjectMeta := rfl

@[simp] theorem taskJob_copy_Status (cr : TaskJob) : (DeepCopyObject cr).Status = {} := rfl

@[simp] theorem taskJob_copy_class (cr : TaskJob) :
    CustomResource.DeepCopyObject cr = DeepCopyObject cr := rfl

/-- The copy of a TaskJob is the TaskJob with an empty status. -/
theorem taskJob_copy_eq (cr : TaskJob) : DeepCopyObject cr = { cr with Status := {} } := rfl

end Stateless

namespace Stateful

@[simp] theorem database_copy_Spec (db : Database) : (DeepCopyObject db).Spec = db.Spec := rfl

@[simp] theorem database_copy_ObjectMeta (db : Database) :
    (DeepCopyObject db).ObjectMeta = db.ObjectMeta := rfl

@[simp] theorem database_copy_Status (db : Database) : (DeepCopyObject db).Status = {} := rfl

@[simp] theorem database_copy_class (db : Database) :
    CustomResource.DeepCopyObject db = DeepCopyObject db := rfl

/-- The copy of a Database is the Database with an empty status. -/
theorem database_copy_eq (db : Database) : DeepCopyObject db = { db with Status := {} } := rfl

@[simp] theorem database_copy_childName (db : Database) :
    childName (DeepCopyObject db) = childName db := rfl

end Stateful

namespace HPC

@[simp] theorem hpcJob_copy_Replicas (cr : HPCJob) :
    (DeepCopyObject cr).Spec.Replicas = cr.Spec.Replicas := rfl

@[simp] theorem hpcJob_copy_ObjectMeta (cr : HPCJob) :
    (DeepCopyObject cr).ObjectMeta = cr.ObjectMeta := rfl

@[simp] theorem hpcJob_copy_Status (cr : HPCJob) : (DeepCopyObject cr).Status = {} := rfl

@[simp] theorem hpcJob_copy_class (cr : HPCJob) :
    CustomResource.DeepCopyObject cr = DeepCopyObject cr := rfl

/-- The copy of an HPCJob is the HPCJob with an empty status and an empty pull policy. -/
theorem hpcJob_copy_eq (cr : HPCJob) :
    DeepCopyObject cr =
      { cr with Spec := { cr.Spec with ImagePullPolicy := "" }, Status := {} } := rfl

end HPC

/-! ### Stateful kind: the status step -/

namespace Stateful

/-- The `db` object leaves the status step with the inferred phase and the observed count
of ready replicas, whether or not a write was needed and whatever the write answered. -/
theorem syncStatus_object (db : Database) (sts : StatefulSet) (replicas : Int)
    (w : World Database) :
    (syncStatus db sts replicas w).2.1.Status =
      { Phase := inferPhase sts.Status.ReadyReplicas replicas
        ReadyReplicas := sts.Status.ReadyReplicas } := by
  unfold syncStatus
  by_cases hch : db.Status.Phase ≠ inferPhase sts.Status.ReadyReplicas replicas ∨
      db.Status.ReadyReplicas ≠ sts.Status.ReadyReplicas
  · simp only [hch, if_true]
    split <;> rfl
  · simp only [hch, if_false]
    simp only [not_or, not_not] at hch
    cases hst : db.Status with
    | mk ph rr =>
      rw [hst] at hch
      simp only at hch
      rw [hch.1, hch.2]

/-- The phase inferred by the status step is never the empty text. -/
theorem inferPhase_ne_empty (ready replicas : Int) : inferPhase ready replicas ≠ "" := by
  unfold inferPhase
  split
  · decide
  · split <;> decide

/-- The status step run on the copy of the stored `db` always sends the status write: the
copy carries no phase. When the step ends well, the server holds `db` with the inferred
status, and nothing else in the cluster has changed. -/
theorem syncStatus_store (db : Database) (sts : StatefulSet) (replicas : Int)
    (w : World Database)
    (hcr : w.crs (db.ObjectMeta.Namespace, db.ObjectMeta.Name) = some db)
    (hok : (syncStatus (DeepCopyObject db) sts replicas w).1 = .ok { RequeueAfter := 10 }) :
    (syncStatus (DeepCopyObject db) sts replicas w).2.2.crs =
        Function.update w.crs (db.ObjectMeta.Namespace, db.ObjectMeta.Name)
          (some { db with Status := { Phase := inferPhase sts.Status.ReadyReplicas replicas
                                      ReadyReplicas := sts.Status.ReadyReplicas } }) ∧
      (syncStatus (DeepCopyObject db) sts replicas w).2.2.deployments = w.deployments ∧
      (syncStatus (DeepCopyObject db) sts replicas w).2.2.services = w.services ∧
      (syncStatus (DeepCopyObject db) sts replicas w).2.2.statefulSets = w.statefulSets ∧
      (syncStatus (DeepCopyObject db) sts replicas w).2.2.pods = w.pods := by
  revert hok
  unfold syncStatus
  dsimp only
  have hg : (DeepCopyObject db).Status.Phase ≠ inferPhase sts.Status.ReadyReplicas replicas ∨
      (DeepCopyObject db).Status.ReadyReplicas ≠ sts.Status.ReadyReplicas :=
    Or.inl (inferPhase_ne_empty _ _).symm
  rw [if_pos hg]
  rcases World.updateStatus_cases
    ({ DeepCopyObject db with
      Status := { Phase := inferPhase sts.Status.ReadyReplicas replicas,
                  ReadyReplicas := sts.Status.ReadyReplicas } } : Database) w with
    ⟨e, _, h⟩ | ⟨stored, _, hc, h⟩ | ⟨_, hc, _⟩
  · rw [h]; intro hok; simp at hok
  · rw [h]; intro _
    have hst : stored = db := by
      have := hc.symm.trans hcr
      simpa [CustomResource.meta] using this
    subst hst
    simp [CustomResource.meta, CustomResource.putStatus]
  · simp [CustomResource.meta, hcr] at hc

/-- The replica update never ends with the requeue of the status step. -/
theorem syncReplicas_ne_ok10 (req : Request) (sts : StatefulSet) (desired : Int)
    (w : World Database) : (syncReplicas req sts desired w).1 ≠ .ok { RequeueAfter := 10 } := by
  unfold syncReplicas
  dsimp only
  split <;> simp

/-- A pass whose stateful-set half, run on the copy of the stored `db`, ends with the requeue
of the status step found the stateful set with the desired replica count and left the
inferred status on the server. -/
theorem ensureStatefulSet_ok10 (validQuantity : String → Bool) (req : Request) (db : Database)
    (name : String) (w : World Database)
    (hcr : w.crs (db.ObjectMeta.Namespace, db.ObjectMeta.Name) = some db)
    (hok : (ensureStatefulSet validQuantity req (DeepCopyObject db) name w).1 =
      .ok { RequeueAfter := 10 }) :
    ∃ sts, w.statefulSets (req.Namespace, name) = some sts ∧
      sts.Spec.Replicas = some (int32 db.Spec.Replicas) ∧
      (ensureStatefulSet validQuantity req (DeepCopyObject db) name w).2.crs =
        Function.update w.crs (db.ObjectMeta.Namespace, db.ObjectMeta.Name)
          (some { db with Status :=
            { Phase := inferPhase sts.Status.ReadyReplicas (int32 db.Spec.Replicas),
              ReadyReplicas := sts.Status.ReadyReplicas } }) ∧
      (ensureStatefulSet validQuantity req (DeepCopyObject db) name w).2.deployments =
        w.deployments ∧
      (ensureStatefulSet validQuantity req (DeepCopyObject db) name w).2.services =
        w.services ∧
      (ensureStatefulSet validQuantity req (DeepCopyObject db) name w).2.statefulSets =
        w.statefulSets ∧
      (ensureStatefulSet validQuantity req (DeepCopyObject db) name w).2.pods = w.pods := by
  revert hok
  unfold ensureStatefulSet
  rcases World.getStatefulSet_cases req.Namespace name w with
    ⟨e, _, h⟩ | ⟨sts, _, hs, h⟩ | ⟨_, _, h⟩
  · rw [h]; dsimp only
    intro hok; exfalso; revert hok
    repeat' split
    all_goals simp
  · rw [h]; dsimp only
    cases hrep : sts.Spec.Replicas with
    | none =>
      dsimp only
      intro hok
      exact absurd hok (syncReplicas_ne_ok10 _ _ _ _)
    | some live =>
      dsimp only
      simp only [database_copy_Spec]
      by_cases hne : live ≠ int32 db.Spec.Replicas
      · rw [if_pos hne]
        intro hok
        exact absurd hok (syncReplicas_ne_ok10 _ _ _ _)
      · rw [if_neg hne]
        dsimp only
        intro hok
        have hlive : live = int32 db.Spec.Replicas := not_not.1 hne
        subst hlive
        have hst := syncStatus_store db sts (int32 db.Spec.Replicas)
          (w.record (.getStatefulSet req.Namespace name) none) hcr hok
        exact ⟨sts, hs, hrep, hst⟩
  · rw [h]; dsimp only
    intro hok; exfalso; revert hok
    repeat' split
    all_goals simp

/-- The service half of a pass that fetched the stored `db`: what `Reconcile` does after
the fetch of the custom resource (lines 72-135), on the copy the fetch handed out, as a
function of the world after that fetch. -/
theorem database_Reconcile_of_fetched (validQuantity : String → Bool) (req : Request)
    (w : World Database) (db : Database) (hf : w.fault = none)
    (hcr : w.crs (req.Namespace, req.Name) = some db) :
    Reconcile validQuantity req w =
      match (w.record (.getCR req.Namespace req.Name) none).getService req.Namespace
          (childName db) with
      | (.error e, w) =>
        if e = .notFound then
          match w.createService req.Namespace (makeHeadlessService (childName db)) with
          | (some e, w) => (.error ⟨["create service"], e⟩, w)
          | (none, w) =>
            ensureStatefulSet validQuantity req (DeepCopyObject db) (childName db) w
        else (.error ⟨[], e⟩, w)
      | (.ok _, w) =>
        ensureStatefulSet validQuantity req (DeepCopyObject db) (childName db) w := by
  unfold Reconcile
  rcases World.getCR_cases req.Namespace req.Name w with
    ⟨e, hf2, _⟩ | ⟨obj, _, hc, h⟩ | ⟨_, hc, _⟩
  · rw [hf] at hf2; cases hf2
  · rw [hcr] at hc; cases hc
    rw [h]
    rfl
  · rw [hcr] at hc; cases hc

/-- A pass that ends with the requeue of the status step fetched the custom resource. -/
theorem fetched_of_ok10 (validQuantity : String → Bool) (req : Request) (w : World Database)
    (hok : (Reconcile validQuantity req w).1 = .ok { RequeueAfter := 10 }) :
    w.fault = none ∧ ∃ db, w.crs (req.Namespace, req.Name) = some db := by
  revert hok
  unfold Reconcile
  rcases World.getCR_cases req.Namespace req.Name w with
    ⟨e, _, h⟩ | ⟨obj, hf, hc, _⟩ | ⟨_, _, h⟩
  · rw [h]; dsimp only
    split <;> simp
  · intro _; exact ⟨hf, obj, hc⟩
  · rw [h]; simp

/-- A pass that ends with the requeue of the status step found the stateful set with the
desired replica count, left the inferred status on the server, left the other stores as
they were but for the headless service, which it created if it was absent. -/
theorem Reconcile_ok10 (validQuantity : String → Bool) (req : Request) (w : World Database)
    (db : Database) (hcr : w.crs (req.Namespace, req.Name) = some db)
    (hns : db.ObjectMeta.Namespace = req.Namespace) (hname : db.ObjectMeta.Name = req.Name)
    (hok : (Reconcile validQuantity req w).1 = .ok { RequeueAfter := 10 }) :
    ∃ sts, w.statefulSets (req.Namespace, childName db) = some sts ∧
      sts.Spec.Replicas = some (int32 db.Spec.Replicas) ∧
      (Reconcile validQuantity req w).2.crs =
        Function.update w.crs (req.Namespace, req.Name)
          (some { db with Status :=
            { Phase := inferPhase sts.Status.ReadyReplicas (int32 db.Spec.Replicas),
              ReadyReplicas := sts.Status.ReadyReplicas } }) ∧
      (Reconcile validQuantity req w).2.deployments = w.deployments ∧
      (Reconcile validQuantity req w).2.statefulSets = w.statefulSets ∧
      (Reconcile validQuantity req w).2.pods = w.pods ∧
      ((Reconcile validQuantity req w).2.services = w.services ∨
        (Reconcile validQuantity req w).2.services =
          Function.update w.services (req.Namespace, childName db)
            (some (makeHeadlessService (childName db)))) ∧
      ∃ svc, (Reconcile validQuantity req w).2.services (req.Namespace, childName db) = some svc := by
  have hf := (fetched_of_ok10 validQuantity req w hok).1
  revert hok
  rw [database_Reconcile_of_fetched validQuantity req w db hf hcr]
  have hkey : (db.ObjectMeta.Namespace, db.ObjectMeta.Name) = (req.Namespace, req.Name) := by
    rw [hns, hname]
  rcases World.getService_cases req.Namespace (childName db)
      (w.record (.getCR req.Namespace req.Name) none) with
    ⟨e, _, h⟩ | ⟨svc, _, hsv, h⟩ | ⟨_, hsv, h⟩
  · rw [h]; dsimp only
    intro hok
    by_cases hnf : e = .notFound
    · rw [if_pos hnf] at hok ⊢
      rcases World.createService_cases req.Namespace (makeHeadlessService (childName db))
          ((w.record (.getCR req.Namespace req.Name) none).record
            (.getService req.Namespace (childName db)) (some e)) with
        ⟨e2, _, h2⟩ | ⟨old, _, _, h2⟩ | ⟨_, _, h2⟩
      · rw [h2] at hok; simp at hok
      · rw [h2] at hok; simp at hok
      · rw [h2] at hok ⊢
        dsimp only at hok ⊢
        obtain ⟨sts, h1, h2, h3, h4, h5, h6, h7⟩ :=
          ensureStatefulSet_ok10 validQuantity req db (childName db) _
            (by rw [hkey]; simpa using hcr) hok
        refine ⟨sts, by simpa using h1, h2, ?_, by simpa using h4, by simpa using h6,
          by simpa using h7, Or.inr ?_, ?_⟩
        · rw [h3, hkey]; rfl
        · rw [h5]; rfl
        · rw [h5]; simp [makeHeadlessService]
    · rw [if_neg hnf] at hok; simp at hok
  · rw [h]; dsimp only
    intro hok
    obtain ⟨sts, h1, h2, h3, h4, h5, h6, h7⟩ :=
      ensureStatefulSet_ok10 validQuantity req db (childName db) _
        (by rw [hkey]; simpa using hcr) hok
    refine ⟨sts, by simpa using h1, h2, ?_, by simpa using h4, by simpa using h6,
      by simpa using h7, Or.inl ?_, ?_⟩
    · rw [h3, hkey]; rfl
    · rw [h5]; rfl
    · rw [h5]; exact ⟨svc, by simpa using hsv⟩
  · rw [h]; dsimp only
    intro hok
    rw [if_pos rfl] at hok ⊢
    rcases World.createService_cases req.Namespace (makeHeadlessService (childName db))
        ((w.record (.getCR req.Namespace req.Name) none).record
          (.getService req.Namespace (childName db)) (some .notFound)) with
      ⟨e2, _, h2⟩ | ⟨old, _, _, h2⟩ | ⟨_, _, h2⟩
    · rw [h2] at hok; simp at hok
    · rw [h2] at hok; simp at hok
    · rw [h2] at hok ⊢
      dsimp only at hok ⊢
      obtain ⟨sts, h1, h2, h3, h4, h5, h6, h7⟩ :=
        ensureStatefulSet_ok10 validQuantity req db (childName db) _
          (by rw [hkey]; simpa using hcr) hok
      refine ⟨sts, by simpa using h1, h2, ?_, by simpa using h4, by simpa using h6,
        by simpa using h7, Or.inr ?_, ?_⟩
      · rw [h3, hkey]; rfl
      · rw [h5]; rfl
      · rw [h5]; simp [makeHeadlessService]

end Stateful

/-! ### Stateless kind: the deletion path -/

namespace Stateless

/-- The name under which `Reconcile` looks for the children is the name of the request. -/
theorem taskJob_Reconcile_eq (req : Request) (w : World TaskJob) :
    Reconcile req w =
      match w.getCR req.Namespace req.Name with
      | (.error e, w) =>
        if e = .notFound then cleanup req req.Name w else (.error ⟨[], e⟩, w)
      | (.ok cr, w) =>
        match w.getDeployment req.Namespace req.Name with
        | (.error e, w) =>
          if e = .notFound then createChildren req cr w
          else (.error ⟨["couldn't get object"], e⟩, w)
        | (.ok deployment, w) =>
          match deployment.Spec.Replicas with
          | none => (.panic "invalid memory address or nil pointer dereference", w)
          | some live =>
            if live ≠ cr.Spec.Replicas then scaleDeployment req cr deployment w
            else 
              match updateJobStatus cr w with
              | (some e, _, w) => (.error ⟨[], e⟩, w)
              | (none, _, w) => (.ok { RequeueAfter := 10 }, w) := by
  unfold Reconcile
  simp

/-- A pass whose fetch of the custom resource is answered not-found is the deletion path. -/
theorem taskJob_Reconcile_of_notFound (req : Request) (w : World TaskJob)
    (h : (w.getCR req.Namespace req.Name).1 = .error .notFound) :
    Reconcile req w =
      cleanup req req.Name (w.record (.getCR req.Namespace req.Name) (some .notFound)) := by
  rw [taskJob_Reconcile_eq]
  rcases World.getCR_cases req.Namespace req.Name w with
    ⟨e, _, h1⟩ | ⟨obj, _, _, h1⟩ | ⟨_, _, h1⟩
  · rw [h1] at h ⊢
    simp only [Except.error.injEq] at h
    subst h
    simp
  · rw [h1] at h; simp at h
  · rw [h1]; simp

/-- The deletion path: the deployment delete comes first, the service delete follows only
when the first one succeeded, and any error answer ends the pass with that error. -/
theorem taskJob_cleanup_spec (req : Request) (name : String) (w : World TaskJob) :
    ∃ a1 a2 : Option ApiError,
      (cleanup req name w).2.trace =
        w.trace ++ [⟨.deleteDeployment req.Namespace name, a1⟩] ++
          (match a1 with
            | none => [⟨.deleteService req.Namespace name, a2⟩]
            | some _ => []) ∧
      (cleanup req name w).1 =
        (match a1, a2 with
          | some e, _ => .error ⟨["couldn't delete deployment"], e⟩
          | none, some e => .error ⟨["couldn't delete service"], e⟩
          | none, none => .ok {}) := by
  unfold cleanup
  rcases World.deleteDeployment_cases req.Namespace name w with
    ⟨e, _, h⟩ | ⟨old, _, _, h⟩ | ⟨_, _, h⟩
  · rw [h]; exact ⟨some e, none, by simp, rfl⟩
  · rw [h]; dsimp only
    rcases World.deleteService_cases req.Namespace name
        ((w.record (.deleteDeployment req.Namespace name) none).setDeployment
          (req.Namespace, name) none) with
      ⟨e, _, h2⟩ | ⟨old2, _, _, h2⟩ | ⟨_, _, h2⟩
    · rw [h2]; exact ⟨none, some e, by simp, rfl⟩
    · rw [h2]; exact ⟨none, none, by simp, rfl⟩
    · rw [h2]; exact ⟨none, some .notFound, by simp, rfl⟩
  · rw [h]; exact ⟨some .notFound, none, by simp, rfl⟩

end Stateless

/-! ### HPC kind: the deletion path -/

namespace HPC

/-- The name under which `Reconcile` looks for the children is the name of the request. -/
theorem hpcJob_Reconcile_eq (req : Request) (w : World HPCJob) :
    Reconcile req w =
      match w.getCR req.Namespace req.Name with
      | (.error e, w) =>
        if e = .notFound then cleanup req req.Name w else (.error ⟨[], e⟩, w)
      | (.ok cr, w) =>
        match w.getDeployment req.Namespace req.Name with
        | (.error e, w) =>
          if e = .notFound then createChildren req cr w
          else (.error ⟨["couldn't get object"], e⟩, w)
        | (.ok deployment, w) =>
          match deployment.Spec.Replicas with
          | none => (.panic "invalid memory address or nil pointer dereference", w)
          | some live =>
            if live ≠ cr.Spec.Replicas then scaleDeployment req cr deployment w
            else 
              match updateJobStatus cr w with
              | (some e, _, w) =>
                (.error ⟨["failed to update job status", "failed to update HPCJob status"], e⟩, w)
              | (none, cr, w) => simulateCompletion cr w := by
  unfold Reconcile
  simp

/-- A pass whose fetch of the custom resource is answered not-found is the deletion path. -/
theorem hpcJob_Reconcile_of_notFound (req : Request) (w : World HPCJob)
    (h : (w.getCR req.Namespace req.Name).1 = .error .notFound) :
    Reconcile req w =
      cleanup req req.Name (w.record (.getCR req.Namespace req.Name) (some .notFound)) := by
  rw [hpcJob_Reconcile_eq]
  rcases World.getCR_cases req.Namespace req.Name w with
    ⟨e, _, h1⟩ | ⟨obj, _, _, h1⟩ | ⟨_, _, h1⟩
  · rw [h1] at h ⊢
    simp only [Except.error.injEq] at h
    subst h
    simp
  · rw [h1] at h; simp at h
  · rw [h1]; simp

/-- The deletion path: the deployment delete comes first, the service delete follows only
when the first one succeeded, and any error answer ends the pass with that error. -/
theorem hpcJob_cleanup_spec (req : Request) (name : String) (w : World HPCJob) :
    ∃ a1 a2 : Option ApiError,
      (cleanup req name w).2.trace =
        w.trace ++ [⟨.deleteDeployment req.Namespace name, a1⟩] ++
          (match a1 with
            | none => [⟨.deleteService req.Namespace name, a2⟩]
            | some _ => []) ∧
      (cleanup req name w).1 =
        (match a1, a2 with
          | some e, _ => .error ⟨["couldn't delete deployment"], e⟩
          | none, some e => .error ⟨["couldn't delete service"], e⟩
          | none, none => .ok {}) := by
  unfold cleanup
  rcases World.deleteDeployment_cases req.Namespace name w with
    ⟨e, _, h⟩ | ⟨old, _, _, h⟩ | ⟨_, _, h⟩
  · rw [h]; exact ⟨some e, none, by simp, rfl⟩
  · rw [h]; dsimp only
    rcases World.deleteService_cases req.Namespace name
        ((w.record (.deleteDeployment req.Namespace name) none).setDeployment
          (req.Namespace, name) none) with
      ⟨e, _, h2⟩ | ⟨old2, _, _, h2⟩ | ⟨_, _, h2⟩
    · rw [h2]; exact ⟨none, some e, by simp, rfl⟩
    · rw [h2]; exact ⟨none, none, by simp, rfl⟩
    · rw [h2]; exact ⟨none, some .notFound, by simp, rfl⟩
  · rw [h]; exact ⟨some .notFound, none, by simp, rfl⟩

end HPC

/-! ### Deletion cleanup -/

/-- C9, as stated, fails: with the custom resource gone, the deployment gone and the service
still there, the deployment delete is answered not-found, the pass returns that error, no
service delete is attempted and the service stays; so for the stateless and the HPC kind. -/
theorem cleanup_notFound_counterexample :
    ((Stateless.Reconcile Examples.jobReq Examples.taskOrphanService).1 =
        .error ⟨["couldn't delete deployment"], .notFound⟩ ∧
      (Stateless.Reconcile Examples.jobReq Examples.taskOrphanService).2.trace =
        [⟨.getCR "default" "job", some .notFound⟩,
         ⟨.deleteDeployment "default" "job", some .notFound⟩] ∧
      (Stateless.Reconcile Examples.jobReq Examples.taskOrphanService).2.services
        ("default", "job") = some Examples.jobService) ∧
    ((HPC.Reconcile Examples.jobReq Examples.hpcOrphanService).1 =
        .error ⟨["couldn't delete deployment"], .notFound⟩ ∧
      (HPC.Reconcile Examples.jobReq Examples.hpcOrphanService).2.trace =
        [⟨.getCR "default" "job", some .notFound⟩,
         ⟨.deleteDeployment "default" "job", some .notFound⟩] ∧
      (HPC.Reconcile Examples.jobReq Examples.hpcOrphanService).2.services
        ("default", "job") = some Examples.jobService) := by
  refine ⟨⟨?_, ?_, ?_⟩, ⟨?_, ?_, ?_⟩⟩ <;> decide

/-- C9, amended: when the fetch of the custom resource is answered not-found, the stateless
and the HPC pass attempt to delete the deployment under the name of the request; they
attempt to delete the service only if the deployment delete succeeded; they return success
exactly when both deletes succeeded, and otherwise return the error of the first delete
that failed, a not-found answer included. -/
theorem cleanup_stops_at_first_error :
    (∀ (req : Request) (w : World Stateless.TaskJob),
      (w.getCR req.Namespace req.Name).1 = .error .notFound →
      ∃ a1 a2 : Option ApiError,
        (Stateless.Reconcile req w).2.trace =
          w.trace ++ [⟨.getCR req.Namespace req.Name, some .notFound⟩,
                      ⟨.deleteDeployment req.Namespace req.Name, a1⟩] ++
            (match a1 with
              | none => [⟨.deleteService req.Namespace req.Name, a2⟩]
              | some _ => []) ∧
        (Stateless.Reconcile req w).1 =
          (match a1, a2 with
            | some e, _ => .error ⟨["couldn't delete deployment"], e⟩
            | none, some e => .error ⟨["couldn't delete service"], e⟩
            | none, none => .ok {})) ∧
    (∀ (req : Request) (w : World HPC.HPCJob),
      (w.getCR req.Namespace req.Name).1 = .error .notFound →
      ∃ a1 a2 : Option ApiError,
        (HPC.Reconcile req w).2.trace =
          w.trace ++ [⟨.getCR req.Namespace req.Name, some .notFound⟩,
                      ⟨.deleteDeployment req.Namespace req.Name, a1⟩] ++
            (match a1 with
              | none => [⟨.deleteService req.Namespace req.Name, a2⟩]
              | some _ => []) ∧
        (HPC.Reconcile req w).1 =
          (match a1, a2 with
            | some e, _ => .error ⟨["couldn't delete deployment"], e⟩
            | none, some e => .error ⟨["couldn't delete service"], e⟩
            | none, none => .ok {})) := by
  constructor
  · intro req w h
    rw [Stateless.taskJob_Reconcile_of_notFound req w h]
    obtain ⟨a1, a2, h1, h2⟩ := Stateless.taskJob_cleanup_spec req req.Name
      (w.record (.getCR req.Namespace req.Name) (some .notFound))
    exact ⟨a1, a2, by rw [h1]; simp, h2⟩
  · intro req w h
    rw [HPC.hpcJob_Reconcile_of_notFound req w h]
    obtain ⟨a1, a2, h1, h2⟩ := HPC.hpcJob_cleanup_spec req req.Name
      (w.record (.getCR req.Namespace req.Name) (some .notFound))
    exact ⟨a1, a2, by rw [h1]; simp, h2⟩

/-- C9, amended, at clusters where the custom resource is gone and both children are still
there: both passes delete the deployment, then the service, and return success. -/
theorem cleanup_stops_at_first_error_witness :
    (∃ a1 a2 : Option ApiError,
      (Stateless.Reconcile Examples.jobReq Examples.taskOrphans).2.trace =
        Examples.taskOrphans.trace ++ [⟨.getCR "default" "job", some .notFound⟩,
                    ⟨.deleteDeployment "default" "job", a1⟩] ++
          (match a1 with
            | none => [⟨.deleteService "default" "job", a2⟩]
            | some _ => []) ∧
      (Stateless.Reconcile Examples.jobReq Examples.taskOrphans).1 =
        (match a1, a2 with
          | some e, _ => .error ⟨["couldn't delete deployment"], e⟩
          | none, some e => .error ⟨["couldn't delete service"], e⟩
          | none, none => .ok {})) ∧
    (∃ a1 a2 : Option ApiError,
      (HPC.Reconcile Examples.jobReq Examples.hpcOrphans).2.trace =
        Examples.hpcOrphans.trace ++ [⟨.getCR "default" "job", some .notFound⟩,
                    ⟨.deleteDeployment "default" "job", a1⟩] ++
          (match a1 with
            | none => [⟨.deleteService "default" "job", a2⟩]
            | some _ => []) ∧
      (HPC.Reconcile Examples.jobReq Examples.hpcOrphans).1 =
        (match a1, a2 with
          | some e, _ => .error ⟨["couldn't delete deployment"], e⟩
          | none, some e => .error ⟨["couldn't delete service"], e⟩
          | none, none => .ok {})) ∧
    (Stateless.Reconcile Examples.jobReq Examples.taskOrphans).1 = .ok {} ∧
    (HPC.Reconcile Examples.jobReq Examples.hpcOrphans).1 = .ok {} :=
  ⟨cleanup_stops_at_first_error.1 Examples.jobReq Examples.taskOrphans rfl,
    cleanup_stops_at_first_error.2 Examples.jobReq Examples.hpcOrphans rfl,
    by decide, by decide⟩

/-- C10 (what the code does): with the Database gone and its stateful set and headless
service still there, the stateful pass returns success after the fetch and issues no other
call: no delete is sent and both children stay. -/
theorem Stateful.Reconcile_notFound_deletes_nothing :
    (Stateful.Reconcile Examples.validQuantity Examples.dbReq Examples.dbOrphans).1 = .ok {} ∧
      (Stateful.Reconcile Examples.validQuantity Examples.dbReq Examples.dbOrphans).2.trace =
        [⟨.getCR "default" "db", some .notFound⟩] ∧
      (Stateful.Reconcile Examples.validQuantity Examples.dbReq Examples.dbOrphans).2.statefulSets
        ("default", "db") = some (Examples.dbStatefulSet 3) ∧
      (Stateful.Reconcile Examples.validQuantity Examples.dbReq Examples.dbOrphans).2.services
        ("default", "db") = some (Stateful.makeHeadlessService "db") := by
  refine ⟨?_, ?_, ?_, ?_⟩ <;> decide

/-! ### The API server: calls that meet no fault -/

namespace World

variable {CR : Type}

/-- A call that meets no fault, followed by `n` calls that meet none: `n + 1` quiet calls. -/
theorem quiet_succ_of_fault (w : World CR) (n : Nat) (call : Call CR) (answer : Option ApiError)
    (hf : w.fault = none) (hq : (w.record call answer).quiet n = true) :
    w.quiet (n + 1) = true := by
  unfold quiet at hq ⊢
  unfold fault at hf
  cases hfs : w.faults with
  | nil => simp
  | cons a rest =>
    rw [hfs] at hf
    cases a with
    | some e => simp at hf
    | none =>
      simp only [List.take_succ_cons, List.all_cons, Option.isNone_none, Bool.true_and]
      simpa [hfs] using hq

/-- The fetch of a stored custom resource that meets no fault hands out its copy. -/
theorem getCR_of_stored [CustomResource CR] (ns name : String) (w : World CR) (cr : CR)
    (hf : w.fault = none) (hc : w.crs (ns, name) = some cr) :
    w.getCR ns name = (.ok (CustomResource.DeepCopyObject cr), w.record (.getCR ns name) none) := by
  unfold getCR
  rw [hf]; dsimp only
  rw [hc]

/-- The fetch of a stored deployment that meets no fault. -/
theorem getDeployment_of_stored (ns name : String) (w : World CR) (d : Deployment)
    (hf : w.fault = none) (hc : w.deployments (ns, name) = some d) :
    w.getDeployment ns name = (.ok d, w.record (.getDeployment ns name) none) := by
  unfold getDeployment
  rw [hf]; dsimp only
  rw [hc]

/-- The fetch of an absent deployment that meets no fault is answered not-found. -/
theorem getDeployment_of_absent (ns name : String) (w : World CR)
    (hf : w.fault = none) (hc : w.deployments (ns, name) = none) :
    w.getDeployment ns name =
      (.error .notFound, w.record (.getDeployment ns name) (some .notFound)) := by
  unfold getDeployment
  rw [hf]; dsimp only
  rw [hc]

/-- The listing of pods that meets no fault. -/
theorem listPods_of_quiet (ns selector : String) (w : World CR) (hf : w.fault = none) :
    w.listPods ns selector =
      (.ok (w.pods (ns, selector)), w.record (.listPods ns selector) none) := by
  unfold listPods
  rw [hf]

/-- The status update of a stored custom resource that meets no fault replaces the stored
status by the one sent, as the server holds it. -/
theorem updateStatus_of_stored [CustomResource CR] (obj : CR) (w : World CR) (stored : CR)
    (hf : w.fault = none)
    (hc : w.crs ((CustomResource.meta obj).Namespace, (CustomResource.meta obj).Name) =
      some stored) :
    w.updateStatus obj =
      (none, (w.record (.updateStatus obj) none).setCR
        ((CustomResource.meta obj).Namespace, (CustomResource.meta obj).Name)
        (some (CustomResource.putStatus stored obj))) := by
  unfold updateStatus
  dsimp only
  rw [hf]; dsimp only
  rw [hc]

/-- A status update that meets a fault has no effect but the record of the call. -/
theorem updateStatus_of_fault [CustomResource CR] (obj : CR) (w : World CR) (e : ApiError)
    (hf : w.fault = some e) :
    w.updateStatus obj = (some e, w.record (.updateStatus obj) (some e)) := by
  unfold updateStatus
  dsimp only
  rw [hf]

end World

/-! ### HPC kind: a pass on a converged cluster -/

namespace HPC

/-- A pass that fetches the stored custom resource `cr` and the deployment `d` with the
replica count `live`, no fault on either fetch: what remains is the replica test, run on the
copy of `cr` the fetch handed out. -/
theorem hpcJob_Reconcile_of_fetched (req : Request) (w : World HPCJob) (cr : HPCJob) (d : Deployment)
    (live : Int) (hq : w.quiet 2 = true) (hcr : w.crs (req.Namespace, req.Name) = some cr)
    (hd : w.deployments (req.Namespace, req.Name) = some d) (hl : d.Spec.Replicas = some live) :
    Reconcile req w =
      if live ≠ cr.Spec.Replicas then
        scaleDeployment req (DeepCopyObject cr) d
          ((w.record (.getCR req.Namespace req.Name) none).record
            (.getDeployment req.Namespace req.Name) none)
      else
        match updateJobStatus (DeepCopyObject cr)
          ((w.record (.getCR req.Namespace req.Name) none).record
            (.getDeployment req.Namespace req.Name) none) with
        | (some e, _, w) =>
          (.error ⟨["failed to update job status", "failed to update HPCJob status"], e⟩, w)
        | (none, cr, w) => simulateCompletion cr w := by
  rw [hpcJob_Reconcile_eq]
  have hf := World.fault_of_quiet w 1 hq
  have hq1 := World.record_quiet w 1 (.getCR req.Namespace req.Name) none hq
  have hf1 := World.fault_of_quiet _ 0 hq1
  rw [World.getCR_of_stored _ _ w cr hf hcr]; dsimp only
  rw [World.getDeployment_of_stored _ _ _ d hf1 (by simpa using hd)]; dsimp only
  rw [hl]
  rfl

/-- `updateJobStatus` on an object with an empty state that meets no fault: it writes
"Pending". -/
theorem updateJobStatus_of_empty (cr stored : HPCJob) (w : World HPCJob)
    (hs : cr.Status.State = "") (hf : w.fault = none)
    (hc : w.crs (cr.ObjectMeta.Namespace, cr.ObjectMeta.Name) = some stored) :
    updateJobStatus cr w =
      (none, { cr with Status := { cr.Status with State := "Pending" } },
        (w.record (.updateStatus { cr with Status := { cr.Status with State := "Pending" } })
          none).setCR (cr.ObjectMeta.Namespace, cr.ObjectMeta.Name)
          (some (CustomResource.putStatus stored
            { cr with Status := { cr.Status with State := "Pending" } }))) := by
  unfold updateJobStatus
  rw [if_pos hs]
  dsimp only
  rw [World.updateStatus_of_stored
    ({ cr with Status := { cr.Status with State := "Pending" } } : HPCJob) w stored hf hc]
  rfl

/-- The simulated completion on an object whose state is not "Completed" that meets no
fault: a sleep of five seconds, then the write of "Completed" with the zero time. -/
theorem simulateCompletion_of_open (cr stored : HPCJob) (w : World HPCJob)
    (hs : cr.Status.State ≠ "Completed") (hf : w.fault = none)
    (hc : w.crs (cr.ObjectMeta.Namespace, cr.ObjectMeta.Name) = some stored) :
    simulateCompletion cr w =
      (.ok {},
        ((w.sleep 5).record
          (.updateStatus
            { cr with Status := { State := "Completed", CompletionTime := some zeroTime } })
          none).setCR (cr.ObjectMeta.Namespace, cr.ObjectMeta.Name)
          (some (CustomResource.putStatus stored
            { cr with Status := { State := "Completed", CompletionTime := some zeroTime } }))) := by
  unfold simulateCompletion
  rw [if_pos hs]
  dsimp only
  rw [World.updateStatus_of_stored
    ({ cr with Status := { State := "Completed", CompletionTime := some zeroTime } } : HPCJob)
    (w.sleep 5) stored (by simpa using hf) (by simpa using hc)]
  rfl

/-- The status part of an HPC pass that meets no fault, run on the copy of the stored `job`:
whatever status is stored, `updateJobStatus` writes "Pending", the pass sleeps five seconds
and writes "Completed" with the zero time, which the server holds as no time. -/
theorem hpcJob_status_part (job : HPCJob) (w : World HPCJob) (hq : w.quiet 2 = true)
    (hcr : w.crs (job.ObjectMeta.Namespace, job.ObjectMeta.Name) = some job) :
    (match updateJobStatus (DeepCopyObject job) w with
      | (some e, _, w) =>
        ((.error ⟨["failed to update job status", "failed to update HPCJob status"], e⟩ :
          Outcome), w)
      | (none, cr, w) => simulateCompletion cr w) =
      (.ok {},
        ((((w.record (.updateStatus
            { DeepCopyObject job with Status := { State := "Pending" } }) none).setCR
            (job.ObjectMeta.Namespace, job.ObjectMeta.Name)
            (some { job with Status := { State := "Pending" } })).sleep 5).record
          (.updateStatus
            { DeepCopyObject job with
              Status := { State := "Completed", CompletionTime := some zeroTime } }) none).setCR
          (job.ObjectMeta.Namespace, job.ObjectMeta.Name)
          (some { job with Status := { State := "Completed" } })) := by
  have hf := World.fault_of_quiet w 1 hq
  have hq1 := World.record_quiet w 1
    (.updateStatus { DeepCopyObject job with Status := { State := "Pending" } }) none hq
  have hf1 := World.fault_of_quiet _ 0 hq1
  rw [updateJobStatus_of_empty (DeepCopyObject job) job w rfl hf hcr]
  dsimp only
  refine (simulateCompletion_of_open _ ({ job with Status := { State := "Pending" } }) _
    (by show ("Pending" : String) ≠ "Completed"; decide) (by simpa using hf1)
    (by simp [CustomResource.putStatus, storedTime])).trans ?_
  rfl

end HPC

/-- C7 (what the code does): on a converged cluster the HPC pass still writes, and writes
twice. Whatever status the server holds for the HPCJob, "Completed" included, a pass that
finds the deployment with the desired replica count and meets no fault works on a copy of
the HPCJob that carries no status: it writes the state "Pending", sleeps five seconds and
writes "Completed" with the zero time; it sends no child write. So at the cluster holding
an HPCJob stored as "Completed" and its deployment with the desired replica count. -/
theorem HPC.converged_pass_repeats_completion :
    (∀ (req : Request) (w : World HPC.HPCJob) (job : HPC.HPCJob) (d : Deployment),
      w.quiet 4 = true → w.crs (req.Namespace, req.Name) = some job →
      job.ObjectMeta.Namespace = req.Namespace → job.ObjectMeta.Name = req.Name →
      w.deployments (req.Namespace, req.Name) = some d →
      d.Spec.Replicas = some job.Spec.Replicas →
      (HPC.Reconcile req w).1 = .ok {} ∧
        (HPC.Reconcile req w).2.trace =
          w.trace ++ [⟨.getCR req.Namespace req.Name, none⟩,
            ⟨.getDeployment req.Namespace req.Name, none⟩,
            ⟨.updateStatus { HPC.DeepCopyObject job with Status := { State := "Pending" } },
              none⟩,
            ⟨.sleep 5, none⟩,
            ⟨.updateStatus
              { HPC.DeepCopyObject job with
                Status := { State := "Completed", CompletionTime := some zeroTime } }, none⟩] ∧
        (HPC.Reconcile req w).2.crs =
          Function.update w.crs (req.Namespace, req.Name)
            (some { job with Status := { State := "Completed" } }) ∧
        (HPC.Reconcile req w).2.now = w.now + 5 ∧
        (HPC.Reconcile req w).2.deployments = w.deployments ∧
        (HPC.Reconcile req w).2.services = w.services) ∧
    Examples.hpcConverged.crs ("default", "job") = some Examples.hpcCompletedJob ∧
    Examples.hpcCompletedJob.Status.State = "Completed" ∧
    Examples.hpcConverged.deployments ("default", "job") = some (Examples.jobDeployment 1) ∧
    (Examples.jobDeployment 1).Spec.Replicas = some Examples.hpcCompletedJob.Spec.Replicas ∧
    statusWrites (HPC.Reconcile Examples.jobReq Examples.hpcConverged).2.trace =
      [⟨.updateStatus { Examples.hpcCompletedJob with Status := { State := "Pending" } }, none⟩,
       ⟨.updateStatus
          { Examples.hpcCompletedJob with
            Status := { State := "Completed", CompletionTime := some zeroTime } }, none⟩] ∧
    childWrites (HPC.Reconcile Examples.jobReq Examples.hpcConverged).2.trace = [] ∧
    (HPC.Reconcile Examples.jobReq Examples.hpcConverged).2.now =
      Examples.hpcConverged.now + 5 := by
  refine ⟨?_, ?_, ?_, ?_, ?_, ?_, ?_, ?_⟩
  · intro req w job d hq hcr hns hname hd hrep
    have hq2 := World.quiet_mono w 2 4 (by omega) hq
    have hq3 := World.record_quiet _ 2 (.getDeployment req.Namespace req.Name) none
      (World.record_quiet w 3 (.getCR req.Namespace req.Name) none hq)
    rw [HPC.hpcJob_Reconcile_of_fetched req w job d job.Spec.Replicas hq2 hcr hd hrep,
      if_neg (not_not.2 rfl)]
    rw [HPC.hpcJob_status_part job _ hq3 (by rw [hns, hname]; simpa using hcr)]
    rw [hns, hname]
    refine ⟨rfl, ?_, ?_, ?_, rfl, rfl⟩
    · simp
    · simp
    · simp
  all_goals decide

/-- C7, at the converged example cluster: the cluster meets no fault, and the pass, which
finds the HPCJob stored as "Completed", writes "Pending" and then "Completed" again. -/
theorem HPC.converged_pass_repeats_completion_witness :
    Examples.hpcConverged.quiet 4 = true ∧
    (HPC.Reconcile Examples.jobReq Examples.hpcConverged).1 = .ok {} ∧
      (HPC.Reconcile Examples.jobReq Examples.hpcConverged).2.trace =
        Examples.hpcConverged.trace ++ [⟨.getCR "default" "job", none⟩,
          ⟨.getDeployment "default" "job", none⟩,
          ⟨.updateStatus
            { HPC.DeepCopyObject Examples.hpcCompletedJob with Status := { State := "Pending" } },
            none⟩,
          ⟨.sleep 5, none⟩,
          ⟨.updateStatus
            { HPC.DeepCopyObject Examples.hpcCompletedJob with
              Status := { State := "Completed", CompletionTime := some zeroTime } }, none⟩] ∧
      (HPC.Reconcile Examples.jobReq Examples.hpcConverged).2.crs =
        Function.update Examples.hpcConverged.crs ("default", "job")
          (some { Examples.hpcCompletedJob with Status := { State := "Completed" } }) ∧
      (HPC.Reconcile Examples.jobReq Examples.hpcConverged).2.now =
        Examples.hpcConverged.now + 5 ∧
      (HPC.Reconcile Examples.jobReq Examples.hpcConverged).2.deployments =
        Examples.hpcConverged.deployments ∧
      (HPC.Reconcile Examples.jobReq Examples.hpcConverged).2.services =
        Examples.hpcConverged.services :=
  ⟨by decide,
    HPC.converged_pass_repeats_completion.1 Examples.jobReq Examples.hpcConverged
      Examples.hpcCompletedJob (Examples.jobDeployment 1) (by decide) rfl rfl rfl rfl rfl⟩

/-! ### Scale update -/

/-- The conversion to `int32` keeps a count that is within the 32-bit range. -/
theorem int32_of_range (n : Int) (h1 : -2147483648 ≤ n) (h2 : n < 2147483648) : int32 n = n := by
  unfold int32
  omega

namespace Stateless

/-- A pass that fetches the stored custom resource `cr` and the deployment `d` with the
replica count `live`, no fault on either fetch: what remains is the replica test, run on the
copy of `cr` the fetch handed out. -/
theorem taskJob_Reconcile_of_fetched (req : Request) (w : World TaskJob) (cr : TaskJob) (d : Deployment)
    (live : Int) (hq : w.quiet 2 = true) (hcr : w.crs (req.Namespace, req.Name) = some cr)
    (hd : w.deployments (req.Namespace, req.Name) = some d) (hl : d.Spec.Replicas = some live) :
    Reconcile req w =
      if live ≠ cr.Spec.Replicas then
        scaleDeployment req (DeepCopyObject cr) d
          ((w.record (.getCR req.Namespace req.Name) none).record
            (.getDeployment req.Namespace req.Name) none)
      else
        match updateJobStatus (DeepCopyObject cr)
          ((w.record (.getCR req.Namespace req.Name) none).record
            (.getDeployment req.Namespace req.Name) none) with
        | (some e, _, w) => (.error ⟨[], e⟩, w)
        | (none, _, w) => (.ok { RequeueAfter := 10 }, w) := by
  rw [taskJob_Reconcile_eq]
  have hf := World.fault_of_quiet w 1 hq
  have hq1 := World.record_quiet w 1 (.getCR req.Namespace req.Name) none hq
  have hf1 := World.fault_of_quiet _ 0 hq1
  rw [World.getCR_of_stored _ _ w cr hf hcr]; dsimp only
  rw [World.getDeployment_of_stored _ _ _ d hf1 (by simpa using hd)]; dsimp only
  rw [hl]
  rfl

end Stateless

namespace Stateless

/-- The replica update sends one update of the fetched deployment with the replica count
replaced, and nothing else. -/
theorem taskJob_scaleDeployment_spec (req : Request) (cr : TaskJob) (d : Deployment) (w : World TaskJob) :
    ∃ a : Option ApiError,
      (scaleDeployment req cr d w).2.trace =
        w.trace ++ [⟨.updateDeployment req.Namespace
          { d with Spec := { d.Spec with Replicas := some (int32 cr.Spec.Replicas) } }, a⟩] ∧
      (scaleDeployment req cr d w).1 =
        (match a with
          | none => .ok {}
          | some e => .error ⟨["couldn't update deployment"], e⟩) := by
  unfold scaleDeployment
  dsimp only
  rcases World.updateDeployment_cases req.Namespace
      { d with Spec := { d.Spec with Replicas := some (int32 cr.Spec.Replicas) } } w with
    ⟨e, _, h⟩ | ⟨old, _, _, h⟩ | ⟨_, _, h⟩
  · rw [h]; exact ⟨some e, rfl, rfl⟩
  · rw [h]; exact ⟨none, rfl, rfl⟩
  · rw [h]; exact ⟨some .notFound, rfl, rfl⟩

end Stateless

namespace HPC

/-- The replica update sends one update of the fetched deployment with the replica count
replaced, and nothing else. -/
theorem hpcJob_scaleDeployment_spec (req : Request) (cr : HPCJob) (d : Deployment) (w : World HPCJob) :
    ∃ a : Option ApiError,
      (scaleDeployment req cr d w).2.trace =
        w.trace ++ [⟨.updateDeployment req.Namespace
          { d with Spec := { d.Spec with Replicas := some (int32 cr.Spec.Replicas) } }, a⟩] ∧
      (scaleDeployment req cr d w).1 =
        (match a with
          | none => .ok {}
          | some e => .error ⟨["couldn't update deployment"], e⟩) := by
  unfold scaleDeployment
  dsimp only
  rcases World.updateDeployment_cases req.Namespace
      { d with Spec := { d.Spec with Replicas := some (int32 cr.Spec.Replicas) } } w with
    ⟨e, _, h⟩ | ⟨old, _, _, h⟩ | ⟨_, _, h⟩
  · rw [h]; exact ⟨some e, rfl, rfl⟩
  · rw [h]; exact ⟨none, rfl, rfl⟩
  · rw [h]; exact ⟨some .notFound, rfl, rfl⟩

end HPC

namespace Stateful

/-- The replica update sends one update of the fetched stateful set with the replica count
replaced, and nothing else. -/
theorem syncReplicas_spec (req : Request) (sts : StatefulSet) (desired : Int)
    (w : World Database) :
    ∃ a : Option ApiError,
      (syncReplicas req sts desired w).2.trace =
        w.trace ++ [⟨.updateStatefulSet req.Namespace
          { sts with Spec := { sts.Spec with Replicas := some desired } }, a⟩] ∧
      (syncReplicas req sts desired w).1 =
        (match a with
          | none => .ok { RequeueAfter := 5 }
          | some e => .error ⟨["update statefulset replicas"], e⟩) := by
  unfold syncReplicas
  dsimp only
  rcases World.updateStatefulSet_cases req.Namespace
      { sts with Spec := { sts.Spec with Replicas := some desired } } w with
    ⟨e, _, h⟩ | ⟨old, _, _, h⟩ | ⟨_, _, h⟩
  · rw [h]; exact ⟨some e, rfl, rfl⟩
  · rw [h]; exact ⟨none, rfl, rfl⟩
  · rw [h]; exact ⟨some .notFound, rfl, rfl⟩

/-- The stateful-set half of a pass that finds the stateful set with a replica count other
than the desired one is the replica update. -/
theorem ensureStatefulSet_scale (validQuantity : String → Bool) (req : Request) (db : Database)
    (name : String) (w : World Database) (sts : StatefulSet) (live : Int)
    (hf : w.fault = none) (hs : w.statefulSets (req.Namespace, name) = some sts)
    (hl : sts.Spec.Replicas = some live) (hne : live ≠ int32 db.Spec.Replicas) :
    ensureStatefulSet validQuantity req db name w =
      syncReplicas req sts (int32 db.Spec.Replicas)
        (w.record (.getStatefulSet req.Namespace name) none) := by
  unfold ensureStatefulSet
  rcases World.getStatefulSet_cases req.Namespace name w with
    ⟨e, hf2, _⟩ | ⟨obj, _, hc, h⟩ | ⟨_, hc, _⟩
  · rw [hf] at hf2; cases hf2
  · rw [hs] at hc; cases hc
    rw [h]; dsimp only
    rw [hl]; dsimp only
    rw [if_pos hne]
  · rw [hs] at hc; cases hc

end Stateful

/-- C8, as stated, fails, in four ways. Stateful kind: with the stateful set present at two
replicas, the spec asking for five and the headless service absent, the pass that updates
the replica count first creates the service. Stateless kind: with the deployment at two
replicas and the spec asking for 4294967298, the update carries two replicas, the count of
the spec converted to 32 bits; with the deployment at two replicas, the spec asking for five
and the fetch of the deployment answered with an error, no update is sent; with the
deployment stored under the job name `worker` of the spec, not under the name `job` of the
request, at two replicas and the spec asking for five, no update is sent but a create, which
is answered already-exists. -/
theorem scale_update_counterexample :
    (Examples.dbScaleNoService.crs ("default", "db") = some Examples.databaseFive ∧
      Examples.dbScaleNoService.statefulSets ("default", "db") = some Examples.dbStatefulSetTwo ∧
      Examples.dbStatefulSetTwo.Spec.Replicas = some 2 ∧
      Examples.databaseFive.Spec.Replicas = 5 ∧
      (Stateful.Reconcile Examples.validQuantity Examples.dbReq Examples.dbScaleNoService).2.trace =
        [⟨.getCR "default" "db", none⟩,
         ⟨.getService "default" "db", some .notFound⟩,
         ⟨.createService "default" (Stateful.makeHeadlessService "db"), none⟩,
         ⟨.getStatefulSet "default" "db", none⟩,
         ⟨.updateStatefulSet "default"
            { Examples.dbStatefulSetTwo with
              Spec := { Examples.dbStatefulSetTwo.Spec with Replicas := some 5 } }, none⟩]) ∧
    (Examples.taskHuge.crs ("default", "job") = some Examples.taskJobHuge ∧
      Examples.taskHuge.deployments ("default", "job") = some (Examples.jobDeployment 2) ∧
      Examples.taskJobHuge.Spec.Replicas = 4294967298 ∧
      (Stateless.Reconcile Examples.jobReq Examples.taskHuge).2.trace =
        [⟨.getCR "default" "job", none⟩,
         ⟨.getDeployment "default" "job", none⟩,
         ⟨.updateDeployment "default"
            { Examples.jobDeployment 2 with
              Spec := { (Examples.jobDeployment 2).Spec with Replicas := some 2 } }, none⟩]) ∧
    (Examples.taskScaleFetchFails.crs ("default", "job") = some Examples.taskJobFive ∧
      Examples.taskScaleFetchFails.deployments ("default", "job") =
        some (Examples.jobDeployment 2) ∧
      Examples.taskJobFive.Spec.Replicas = 5 ∧
      (Stateless.Reconcile Examples.jobReq Examples.taskScaleFetchFails).2.trace =
        [⟨.getCR "default" "job", none⟩,
         ⟨.getDeployment "default" "job", some .unavailable⟩] ∧
      (Stateless.Reconcile Examples.jobReq Examples.taskScaleFetchFails).1 =
        .error ⟨["couldn't get object"], .unavailable⟩) ∧
    (Examples.taskWorkerScale.crs ("default", "job") = some Examples.taskJobWorkerFive ∧
      Examples.taskWorkerScale.deployments ("default", "worker") =
        some Examples.workerDeployment ∧
      Examples.workerDeployment =
        { Stateless.getDeploymentObject Examples.taskJobWorkerFive with
          Spec :=
            { (Stateless.getDeploymentObject Examples.taskJobWorkerFive).Spec with
              Replicas := some 2 } } ∧
      Examples.taskJobWorkerFive.Spec.Replicas = 5 ∧
      (Stateless.Reconcile Examples.jobReq Examples.taskWorkerScale).2.trace =
        [⟨.getCR "default" "job", none⟩,
         ⟨.getDeployment "default" "job", some .notFound⟩,
         ⟨.createDeployment "default"
            (Stateless.getDeploymentObject Examples.taskJobWorkerFive),
            some .alreadyExists⟩] ∧
      (Stateless.Reconcile Examples.jobReq Examples.taskWorkerScale).1 =
        .error ⟨["couldn't create deployment"], .alreadyExists⟩) := by
  refine ⟨⟨?_, ?_, ?_, ?_, ?_⟩, ⟨?_, ?_, ?_, ?_⟩, ⟨?_, ?_, ?_, ?_, ?_⟩,
    ⟨?_, ?_, ?_, ?_, ?_, ?_⟩⟩ <;> decide

/-- C8, amended: when the workload controller is stored under the name by which the pass
fetches it (the name of the request for the stateless and the HPC kind, the name of the
children for the stateful kind) with a live replica count other than the one of the spec,
the latter within the 32-bit range, a pass whose fetches (and, for the stateful kind, the
create of an absent headless service) meet no fault sends exactly one update, of the fetched
object with the replica count set to the one of the spec and every other field as fetched;
it sends no delete and no status write; the stateless and HPC pass send no create, the
stateful pass creates the headless service when it is absent and sends no other create. -/
theorem scale_update_one_update :
    (∀ (req : Request) (w : World Stateless.TaskJob) (cr : Stateless.TaskJob) (d : Deployment)
      (live : Int), w.quiet 2 = true → w.crs (req.Namespace, req.Name) = some cr →
      w.deployments (req.Namespace, req.Name) = some d → d.Spec.Replicas = some live →
      live ≠ cr.Spec.Replicas → -2147483648 ≤ cr.Spec.Replicas → cr.Spec.Replicas < 2147483648 →
      ∃ a : Option ApiError,
        (Stateless.Reconcile req w).2.trace =
          w.trace ++ [⟨.getCR req.Namespace req.Name, none⟩,
                      ⟨.getDeployment req.Namespace req.Name, none⟩,
                      ⟨.updateDeployment req.Namespace
                        { d with Spec := { d.Spec with Replicas := some cr.Spec.Replicas } }, a⟩] ∧
        (Stateless.Reconcile req w).1 =
          (match a with
            | none => .ok {}
            | some e => .error ⟨["couldn't update deployment"], e⟩)) ∧
    (∀ (req : Request) (w : World HPC.HPCJob) (cr : HPC.HPCJob) (d : Deployment)
      (live : Int), w.quiet 2 = true → w.crs (req.Namespace, req.Name) = some cr →
      w.deployments (req.Namespace, req.Name) = some d → d.Spec.Replicas = some live →
      live ≠ cr.Spec.Replicas → -2147483648 ≤ cr.Spec.Replicas → cr.Spec.Replicas < 2147483648 →
      ∃ a : Option ApiError,
        (HPC.Reconcile req w).2.trace =
          w.trace ++ [⟨.getCR req.Namespace req.Name, none⟩,
                      ⟨.getDeployment req.Namespace req.Name, none⟩,
                      ⟨.updateDeployment req.Namespace
                        { d with Spec := { d.Spec with Replicas := some cr.Spec.Replicas } }, a⟩] ∧
        (HPC.Reconcile req w).1 =
          (match a with
            | none => .ok {}
            | some e => .error ⟨["couldn't update deployment"], e⟩)) ∧
    (∀ (validQuantity : String → Bool) (req : Request) (w : World Stateful.Database)
      (db : Stateful.Database) (sts : StatefulSet) (live : Int),
      w.quiet (match w.services (req.Namespace, Stateful.childName db) with
        | some _ => 3
        | none => 4) = true →
      w.crs (req.Namespace, req.Name) = some db →
      w.statefulSets (req.Namespace, Stateful.childName db) = some sts →
      sts.Spec.Replicas = some live →
      live ≠ db.Spec.Replicas → -2147483648 ≤ db.Spec.Replicas → db.Spec.Replicas < 2147483648 →
      ∃ a : Option ApiError,
        (Stateful.Reconcile validQuantity req w).2.trace =
          w.trace ++ [⟨.getCR req.Namespace req.Name, none⟩] ++
            (match w.services (req.Namespace, Stateful.childName db) with
              | some _ => [⟨.getService req.Namespace (Stateful.childName db), none⟩]
              | none =>
                [⟨.getService req.Namespace (Stateful.childName db), some .notFound⟩,
                 ⟨.createService req.Namespace
                    (Stateful.makeHeadlessService (Stateful.childName db)), none⟩]) ++
            [⟨.getStatefulSet req.Namespace (Stateful.childName db), none⟩,
             ⟨.updateStatefulSet req.Namespace
                { sts with Spec := { sts.Spec with Replicas := some db.Spec.Replicas } }, a⟩] ∧
        (Stateful.Reconcile validQuantity req w).1 =
          (match a with
            | none => .ok { RequeueAfter := 5 }
            | some e => .error ⟨["update statefulset replicas"], e⟩)) := by
  refine ⟨?_, ?_, ?_⟩
  · intro req w cr d live hq hcr hd hl hne h1 h2
    rw [Stateless.taskJob_Reconcile_of_fetched req w cr d live hq hcr hd hl, if_pos hne]
    obtain ⟨a, ht, ho⟩ := Stateless.taskJob_scaleDeployment_spec req (Stateless.DeepCopyObject cr) d
      ((w.record (.getCR req.Namespace req.Name) none).record
        (.getDeployment req.Namespace req.Name) none)
    simp only [Stateless.taskJob_copy_Spec, HPC.hpcJob_copy_Replicas] at ht
    rw [int32_of_range _ h1 h2] at ht
    exact ⟨a, by rw [ht]; simp, ho⟩
  · intro req w cr d live hq hcr hd hl hne h1 h2
    rw [HPC.hpcJob_Reconcile_of_fetched req w cr d live hq hcr hd hl, if_pos hne]
    obtain ⟨a, ht, ho⟩ := HPC.hpcJob_scaleDeployment_spec req (HPC.DeepCopyObject cr) d
      ((w.record (.getCR req.Namespace req.Name) none).record
        (.getDeployment req.Namespace req.Name) none)
    simp only [Stateless.taskJob_copy_Spec, HPC.hpcJob_copy_Replicas] at ht
    rw [int32_of_range _ h1 h2] at ht
    exact ⟨a, by rw [ht]; simp, ho⟩
  · intro validQuantity req w db sts live hq hcr hs hl hne h1 h2
    have hq3 : w.quiet 3 = true := by
      cases hsvc : w.services (req.Namespace, Stateful.childName db) with
      | some svc => rw [hsvc] at hq; exact hq
      | none => rw [hsvc] at hq; exact World.quiet_mono w 3 4 (by omega) hq
    have hf0 := World.fault_of_quiet w 2 hq3
    have hq1 := World.record_quiet w 2 (.getCR req.Namespace req.Name) none hq3
    have hf1 := World.fault_of_quiet _ 1 hq1
    have hne' : live ≠ int32 (Stateful.DeepCopyObject db).Spec.Replicas := by
      rw [Stateful.database_copy_Spec, int32_of_range _ h1 h2]; exact hne
    rw [Stateful.database_Reconcile_of_fetched validQuantity req w db hf0 hcr]
    rcases World.getService_cases req.Namespace (Stateful.childName db)
        (w.record (.getCR req.Namespace req.Name) none) with
      ⟨e, hf2, _⟩ | ⟨svc, _, hsv, h⟩ | ⟨_, hsv, h⟩
    · rw [hf1] at hf2; cases hf2
    · rw [h]; dsimp only
      have hq2 := World.record_quiet _ 1 (.getService req.Namespace (Stateful.childName db))
        none hq1
      have hf2 := World.fault_of_quiet _ 0 hq2
      rw [Stateful.ensureStatefulSet_scale validQuantity req (Stateful.DeepCopyObject db)
        (Stateful.childName db) _ sts live hf2 (by simpa using hs) hl hne']
      rw [Stateful.database_copy_Spec, int32_of_range _ h1 h2]
      obtain ⟨a, ht, ho⟩ := Stateful.syncReplicas_spec req sts db.Spec.Replicas
        (((w.record (.getCR req.Namespace req.Name) none).record
          (.getService req.Namespace (Stateful.childName db)) none).record
          (.getStatefulSet req.Namespace (Stateful.childName db)) none)
      rw [World.record_services] at hsv
      exact ⟨a, by rw [ht, hsv]; simp, ho⟩
    · rw [h]; dsimp only
      rw [if_pos rfl]
      rw [World.record_services] at hsv
      rw [hsv] at hq
      have hq1' := World.record_quiet w 3 (.getCR req.Namespace req.Name) none hq
      have hq2 := World.record_quiet _ 2 (.getService req.Namespace (Stateful.childName db))
        (some .notFound) hq1'
      have hf2 := World.fault_of_quiet _ 1 hq2
      rcases World.createService_cases req.Namespace
          (Stateful.makeHeadlessService (Stateful.childName db))
          ((w.record (.getCR req.Namespace req.Name) none).record
            (.getService req.Namespace (Stateful.childName db)) (some .notFound)) with
        ⟨e2, hf3, _⟩ | ⟨old, _, hold, _⟩ | ⟨_, _, h2'⟩
      · rw [hf2] at hf3; cases hf3
      · rw [World.record_services, World.record_services] at hold
        have : (Stateful.makeHeadlessService (Stateful.childName db)).ObjectMeta.Name =
            Stateful.childName db := rfl
        rw [this, hsv] at hold; cases hold
      · rw [h2']; dsimp only
        have hq3' := World.record_quiet _ 1
          (.createService req.Namespace (Stateful.makeHeadlessService (Stateful.childName db)))
          none hq2
        have hf3 := World.fault_of_quiet _ 0 hq3'
        rw [Stateful.ensureStatefulSet_scale validQuantity req (Stateful.DeepCopyObject db)
          (Stateful.childName db) _ sts live (by simpa using hf3) (by simpa using hs) hl hne']
        rw [Stateful.database_copy_Spec, int32_of_range _ h1 h2]
        obtain ⟨a, ht, ho⟩ := Stateful.syncReplicas_spec req sts db.Spec.Replicas
          (((((w.record (.getCR req.Namespace req.Name) none).record
            (.getService req.Namespace (Stateful.childName db)) (some .notFound)).record
            (.createService req.Namespace
              (Stateful.makeHeadlessService (Stateful.childName db))) none).setService
            (req.Namespace,
              (Stateful.makeHeadlessService (Stateful.childName db)).ObjectMeta.Name)
            (some (Stateful.makeHeadlessService (Stateful.childName db)))).record
            (.getStatefulSet req.Namespace (Stateful.childName db)) none)
        exact ⟨a, by rw [ht, hsv]; simp, ho⟩

/-- C8, amended, at an existing deployment with two replicas and a spec asking for five: the
stateless and the HPC pass send one update to five and nothing else; at the stateful
cluster without its headless service the pass creates the service and sends one update. -/
theorem scale_update_one_update_witness :
    (∃ a : Option ApiError,
      (Stateless.Reconcile Examples.jobReq Examples.taskScale).2.trace =
        Examples.taskScale.trace ++ [⟨.getCR "default" "job", none⟩,
          ⟨.getDeployment "default" "job", none⟩,
          ⟨.updateDeployment "default"
            { Examples.jobDeployment 2 with
              Spec := { (Examples.jobDeployment 2).Spec with Replicas := some 5 } }, a⟩] ∧
      (Stateless.Reconcile Examples.jobReq Examples.taskScale).1 =
        (match a with
          | none => .ok {}
          | some e => .error ⟨["couldn't update deployment"], e⟩)) ∧
    (∃ a : Option ApiError,
      (HPC.Reconcile Examples.jobReq Examples.hpcScale).2.trace =
        Examples.hpcScale.trace ++ [⟨.getCR "default" "job", none⟩,
          ⟨.getDeployment "default" "job", none⟩,
          ⟨.updateDeployment "default"
            { Examples.jobDeployment 2 with
              Spec := { (Examples.jobDeployment 2).Spec with Replicas := some 5 } }, a⟩] ∧
      (HPC.Reconcile Examples.jobReq Examples.hpcScale).1 =
        (match a with
          | none => .ok {}
          | some e => .error ⟨["couldn't update deployment"], e⟩)) ∧
    (∃ a : Option ApiError,
      (Stateful.Reconcile Examples.validQuantity Examples.dbReq Examples.dbScaleNoService).2.trace =
        Examples.dbScaleNoService.trace ++ [⟨.getCR "default" "db", none⟩] ++
          (match Examples.dbScaleNoService.services ("default", "db") with
            | some _ => [⟨.getService "default" "db", none⟩]
            | none =>
              [⟨.getService "default" "db", some .notFound⟩,
               ⟨.createService "default" (Stateful.makeHeadlessService "db"), none⟩]) ++
          [⟨.getStatefulSet "default" "db", none⟩,
           ⟨.updateStatefulSet "default"
              { Examples.dbStatefulSetTwo with
                Spec := { Examples.dbStatefulSetTwo.Spec with Replicas := some 5 } }, a⟩] ∧
      (Stateful.Reconcile Examples.validQuantity Examples.dbReq Examples.dbScaleNoService).1 =
        (match a with
          | none => .ok { RequeueAfter := 5 }
          | some e => .error ⟨["update statefulset replicas"], e⟩)) :=
  ⟨scale_update_one_update.1 Examples.jobReq Examples.taskScale Examples.taskJobFive
      (Examples.jobDeployment 2) 2 rfl rfl rfl rfl (by decide) (by decide) (by decide),
    scale_update_one_update.2.1 Examples.jobReq Examples.hpcScale Examples.hpcJobFive
      (Examples.jobDeployment 2) 2 rfl rfl rfl rfl (by decide) (by decide) (by decide),
    scale_update_one_update.2.2 Examples.validQuantity Examples.dbReq Examples.dbScaleNoService
      Examples.databaseFive Examples.dbStatefulSetTwo 2 rfl rfl rfl rfl (by decide) (by decide)
      (by decide)⟩

/-! ### Status writes -/

namespace Stateless

/-- The create path: the deployment create comes first, the service create follows only
when the first one succeeded, and any error answer ends the pass with that error. -/
theorem taskJob_createChildren_spec (req : Request) (cr : TaskJob) (w : World TaskJob) :
    ∃ a1 a2 : Option ApiError,
      (createChildren req cr w).2.trace =
        w.trace ++ [⟨.createDeployment req.Namespace (getDeploymentObject cr), a1⟩] ++
          (match a1 with
            | none => [⟨.createService req.Namespace (getServiceObject cr), a2⟩]
            | some _ => []) ∧
      (createChildren req cr w).1 =
        (match a1, a2 with
          | some e, _ => .error ⟨["couldn't create deployment"], e⟩
          | none, some e => .error ⟨["couldn't create service"], e⟩
          | none, none => .ok {}) := by
  unfold createChildren
  rcases World.createDeployment_cases req.Namespace (getDeploymentObject cr) w with
    ⟨e, _, h⟩ | ⟨old, _, _, h⟩ | ⟨_, _, h⟩
  · rw [h]; exact ⟨some e, none, by simp, rfl⟩
  · rw [h]; exact ⟨some .alreadyExists, none, by simp, rfl⟩
  · rw [h]; dsimp only
    rcases World.createService_cases req.Namespace (getServiceObject cr)
        ((w.record (.createDeployment req.Namespace (getDeploymentObject cr)) none).setDeployment
          (req.Namespace, (getDeploymentObject cr).ObjectMeta.Name)
          (some (getDeploymentObject cr))) with
      ⟨e, _, h2⟩ | ⟨old2, _, _, h2⟩ | ⟨_, _, h2⟩
    · rw [h2]; exact ⟨none, some e, by simp, rfl⟩
    · rw [h2]; exact ⟨none, some .alreadyExists, by simp, rfl⟩
    · rw [h2]; exact ⟨none, none, by simp, rfl⟩

/-- The deletion path sends no status write. -/
theorem taskJob_cleanup_statusWrites (req : Request) (name : String) (w : World TaskJob) :
    statusWrites (cleanup req name w).2.trace = statusWrites w.trace := by
  obtain ⟨a1, a2, h, -⟩ := taskJob_cleanup_spec req name w
  rw [h]
  cases a1 <;> simp [statusWrites, Call.isStatusWrite]

/-- The create path sends no status write. -/
theorem taskJob_createChildren_statusWrites (req : Request) (cr : TaskJob) (w : World TaskJob) :
    statusWrites (createChildren req cr w).2.trace = statusWrites w.trace := by
  obtain ⟨a1, a2, h, -⟩ := taskJob_createChildren_spec req cr w
  rw [h]
  cases a1 <;> simp [statusWrites, Call.isStatusWrite]

/-- The replica update sends no status write. -/
theorem taskJob_scaleDeployment_statusWrites (req : Request) (cr : TaskJob) (d : Deployment)
    (w : World TaskJob) :
    statusWrites (scaleDeployment req cr d w).2.trace = statusWrites w.trace := by
  obtain ⟨a, h, -⟩ := taskJob_scaleDeployment_spec req cr d w
  rw [h]
  simp [statusWrites, Call.isStatusWrite]

end Stateless

namespace HPC

/-- The create path: the deployment create comes first, the service create follows only
when the first one succeeded, and any error answer ends the pass with that error. -/
theorem hpcJob_createChildren_spec (req : Request) (cr : HPCJob) (w : World HPCJob) :
    ∃ a1 a2 : Option ApiError,
      (createChildren req cr w).2.trace =
        w.trace ++ [⟨.createDeployment req.Namespace (getDeploymentObject cr), a1⟩] ++
          (match a1 with
            | none => [⟨.createService req.Namespace (getServiceObject cr), a2⟩]
            | some _ => []) ∧
      (createChildren req cr w).1 =
        (match a1, a2 with
          | some e, _ => .error ⟨["couldn't create deployment"], e⟩
          | none, some e => .error ⟨["couldn't create service"], e⟩
          | none, none => .ok {}) := by
  unfold createChildren
  rcases World.createDeployment_cases req.Namespace (getDeploymentObject cr) w with
    ⟨e, _, h⟩ | ⟨old, _, _, h⟩ | ⟨_, _, h⟩
  · rw [h]; exact ⟨some e, none, by simp, rfl⟩
  · rw [h]; exact ⟨some .alreadyExists, none, by simp, rfl⟩
  · rw [h]; dsimp only
    rcases World.createService_cases req.Namespace (getServiceObject cr)
        ((w.record (.createDeployment req.Namespace (getDeploymentObject cr)) none).setDeployment
          (req.Namespace, (getDeploymentObject cr).ObjectMeta.Name)
          (some (getDeploymentObject cr))) with
      ⟨e, _, h2⟩ | ⟨old2, _, _, h2⟩ | ⟨_, _, h2⟩
    · rw [h2]; exact ⟨none, some e, by simp, rfl⟩
    · rw [h2]; exact ⟨none, some .alreadyExists, by simp, rfl⟩
    · rw [h2]; exact ⟨none, none, by simp, rfl⟩

/-- The deletion path sends no status write. -/
theorem hpcJob_cleanup_statusWrites (req : Request) (name : String) (w : World HPCJob) :
    statusWrites (cleanup req name w).2.trace = statusWrites w.trace := by
  obtain ⟨a1, a2, h, -⟩ := hpcJob_cleanup_spec req name w
  rw [h]
  cases a1 <;> simp [statusWrites, Call.isStatusWrite]

/-- The create path sends no status write. -/
theorem hpcJob_createChildren_statusWrites (req : Request) (cr : HPCJob) (w : World HPCJob) :
    statusWrites (createChildren req cr w).2.trace = statusWrites w.trace := by
  obtain ⟨a1, a2, h, -⟩ := hpcJob_createChildren_spec req cr w
  rw [h]
  cases a1 <;> simp [statusWrites, Call.isStatusWrite]

/-- The replica update sends no status write. -/
theorem hpcJob_scaleDeployment_statusWrites (req : Request) (cr : HPCJob) (d : Deployment)
    (w : World HPCJob) :
    statusWrites (scaleDeployment req cr d w).2.trace = statusWrites w.trace := by
  obtain ⟨a, h, -⟩ := hpcJob_scaleDeployment_spec req cr d w
  rw [h]
  simp [statusWrites, Call.isStatusWrite]

end HPC

namespace Stateless

/-- The `taskJob` object that `updateJobStatus` sends when the inferred state differs from
the stored one (lines 310-314), written as one record. -/
theorem taskJob_stamped (taskJob : TaskJob) (state : String) (now : Time) :
    (if state = "Completed" then
        { ({ taskJob with Status := { taskJob.Status with State := state } } : TaskJob) with
          Status := { ({ taskJob with
            Status := { taskJob.Status with State := state } } : TaskJob).Status with
              CompletionTime := some now } }
      else ({ taskJob with Status := { taskJob.Status with State := state } } : TaskJob)) =
      { taskJob with
        Status :=
          { State := state,
            CompletionTime :=
              if state = "Completed" then some now else taskJob.Status.CompletionTime } } := by
  split <;> rfl

/-- The state inferred from the pods is never the empty text. -/
theorem inferState_ne_empty (pods : List Pod) : inferState pods ≠ "" := by
  unfold inferState decideState
  have hs : (scanPods pods { state := "Pending", hasReady := false, hasFailed := false }).state =
        "Completed" ∨
      (scanPods pods { state := "Pending", hasReady := false, hasFailed := false }).state =
        "Pending" := by
    by_cases h : ∃ p ∈ pods, p.Status.Phase = PodSucceeded
    · exact Or.inl (scanPods_state_of_succeeded _ _ h)
    · right
      rw [scanPods_state_of_no_succeeded _ _ (by
        intro p hp hph
        exact h ⟨p, hp, hph⟩)]
  split
  · decide
  · split
    · decide
    · rcases hs with h | h <;> rw [h] <;> decide

end Stateless

namespace Stateless

/-- `updateJobStatus` when the list of the pods is answered with an error. -/
theorem taskJob_updateJobStatus_of_fault (cr : TaskJob) (w : World TaskJob) (e : ApiError)
    (hf : w.fault = some e) :
    updateJobStatus cr w =
      (some e, cr,
        w.record (.listPods cr.ObjectMeta.Namespace ("app=" ++ cr.Spec.JobName)) (some e)) := by
  unfold updateJobStatus
  rcases World.listPods_cases cr.ObjectMeta.Namespace ("app=" ++ cr.Spec.JobName) w with
    ⟨e2, hf2, h⟩ | ⟨hf2, _⟩
  · rw [hf] at hf2; cases hf2
    rw [h]
  · rw [hf] at hf2; cases hf2

/-- `updateJobStatus` when the pods are listed and the inferred state is the stored one. -/
theorem taskJob_updateJobStatus_of_same (cr : TaskJob) (w : World TaskJob)
    (hf : w.fault = none)
    (hs : cr.Status.State =
      inferState (w.pods (cr.ObjectMeta.Namespace, "app=" ++ cr.Spec.JobName))) :
    updateJobStatus cr w =
      (none, cr,
        w.record (.listPods cr.ObjectMeta.Namespace ("app=" ++ cr.Spec.JobName)) none) := by
  unfold updateJobStatus
  rcases World.listPods_cases cr.ObjectMeta.Namespace ("app=" ++ cr.Spec.JobName) w with
    ⟨e2, hf2, _⟩ | ⟨_, h⟩
  · rw [hf] at hf2; cases hf2
  · rw [h]; dsimp only
    rw [if_neg (not_not.2 hs)]

/-- `updateJobStatus` when the pods are listed and the inferred state differs from the
stored one: the object is given the inferred state, the current time as completion time if
that state is "Completed", and is sent. -/
theorem taskJob_updateJobStatus_of_changed (cr : TaskJob) (w : World TaskJob)
    (hf : w.fault = none)
    (hs : cr.Status.State ≠
      inferState (w.pods (cr.ObjectMeta.Namespace, "app=" ++ cr.Spec.JobName))) :
    updateJobStatus cr w =
      (((w.record (.listPods cr.ObjectMeta.Namespace ("app=" ++ cr.Spec.JobName))
          none).updateStatus
          { cr with
            Status :=
              { State := inferState (w.pods (cr.ObjectMeta.Namespace, "app=" ++ cr.Spec.JobName)),
                CompletionTime :=
                  if inferState (w.pods (cr.ObjectMeta.Namespace, "app=" ++ cr.Spec.JobName)) =
                      "Completed" then some w.now
                  else cr.Status.CompletionTime } }).1,
        { cr with
          Status :=
            { State := inferState (w.pods (cr.ObjectMeta.Namespace, "app=" ++ cr.Spec.JobName)),
              CompletionTime :=
                if inferState (w.pods (cr.ObjectMeta.Namespace, "app=" ++ cr.Spec.JobName)) =
                    "Completed" then some w.now
                else cr.Status.CompletionTime } },
        ((w.record (.listPods cr.ObjectMeta.Namespace ("app=" ++ cr.Spec.JobName))
          none).updateStatus
          { cr with
            Status :=
              { State := inferState (w.pods (cr.ObjectMeta.Namespace, "app=" ++ cr.Spec.JobName)),
                CompletionTime :=
                  if inferState (w.pods (cr.ObjectMeta.Namespace, "app=" ++ cr.Spec.JobName)) =
                      "Completed" then some w.now
                  else cr.Status.CompletionTime } }).2) := by
  unfold updateJobStatus
  rcases World.listPods_cases cr.ObjectMeta.Namespace ("app=" ++ cr.Spec.JobName) w with
    ⟨e2, hf2, _⟩ | ⟨_, h⟩
  · rw [hf] at hf2; cases hf2
  · rw [h]; dsimp only
    rw [if_pos hs, taskJob_stamped]
    simp only [World.record_now]
    rcases World.updateStatus
      ({ cr with
        Status :=
          { State := inferState (w.pods (cr.ObjectMeta.Namespace, "app=" ++ cr.Spec.JobName)),
            CompletionTime :=
              if inferState (w.pods (cr.ObjectMeta.Namespace, "app=" ++ cr.Spec.JobName)) =
                  "Completed" then some w.now
              else cr.Status.CompletionTime } } : TaskJob)
      (w.record (.listPods cr.ObjectMeta.Namespace ("app=" ++ cr.Spec.JobName)) none)
      with ⟨a, w'⟩
    cases a <;> rfl

/-- `updateJobStatus` on the copy of `cr` a fetch hands out, when the pods are listed: the
copy carries no state, so the inferred state always counts as a change; the object is given
the inferred state, the current time as completion time if that state is "Completed" and
no completion time otherwise, and is sent. -/
theorem taskJob_updateJobStatus_of_copy (cr : TaskJob) (w : World TaskJob)
    (hf : w.fault = none) :
    updateJobStatus (DeepCopyObject cr) w =
      (((w.record (.listPods cr.ObjectMeta.Namespace ("app=" ++ cr.Spec.JobName))
          none).updateStatus
          { cr with
            Status :=
              { State := inferState (w.pods (cr.ObjectMeta.Namespace, "app=" ++ cr.Spec.JobName)),
                CompletionTime :=
                  if inferState (w.pods (cr.ObjectMeta.Namespace, "app=" ++ cr.Spec.JobName)) =
                      "Completed" then some w.now
                  else none } }).1,
        { cr with
          Status :=
            { State := inferState (w.pods (cr.ObjectMeta.Namespace, "app=" ++ cr.Spec.JobName)),
              CompletionTime :=
                if inferState (w.pods (cr.ObjectMeta.Namespace, "app=" ++ cr.Spec.JobName)) =
                    "Completed" then some w.now
                else none } },
        ((w.record (.listPods cr.ObjectMeta.Namespace ("app=" ++ cr.Spec.JobName))
          none).updateStatus
          { cr with
            Status :=
              { State := inferState (w.pods (cr.ObjectMeta.Namespace, "app=" ++ cr.Spec.JobName)),
                CompletionTime :=
                  if inferState (w.pods (cr.ObjectMeta.Namespace, "app=" ++ cr.Spec.JobName)) =
                      "Completed" then some w.now
                  else none } }).2) :=
  (taskJob_updateJobStatus_of_changed (DeepCopyObject cr) w hf
    (inferState_ne_empty _).symm).trans rfl

/-- A stateless pass that finds the stored `cr` and its deployment with the replica count
of the spec and meets no fault, whatever status the server holds for `cr`: it lists the pods
and writes the inferred state, with the current time as completion time if that state is
"Completed" and with no completion time otherwise. -/
theorem taskJob_status_pass (req : Request) (w : World TaskJob) (cr : TaskJob) (d : Deployment)
    (hq : w.quiet 4 = true) (hcr : w.crs (req.Namespace, req.Name) = some cr)
    (hns : cr.ObjectMeta.Namespace = req.Namespace) (hname : cr.ObjectMeta.Name = req.Name)
    (hd : w.deployments (req.Namespace, req.Name) = some d)
    (hrep : d.Spec.Replicas = some cr.Spec.Replicas) :
    Reconcile req w =
      (.ok { RequeueAfter := 10 },
        ((((w.record (.getCR req.Namespace req.Name) none).record
          (.getDeployment req.Namespace req.Name) none).record
          (.listPods req.Namespace ("app=" ++ cr.Spec.JobName)) none).record
          (.updateStatus
            { cr with
              Status :=
                { State := inferState (w.pods (req.Namespace, "app=" ++ cr.Spec.JobName)),
                  CompletionTime :=
                    if inferState (w.pods (req.Namespace, "app=" ++ cr.Spec.JobName)) =
                        "Completed" then some w.now
                    else none } }) none).setCR (req.Namespace, req.Name)
          (some
            { cr with
              Status :=
                { State := inferState (w.pods (req.Namespace, "app=" ++ cr.Spec.JobName)),
                  CompletionTime :=
                    storedTime
                      (if inferState (w.pods (req.Namespace, "app=" ++ cr.Spec.JobName)) =
                          "Completed" then some w.now
                        else none) } })) := by
  have hq2 := World.quiet_mono w 2 4 (by omega) hq
  have hq3 := World.record_quiet _ 2 (.getDeployment req.Namespace req.Name) none
    (World.record_quiet w 3 (.getCR req.Namespace req.Name) none hq)
  have hf3 := World.fault_of_quiet _ 1 hq3
  have hq4 := World.record_quiet _ 1 (.listPods req.Namespace ("app=" ++ cr.Spec.JobName)) none
    hq3
  have hf4 := World.fault_of_quiet _ 0 hq4
  rw [taskJob_Reconcile_of_fetched req w cr d cr.Spec.Replicas hq2 hcr hd hrep,
    if_neg (not_not.2 rfl)]
  rw [taskJob_updateJobStatus_of_copy cr _ hf3]
  simp only [hns, World.record_pods, World.record_now]
  rw [World.updateStatus_of_stored _ _ cr hf4
    (by simp only [CustomResource.meta, hns, hname]; simpa using hcr)]
  simp only [CustomResource.meta, hns, hname]
  rfl

end Stateless

namespace Stateful

/-- The stateful-set half of a pass, run on the copy of the stored `db`, that finds the
stateful set with the desired replica count and meets no fault, whatever status the server
holds for `db`: it writes the inferred status. -/
theorem ensureStatefulSet_status_pass (validQuantity : String → Bool) (req : Request)
    (db : Database) (name : String) (w : World Database) (sts : StatefulSet)
    (hq : w.quiet 2 = true) (hs : w.statefulSets (req.Namespace, name) = some sts)
    (hl : sts.Spec.Replicas = some (int32 db.Spec.Replicas))
    (hcr : w.crs (db.ObjectMeta.Namespace, db.ObjectMeta.Name) = some db) :
    ensureStatefulSet validQuantity req (DeepCopyObject db) name w =
      (.ok { RequeueAfter := 10 },
        ((w.record (.getStatefulSet req.Namespace name) none).record
          (.updateStatus
            { db with
              Status :=
                { Phase := inferPhase sts.Status.ReadyReplicas (int32 db.Spec.Replicas)
                  ReadyReplicas := sts.Status.ReadyReplicas } }) none).setCR
          (db.ObjectMeta.Namespace, db.ObjectMeta.Name)
          (some
            { db with
              Status :=
                { Phase := inferPhase sts.Status.ReadyReplicas (int32 db.Spec.Replicas)
                  ReadyReplicas := sts.Status.ReadyReplicas } })) := by
  have hf := World.fault_of_quiet w 1 hq
  have hq1 := World.record_quiet w 1 (.getStatefulSet req.Namespace name) none hq
  have hf1 := World.fault_of_quiet _ 0 hq1
  unfold ensureStatefulSet
  rcases World.getStatefulSet_cases req.Namespace name w with
    ⟨e, hf2, _⟩ | ⟨obj, _, hc, h⟩ | ⟨_, hc, _⟩
  · rw [hf] at hf2; cases hf2
  · rw [hs] at hc; cases hc
    rw [h]; dsimp only
    rw [hl]; dsimp only
    simp only [database_copy_Spec]
    rw [if_neg (not_not.2 rfl)]
    unfold syncStatus
    dsimp only
    have hg : (DeepCopyObject db).Status.Phase ≠
          inferPhase sts.Status.ReadyReplicas (int32 db.Spec.Replicas) ∨
        (DeepCopyObject db).Status.ReadyReplicas ≠ sts.Status.ReadyReplicas :=
      Or.inl (inferPhase_ne_empty _ _).symm
    rw [if_pos hg]
    rw [World.updateStatus_of_stored
      ({ DeepCopyObject db with
        Status := { Phase := inferPhase sts.Status.ReadyReplicas (int32 db.Spec.Replicas),
                    ReadyReplicas := sts.Status.ReadyReplicas } } : Database)
      _ db hf1 (by simpa [CustomResource.meta] using hcr)]
    rfl
  · rw [hs] at hc; cases hc

/-- A stateful pass that finds the stored `db` and its stateful set with the desired replica
count and meets no fault, whatever status the server holds for `db`: it ends with the
requeue of the status step and has sent one status write, which carries the inferred
status. -/
theorem database_status_pass (validQuantity : String → Bool) (req : Request)
    (w : World Database) (db : Database) (sts : StatefulSet)
    (hq : w.quiet 5 = true) (hcr : w.crs (req.Namespace, req.Name) = some db)
    (hns : db.ObjectMeta.Namespace = req.Namespace) (hname : db.ObjectMeta.Name = req.Name)
    (hs : w.statefulSets (req.Namespace, childName db) = some sts)
    (hl : sts.Spec.Replicas = some (int32 db.Spec.Replicas)) :
    (Reconcile validQuantity req w).1 = .ok { RequeueAfter := 10 } ∧
      statusWrites (Reconcile validQuantity req w).2.trace =
        statusWrites w.trace ++
          [⟨.updateStatus
            { db with
              Status :=
                { Phase := inferPhase sts.Status.ReadyReplicas (int32 db.Spec.Replicas)
                  ReadyReplicas := sts.Status.ReadyReplicas } }, none⟩] ∧
      (Reconcile validQuantity req w).2.crs =
        Function.update w.crs (req.Namespace, req.Name)
          (some
            { db with
              Status :=
                { Phase := inferPhase sts.Status.ReadyReplicas (int32 db.Spec.Replicas)
                  ReadyReplicas := sts.Status.ReadyReplicas } }) := by
  have hf0 := World.fault_of_quiet w 4 hq
  have hq1 := World.record_quiet w 4 (.getCR req.Namespace req.Name) none hq
  have hf1 := World.fault_of_quiet _ 3 hq1
  rw [database_Reconcile_of_fetched validQuantity req w db hf0 hcr]
  have key : ∀ w2 : World Database, w2.quiet 2 = true →
      w2.statefulSets = w.statefulSets → w2.crs = w.crs →
      statusWrites w2.trace = statusWrites w.trace →
      (ensureStatefulSet validQuantity req (DeepCopyObject db) (childName db) w2).1 =
          .ok { RequeueAfter := 10 } ∧
        statusWrites
            (ensureStatefulSet validQuantity req (DeepCopyObject db) (childName db) w2).2.trace =
          statusWrites w.trace ++
            [⟨.updateStatus
              { db with
                Status :=
                  { Phase := inferPhase sts.Status.ReadyReplicas (int32 db.Spec.Replicas)
                    ReadyReplicas := sts.Status.ReadyReplicas } }, none⟩] ∧
        (ensureStatefulSet validQuantity req (DeepCopyObject db) (childName db) w2).2.crs =
          Function.update w.crs (req.Namespace, req.Name)
            (some
              { db with
                Status :=
                  { Phase := inferPhase sts.Status.ReadyReplicas (int32 db.Spec.Replicas)
                    ReadyReplicas := sts.Status.ReadyReplicas } }) := by
    intro w2 hq2 hs2 hc2 ht2
    rw [ensureStatefulSet_status_pass validQuantity req db (childName db) w2 sts hq2
      (by rw [hs2]; exact hs) hl (by rw [hc2, hns, hname]; exact hcr)]
    refine ⟨rfl, ?_, ?_⟩
    · simp [statusWrites, Call.isStatusWrite] at ht2 ⊢
      rw [ht2]
    · simp [hc2, hns, hname]
  rcases World.getService_cases req.Namespace (childName db)
      (w.record (.getCR req.Namespace req.Name) none) with
    ⟨e, hf2, _⟩ | ⟨svc, _, _, h⟩ | ⟨_, hsv, h⟩
  · rw [hf1] at hf2; cases hf2
  · rw [h]; dsimp only
    have hq2 := World.record_quiet _ 3 (.getService req.Namespace (childName db)) none hq1
    exact key _ (World.quiet_mono _ 2 3 (by omega) hq2) (by simp) (by simp)
      (by simp [statusWrites, Call.isStatusWrite])
  · rw [h]; dsimp only
    rw [if_pos rfl]
    have hq2 := World.record_quiet _ 3 (.getService req.Namespace (childName db))
      (some .notFound) hq1
    have hf2 := World.fault_of_quiet _ 2 hq2
    rcases World.createService_cases req.Namespace (makeHeadlessService (childName db))
        ((w.record (.getCR req.Namespace req.Name) none).record
          (.getService req.Namespace (childName db)) (some .notFound)) with
      ⟨e2, hf3, _⟩ | ⟨old, _, hold, _⟩ | ⟨_, _, h2⟩
    · rw [hf2] at hf3; cases hf3
    · rw [World.record_services] at hold
      rw [show (makeHeadlessService (childName db)).ObjectMeta.Name = childName db from rfl,
        hsv] at hold
      cases hold
    · rw [h2]; dsimp only
      have hq3 := World.record_quiet _ 2
        (.createService req.Namespace (makeHeadlessService (childName db))) none hq2
      exact key _ (by simpa using hq3) (by simp) (by simp)
        (by simp [statusWrites, Call.isStatusWrite])

end Stateful

/-- C6 (what the code does): the status is written on every pass that reaches the status
step, also when it has not changed. The pass compares the inferred status with the status
of the copy the fetch handed out, which is empty, not with the stored one. So whatever
status the server holds, a stateless pass that finds the deployment with the replica count
of the spec, and a stateful pass that finds the stateful set with the desired replica count,
meeting no fault, send one status write carrying the inferred status. At the TaskJob stored
as "Running" with one ready pod, and at the Database stored as "Ready" with three of three
replicas ready, the inferred status is the stored one, the pass writes it again, and so does
the pass run directly after it. -/
theorem status_written_on_every_pass :
    (∀ (req : Request) (w : World Stateless.TaskJob) (cr : Stateless.TaskJob) (d : Deployment),
      w.quiet 4 = true → w.crs (req.Namespace, req.Name) = some cr →
      cr.ObjectMeta.Namespace = req.Namespace → cr.ObjectMeta.Name = req.Name →
      w.deployments (req.Namespace, req.Name) = some d →
      d.Spec.Replicas = some cr.Spec.Replicas →
      (Stateless.Reconcile req w).1 = .ok { RequeueAfter := 10 } ∧
        statusWrites (Stateless.Reconcile req w).2.trace =
          statusWrites w.trace ++
            [⟨.updateStatus
              { cr with
                Status :=
                  { State :=
                      Stateless.inferState (w.pods (req.Namespace, "app=" ++ cr.Spec.JobName))
                    CompletionTime :=
                      if Stateless.inferState
                          (w.pods (req.Namespace, "app=" ++ cr.Spec.JobName)) = "Completed"
                      then some w.now
                      else none } }, none⟩]) ∧
    (∀ (validQuantity : String → Bool) (req : Request) (w : World Stateful.Database)
      (db : Stateful.Database) (sts : StatefulSet),
      w.quiet 5 = true → w.crs (req.Namespace, req.Name) = some db →
      db.ObjectMeta.Namespace = req.Namespace → db.ObjectMeta.Name = req.Name →
      w.statefulSets (req.Namespace, Stateful.childName db) = some sts →
      sts.Spec.Replicas = some (int32 db.Spec.Replicas) →
      (Stateful.Reconcile validQuantity req w).1 = .ok { RequeueAfter := 10 } ∧
        statusWrites (Stateful.Reconcile validQuantity req w).2.trace =
          statusWrites w.trace ++
            [⟨.updateStatus
              { db with
                Status :=
                  { Phase :=
                      Stateful.inferPhase sts.Status.ReadyReplicas (int32 db.Spec.Replicas)
                    ReadyReplicas := sts.Status.ReadyReplicas } }, none⟩]) ∧
    (Examples.taskRunning.crs ("default", "job") =
        some { Examples.taskJobFive with Status := { State := "Running" } } ∧
      Stateless.inferState (Examples.taskRunning.pods ("default", "app=job")) = "Running" ∧
      writes (Stateless.Reconcile Examples.jobReq Examples.taskRunning).2.trace =
        [⟨.updateStatus { Examples.taskJobFive with Status := { State := "Running" } },
          none⟩] ∧
      (Stateless.Reconcile Examples.jobReq Examples.taskRunning).2.crs ("default", "job") =
        some { Examples.taskJobFive with Status := { State := "Running" } } ∧
      writes (Stateless.Reconcile Examples.jobReq
          ((Stateless.Reconcile Examples.jobReq Examples.taskRunning).2.nextPass [])).2.trace =
        [⟨.updateStatus { Examples.taskJobFive with Status := { State := "Running" } },
          none⟩]) ∧
    (Examples.dbReady.crs ("default", "db") =
        some { Examples.database with Status := { Phase := "Ready", ReadyReplicas := 3 } } ∧
      Examples.dbReady.statefulSets ("default", "db") = some (Examples.dbStatefulSet 3) ∧
      Stateful.inferPhase (Examples.dbStatefulSet 3).Status.ReadyReplicas 3 = "Ready" ∧
      writes (Stateful.Reconcile Examples.validQuantity Examples.dbReq Examples.dbReady).2.trace =
        [⟨.updateStatus
          { Examples.database with Status := { Phase := "Ready", ReadyReplicas := 3 } },
          none⟩] ∧
      writes (Stateful.Reconcile Examples.validQuantity Examples.dbReq
          ((Stateful.Reconcile Examples.validQuantity Examples.dbReq
            Examples.dbReady).2.nextPass [])).2.trace =
        [⟨.updateStatus
          { Examples.database with Status := { Phase := "Ready", ReadyReplicas := 3 } },
          none⟩]) := by
  refine ⟨?_, ?_, ⟨?_, ?_, ?_, ?_, ?_⟩, ⟨?_, ?_, ?_, ?_, ?_⟩⟩
  · intro req w cr d hq hcr hns hname hd hrep
    rw [Stateless.taskJob_status_pass req w cr d hq hcr hns hname hd hrep]
    exact ⟨rfl, by simp [statusWrites, Call.isStatusWrite]⟩
  · intro validQuantity req w db sts hq hcr hns hname hs hl
    obtain ⟨h1, h2, -⟩ :=
      Stateful.database_status_pass validQuantity req w db sts hq hcr hns hname hs hl
    exact ⟨h1, h2⟩
  all_goals decide

/-- C6, at the example clusters: both meet no fault, hold the custom resource with a status
equal to the inferred one and the child with the desired replica count; the pass ends with
the requeue of the status step and has sent the status write. -/
theorem status_written_on_every_pass_witness :
    (Examples.taskRunning.quiet 4 = true ∧
      (Stateless.Reconcile Examples.jobReq Examples.taskRunning).1 =
        .ok { RequeueAfter := 10 } ∧
      statusWrites (Stateless.Reconcile Examples.jobReq Examples.taskRunning).2.trace =
        statusWrites Examples.taskRunning.trace ++
          [⟨.updateStatus
            { ({ Examples.taskJobFive with Status := { State := "Running" } } :
                Stateless.TaskJob) with
              Status :=
                { State :=
                    Stateless.inferState (Examples.taskRunning.pods ("default", "app=job"))
                  CompletionTime :=
                    if Stateless.inferState
                        (Examples.taskRunning.pods ("default", "app=job")) = "Completed"
                    then some Examples.taskRunning.now
                    else none } }, none⟩]) ∧
    (Examples.dbReady.quiet 5 = true ∧
      (Stateful.Reconcile Examples.validQuantity Examples.dbReq Examples.dbReady).1 =
        .ok { RequeueAfter := 10 } ∧
      statusWrites
          (Stateful.Reconcile Examples.validQuantity Examples.dbReq Examples.dbReady).2.trace =
        statusWrites Examples.dbReady.trace ++
          [⟨.updateStatus
            { ({ Examples.database with
                  Status := { Phase := "Ready", ReadyReplicas := 3 } } : Stateful.Database) with
              Status :=
                { Phase :=
                    Stateful.inferPhase (Examples.dbStatefulSet 3).Status.ReadyReplicas
                      (int32 Examples.database.Spec.Replicas)
                  ReadyReplicas := (Examples.dbStatefulSet 3).Status.ReadyReplicas } },
            none⟩]) :=
  ⟨⟨by decide,
      status_written_on_every_pass.1 Examples.jobReq Examples.taskRunning
        { Examples.taskJobFive with Status := { State := "Running" } }
        (Examples.jobDeployment 5) (by decide) rfl rfl rfl rfl rfl⟩,
    ⟨by decide,
      status_written_on_every_pass.2.1 Examples.validQuantity Examples.dbReq Examples.dbReady
        { Examples.database with Status := { Phase := "Ready", ReadyReplicas := 3 } }
        (Examples.dbStatefulSet 3) (by decide) rfl rfl rfl rfl rfl⟩⟩

namespace Stateful

/-- Every status write of the stateful-set half of a pass carries the fetched `db` with the
inferred phase and the observed count of ready replicas. -/
theorem ensureStatefulSet_statusWrites_spec (validQuantity : String → Bool) (req : Request)
    (db : Database) (name : String) (w : World Database) (sts : StatefulSet) (live : Int)
    (hs : w.statefulSets (req.Namespace, name) = some sts)
    (hl : sts.Spec.Replicas = some live) :
    ∃ l : List (Event Database),
      statusWrites (ensureStatefulSet validQuantity req db name w).2.trace =
        statusWrites w.trace ++ l ∧
      ∀ ev ∈ l, ∃ a, ev = ⟨.updateStatus
        { db with Status := { Phase := inferPhase sts.Status.ReadyReplicas live,
                              ReadyReplicas := sts.Status.ReadyReplicas } }, a⟩ := by
  unfold ensureStatefulSet
  rcases World.getStatefulSet_cases req.Namespace name w with
    ⟨e, _, h⟩ | ⟨obj, _, hc, h⟩ | ⟨_, hc, _⟩
  · rw [h]; dsimp only
    refine ⟨[], ?_, by simp⟩
    by_cases hnf : e = .notFound
    · rw [if_pos hnf]
      cases makeStatefulSet validQuantity db name with
      | none => simp [statusWrites, Call.isStatusWrite]
      | some stsObj =>
        dsimp only
        rcases World.createStatefulSet_cases req.Namespace stsObj
            (w.record (.getStatefulSet req.Namespace name) (some e)) with
          ⟨e2, _, h2⟩ | ⟨old, _, _, h2⟩ | ⟨_, _, h2⟩
        · rw [h2]; simp [statusWrites, Call.isStatusWrite]
        · rw [h2]; simp [statusWrites, Call.isStatusWrite]
        · rw [h2]; simp [statusWrites, Call.isStatusWrite]
    · rw [if_neg hnf]; simp [statusWrites, Call.isStatusWrite]
  · rw [hs] at hc; cases hc
    rw [h]; dsimp only
    rw [hl]; dsimp only
    by_cases hne : live ≠ int32 db.Spec.Replicas
    · rw [if_pos hne]
      obtain ⟨a, ht, -⟩ := syncReplicas_spec req sts (int32 db.Spec.Replicas)
        (w.record (.getStatefulSet req.Namespace name) none)
      rw [ht]
      exact ⟨[], by simp [statusWrites, Call.isStatusWrite], by simp⟩
    · rw [if_neg hne]
      unfold syncStatus
      dsimp only
      by_cases hch : db.Status.Phase ≠ inferPhase sts.Status.ReadyReplicas live ∨
          db.Status.ReadyReplicas ≠ sts.Status.ReadyReplicas
      · rw [if_pos hch]
        rcases World.updateStatus_cases
          ({ db with Status := { Phase := inferPhase sts.Status.ReadyReplicas live,
                                 ReadyReplicas := sts.Status.ReadyReplicas } } : Database)
          (w.record (.getStatefulSet req.Namespace name) none) with
          ⟨e, _, h2⟩ | ⟨stored, _, _, h2⟩ | ⟨_, _, h2⟩
        · rw [h2]
          exact ⟨[⟨.updateStatus
            ({ db with
              Status :=
                { Phase := inferPhase sts.Status.ReadyReplicas live,
                  ReadyReplicas := sts.Status.ReadyReplicas } } : Database), some e⟩],
            by simp [statusWrites, Call.isStatusWrite],
            by simp⟩
        · rw [h2]
          exact ⟨[⟨.updateStatus
            ({ db with
              Status :=
                { Phase := inferPhase sts.Status.ReadyReplicas live,
                  ReadyReplicas := sts.Status.ReadyReplicas } } : Database), none⟩],
            by simp [statusWrites, Call.isStatusWrite],
            by simp⟩
        · rw [h2]
          exact ⟨[⟨.updateStatus
            ({ db with
              Status :=
                { Phase := inferPhase sts.Status.ReadyReplicas live,
                  ReadyReplicas := sts.Status.ReadyReplicas } } : Database), some .notFound⟩],
            by simp [statusWrites, Call.isStatusWrite], by simp⟩
      · rw [if_neg hch]
        exact ⟨[], by simp [statusWrites, Call.isStatusWrite], by simp⟩
  · rw [hs] at hc; cases hc

/-- Every status write of a stateful pass carries the stored `db` with the inferred phase
and the observed count of ready replicas, whatever the answers of the server are. -/
theorem database_statusWrites_spec (validQuantity : String → Bool) (req : Request)
    (w : World Database) (db : Database) (sts : StatefulSet) (live : Int)
    (hcr : w.crs (req.Namespace, req.Name) = some db)
    (hs : w.statefulSets (req.Namespace, childName db) = some sts)
    (hl : sts.Spec.Replicas = some live) :
    ∃ l : List (Event Database),
      statusWrites (Reconcile validQuantity req w).2.trace = statusWrites w.trace ++ l ∧
      ∀ ev ∈ l, ∃ a, ev = ⟨.updateStatus
        { db with Status := { Phase := inferPhase sts.Status.ReadyReplicas live,
                              ReadyReplicas := sts.Status.ReadyReplicas } }, a⟩ := by
  rcases World.getCR_cases req.Namespace req.Name w with
    ⟨e, _, h⟩ | ⟨obj, hf, _, _⟩ | ⟨_, hc, _⟩
  · unfold Reconcile
    rw [h]; dsimp only
    refine ⟨[], ?_, by simp⟩
    split <;> simp [statusWrites, Call.isStatusWrite]
  · rw [database_Reconcile_of_fetched validQuantity req w db hf hcr]
    have key : ∀ w' : World Database, w'.statefulSets = w.statefulSets →
        statusWrites w'.trace = statusWrites w.trace →
        ∃ l : List (Event Database),
          statusWrites
              (ensureStatefulSet validQuantity req (DeepCopyObject db) (childName db)
                w').2.trace =
            statusWrites w.trace ++ l ∧
          ∀ ev ∈ l, ∃ a, ev = ⟨.updateStatus
            { db with Status := { Phase := inferPhase sts.Status.ReadyReplicas live,
                                  ReadyReplicas := sts.Status.ReadyReplicas } }, a⟩ := by
      intro w' h1 h2
      obtain ⟨l, h3, h4⟩ := ensureStatefulSet_statusWrites_spec validQuantity req
        (DeepCopyObject db) (childName db) w' sts live (by rw [h1]; exact hs) hl
      exact ⟨l, by rw [h3, h2], h4⟩
    have hcreate : ∀ w' : World Database, w'.statefulSets = w.statefulSets →
        statusWrites w'.trace = statusWrites w.trace →
        ∃ l : List (Event Database),
          statusWrites
            (match w'.createService req.Namespace (makeHeadlessService (childName db)) with
              | (some e, w) => ((.error ⟨["create service"], e⟩ : Outcome), w)
              | (none, w) =>
                ensureStatefulSet validQuantity req (DeepCopyObject db) (childName db)
                  w).2.trace =
            statusWrites w.trace ++ l ∧
          ∀ ev ∈ l, ∃ a, ev = ⟨.updateStatus
            { db with Status := { Phase := inferPhase sts.Status.ReadyReplicas live,
                                  ReadyReplicas := sts.Status.ReadyReplicas } }, a⟩ := by
      intro w' h1 h2
      rcases World.createService_cases req.Namespace (makeHeadlessService (childName db)) w' with
        ⟨e2, _, h3⟩ | ⟨old, _, _, h3⟩ | ⟨_, _, h3⟩
      · rw [h3]
        exact ⟨[], by simpa [statusWrites, Call.isStatusWrite] using h2, by simp⟩
      · rw [h3]
        exact ⟨[], by simpa [statusWrites, Call.isStatusWrite] using h2, by simp⟩
      · rw [h3]; dsimp only
        exact key _ (by simpa using h1) (by simpa [statusWrites, Call.isStatusWrite] using h2)
    rcases World.getService_cases req.Namespace (childName db)
        (w.record (.getCR req.Namespace req.Name) none) with
      ⟨e, _, h⟩ | ⟨svc, _, _, h⟩ | ⟨_, _, h⟩
    · rw [h]; dsimp only
      split
      · exact hcreate _ (by simp) (by simp [statusWrites, Call.isStatusWrite])
      · exact ⟨[], by simp [statusWrites, Call.isStatusWrite], by simp⟩
    · rw [h]; dsimp only
      exact key _ (by simp) (by simp [statusWrites, Call.isStatusWrite])
    · rw [h]; dsimp only
      rw [if_pos rfl]
      exact hcreate _ (by simp) (by simp [statusWrites, Call.isStatusWrite])
  · rw [hcr] at hc; cases hc

end Stateful

/-! ### Stateful kind: the status a pass stores -/

namespace Stateful

/-- C5: take a stateful pass on a stored Database whose stateful set reports `r` ready
replicas and has the replica count `d`. If the pass ends the status step well (it returns
the ten-second requeue), the server then holds a status whose ready-replica count is `r`
and whose phase is "Pending" when `r = 0`, "Running" when `0 < r < d` and "Ready" when
`r > 0` and `r ≥ d`. And whatever the server answers, every status write the pass sends
carries that count and that phase. -/
theorem Reconcile_status_phase (validQuantity : String → Bool) (req : Request)
    (w : World Database) (db : Database) (sts : StatefulSet) (d : Int)
    (hcr : w.crs (req.Namespace, req.Name) = some db)
    (hns : db.ObjectMeta.Namespace = req.Namespace) (hname : db.ObjectMeta.Name = req.Name)
    (hsts : w.statefulSets (req.Namespace, childName db) = some sts)
    (hd : sts.Spec.Replicas = some d) :
    ((Reconcile validQuantity req w).1 = .ok { RequeueAfter := 10 } →
      ∃ db', (Reconcile validQuantity req w).2.crs (req.Namespace, req.Name) = some db' ∧
        db'.Status.ReadyReplicas = sts.Status.ReadyReplicas ∧
        (sts.Status.ReadyReplicas = 0 → db'.Status.Phase = "Pending") ∧
        (0 < sts.Status.ReadyReplicas ∧ sts.Status.ReadyReplicas < d →
          db'.Status.Phase = "Running") ∧
        (0 < sts.Status.ReadyReplicas ∧ d ≤ sts.Status.ReadyReplicas →
          db'.Status.Phase = "Ready")) ∧
    (∀ (obj : Database) (a : Option ApiError),
      (⟨.updateStatus obj, a⟩ : Event Database) ∈ (Reconcile validQuantity req w).2.trace →
      (⟨.updateStatus obj, a⟩ : Event Database) ∈ w.trace ∨
        (obj.Status.ReadyReplicas = sts.Status.ReadyReplicas ∧
          (sts.Status.ReadyReplicas = 0 → obj.Status.Phase = "Pending") ∧
          (0 < sts.Status.ReadyReplicas ∧ sts.Status.ReadyReplicas < d →
            obj.Status.Phase = "Running") ∧
          (0 < sts.Status.ReadyReplicas ∧ d ≤ sts.Status.ReadyReplicas →
            obj.Status.Phase = "Ready"))) := by
  have hphase : ∀ ph : String, ph = inferPhase sts.Status.ReadyReplicas d →
      (sts.Status.ReadyReplicas = 0 → ph = "Pending") ∧
      (0 < sts.Status.ReadyReplicas ∧ sts.Status.ReadyReplicas < d → ph = "Running") ∧
      (0 < sts.Status.ReadyReplicas ∧ d ≤ sts.Status.ReadyReplicas → ph = "Ready") := by
    intro ph hph
    subst hph
    refine ⟨?_, ?_, ?_⟩
    · intro h0
      simp [inferPhase, h0]
    · rintro ⟨hpos, hlt⟩
      simp [inferPhase, hpos.ne', hlt]
    · rintro ⟨hpos, hge⟩
      simp [inferPhase, hpos.ne', not_lt.2 hge]
  constructor
  · intro hok
    obtain ⟨sts', h1, h2, h3, -⟩ := Reconcile_ok10 validQuantity req w db hcr hns hname hok
    rw [hsts] at h1
    cases h1
    rw [hd] at h2
    cases h2
    exact ⟨_, by rw [h3]; exact Function.update_same _ _ _, rfl, hphase _ rfl⟩
  · intro obj a hmem
    obtain ⟨l, h1, h2⟩ := database_statusWrites_spec validQuantity req w db sts d hcr hsts hd
    have hin : (⟨.updateStatus obj, a⟩ : Event Database) ∈
        statusWrites (Reconcile validQuantity req w).2.trace := by
      unfold statusWrites
      exact List.mem_filter.2 ⟨hmem, rfl⟩
    rw [h1] at hin
    rcases List.mem_append.1 hin with h3 | h3
    · left
      unfold statusWrites at h3
      exact (List.mem_filter.1 h3).1
    · right
      obtain ⟨a', he⟩ := h2 _ h3
      simp only [Event.mk.injEq, Call.updateStatus.injEq] at he
      rw [he.1]
      exact ⟨rfl, hphase _ rfl⟩

/-- C5, at three desired replicas and 0, then 2, then 3 ready replicas over three passes in
a row: the stored phases are "Pending", "Running", "Ready" and the stored counts 0, 2, 3. -/
theorem Reconcile_status_phase_witness :
    (∃ db', (Reconcile Examples.validQuantity Examples.dbReq (Examples.dbWorld 0)).2.crs
        ("default", "db") = some db' ∧
      db'.Status.ReadyReplicas = 0 ∧ db'.Status.Phase = "Pending") ∧
    (∃ db', (Reconcile Examples.validQuantity Examples.dbReq Examples.dbWorldSecond).2.crs
        ("default", "db") = some db' ∧
      db'.Status.ReadyReplicas = 2 ∧ db'.Status.Phase = "Running") ∧
    (∃ db', (Reconcile Examples.validQuantity Examples.dbReq Examples.dbWorldThird).2.crs
        ("default", "db") = some db' ∧
      db'.Status.ReadyReplicas = 3 ∧ db'.Status.Phase = "Ready") := by
  refine ⟨?_, ?_, ?_⟩
  · obtain ⟨db', h1, h2, h3, -, -⟩ :=
      (Reconcile_status_phase Examples.validQuantity Examples.dbReq (Examples.dbWorld 0)
        Examples.database (Examples.dbStatefulSet 0) 3 rfl rfl rfl rfl rfl).1 (by decide)
    exact ⟨db', h1, h2, h3 rfl⟩
  · obtain ⟨db', h1, h2, -, h3, -⟩ :=
      (Reconcile_status_phase Examples.validQuantity Examples.dbReq Examples.dbWorldSecond
        { Examples.database with Status := { Phase := "Pending", ReadyReplicas := 0 } }
        (Examples.dbStatefulSet 2) 3 (by decide) rfl rfl rfl rfl).1 (by decide)
    exact ⟨db', h1, h2, h3 (by decide)⟩
  · obtain ⟨db', h1, h2, -, -, h3⟩ :=
      (Reconcile_status_phase Examples.validQuantity Examples.dbReq Examples.dbWorldThird
        { Examples.database with Status := { Phase := "Running", ReadyReplicas := 2 } }
        (Examples.dbStatefulSet 3) 3 (by decide) rfl rfl rfl rfl).1 (by decide)
    exact ⟨db', h1, h2, h3 (by decide)⟩

end Stateful

/-! ### The builders -/

namespace Stateful

/-- The builder returns a stateful set exactly when the resolved storage parses. -/
theorem makeStatefulSet_isSome (validQuantity : String → Bool) (db : Database) (name : String) :
    (makeStatefulSet validQuantity db name).isSome =
      validQuantity (if db.Spec.Storage = "" then "1Gi" else db.Spec.Storage) := by
  unfold makeStatefulSet MustParse
  dsimp only
  cases h : validQuantity (if db.Spec.Storage = "" then "1Gi" else db.Spec.Storage) <;> simp [h]

/-- The stateful set the builder returns when the resolved storage parses, field by field. -/
theorem makeStatefulSet_eq (validQuantity : String → Bool) (db : Database) (name : String)
    (hv : validQuantity (if db.Spec.Storage = "" then "1Gi" else db.Spec.Storage) = true) :
    makeStatefulSet validQuantity db name =
      some
        { ObjectMeta := { Name := name }
          Spec :=
            { Replicas := some (int32 db.Spec.Replicas)
              Selector := some [("app", name)]
              ServiceName := name
              Template :=
                { Labels := [("app", name)]
                  Containers :=
                    [{ Name := "postgres"
                       Image := if db.Spec.Image = "" then "postgres:15-alpine" else db.Spec.Image
                       ImagePullPolicy :=
                         if db.Spec.ImagePullPolicy ≠ "" then db.Spec.ImagePullPolicy
                         else PullIfNotPresent
                       Ports := [5432]
                       Env := [("POSTGRES_PASSWORD", db.Spec.Password)]
                       VolumeMounts := [("data", "/var/lib/postgresql/data")]
                       ReadinessProbe :=
                         some { TCPSocketPort := intstrFromInt 5432
                                InitialDelaySeconds := 5
                                PeriodSeconds := 5 } }] }
              VolumeClaimTemplates :=
                [{ ObjectMeta := { Name := "data" }
                   AccessModes := [ReadWriteOnce]
                   Requests :=
                     [(ResourceStorage,
                       ⟨if db.Spec.Storage = "" then "1Gi" else db.Spec.Storage⟩)] }] } } := by
  unfold makeStatefulSet MustParse
  dsimp only
  rw [if_pos hv]

/-- C15: for every Database spec whose resolved storage size parses as a quantity,
`makeStatefulSet` returns a stateful set whose container image is the image of the spec when
that is non-empty and "postgres:15-alpine" when it is empty, and which has exactly one
volume claim template, with the single access mode ReadWriteOnce and a storage request that
is exactly the resolved storage size: the storage of the spec when non-empty, "1Gi" when
empty. -/
theorem makeStatefulSet_storage_and_image (validQuantity : String → Bool) (db : Database)
    (name : String)
    (hv : validQuantity (if db.Spec.Storage = "" then "1Gi" else db.Spec.Storage) = true) :
    ∃ sts c pvc q, makeStatefulSet validQuantity db name = some sts ∧
      sts.Spec.Template.Containers = [c] ∧
      (db.Spec.Image ≠ "" → c.Image = db.Spec.Image) ∧
      (db.Spec.Image = "" → c.Image = "postgres:15-alpine") ∧
      sts.Spec.VolumeClaimTemplates = [pvc] ∧
      pvc.AccessModes = [ReadWriteOnce] ∧
      pvc.Requests = [(ResourceStorage, q)] ∧
      (db.Spec.Storage ≠ "" → q.text = db.Spec.Storage) ∧
      (db.Spec.Storage = "" → q.text = "1Gi") := by
  refine ⟨_, _, _, _, makeStatefulSet_eq validQuantity db name hv, rfl, ?_, ?_, rfl, rfl, rfl,
    ?_, ?_⟩
  · intro h; simp [h]
  · intro h; simp [h]
  · intro h; simp [h]
  · intro h; simp [h]

/-- C15, at a Database that leaves storage and image empty (the defaults "1Gi" and
"postgres:15-alpine" are taken) and at one that sets both. -/
theorem makeStatefulSet_storage_and_image_witness :
    (∃ sts c pvc q,
      makeStatefulSet Examples.validQuantity Examples.databaseBare "db" = some sts ∧
      sts.Spec.Template.Containers = [c] ∧ c.Image = "postgres:15-alpine" ∧
      sts.Spec.VolumeClaimTemplates = [pvc] ∧ pvc.AccessModes = [ReadWriteOnce] ∧
      pvc.Requests = [(ResourceStorage, q)] ∧ q.text = "1Gi") ∧
    (∃ sts c pvc q,
      makeStatefulSet Examples.validQuantity Examples.database "db" = some sts ∧
      sts.Spec.Template.Containers = [c] ∧ c.Image = "postgres:16" ∧
      sts.Spec.VolumeClaimTemplates = [pvc] ∧ pvc.AccessModes = [ReadWriteOnce] ∧
      pvc.Requests = [(ResourceStorage, q)] ∧ q.text = "1Gi") := by
  constructor
  · obtain ⟨sts, c, pvc, q, h1, h2, -, h4, h5, h6, h7, -, h9⟩ :=
      makeStatefulSet_storage_and_image Examples.validQuantity Examples.databaseBare "db"
        (by decide)
    exact ⟨sts, c, pvc, q, h1, h2, h4 rfl, h5, h6, h7, h9 rfl⟩
  · obtain ⟨sts, c, pvc, q, h1, h2, h3, -, h5, h6, h7, h8, -⟩ :=
      makeStatefulSet_storage_and_image Examples.validQuantity Examples.database "db"
        (by decide)
    exact ⟨sts, c, pvc, q, h1, h2, h3 (by decide), h5, h6, h7, h8 (by decide)⟩

end Stateful

/-- C16: in the workload controller each builder returns, the image pull policy of the
container is the pull policy of the spec when that is non-empty and IfNotPresent when it is
empty; so for the deployment of a TaskJob, the deployment of an HPCJob, and the stateful
set of a Database (which is built whenever the resolved storage parses). -/
theorem pull_policy_default :
    (∀ taskJob : Stateless.TaskJob,
      ∃ c, (Stateless.getDeploymentObject taskJob).Spec.Template.Containers = [c] ∧
        (taskJob.Spec.ImagePullPolicy ≠ "" → c.ImagePullPolicy = taskJob.Spec.ImagePullPolicy) ∧
        (taskJob.Spec.ImagePullPolicy = "" → c.ImagePullPolicy = PullIfNotPresent)) ∧
    (∀ hpcJob : HPC.HPCJob,
      ∃ c, (HPC.getDeploymentObject hpcJob).Spec.Template.Containers = [c] ∧
        (hpcJob.Spec.ImagePullPolicy ≠ "" → c.ImagePullPolicy = hpcJob.Spec.ImagePullPolicy) ∧
        (hpcJob.Spec.ImagePullPolicy = "" → c.ImagePullPolicy = PullIfNotPresent)) ∧
    (∀ (validQuantity : String → Bool) (db : Stateful.Database) (name : String),
      validQuantity (if db.Spec.Storage = "" then "1Gi" else db.Spec.Storage) = true →
      ∃ sts c, Stateful.makeStatefulSet validQuantity db name = some sts ∧
        sts.Spec.Template.Containers = [c] ∧
        (db.Spec.ImagePullPolicy ≠ "" → c.ImagePullPolicy = db.Spec.ImagePullPolicy) ∧
        (db.Spec.ImagePullPolicy = "" → c.ImagePullPolicy = PullIfNotPresent)) := by
  refine ⟨?_, ?_, ?_⟩
  · intro taskJob
    refine ⟨_, rfl, ?_, ?_⟩
    · intro h; simp [h]
    · intro h; simp [h]
  · intro hpcJob
    refine ⟨_, rfl, ?_, ?_⟩
    · intro h; simp [h]
    · intro h; simp [h]
  · intro validQuantity db name hv
    refine ⟨_, _, Stateful.makeStatefulSet_eq validQuantity db name hv, rfl, ?_, ?_⟩
    · intro h; simp [h]
    · intro h; simp [h]

/-- C16, at a Database spec with an empty pull policy: the stateful set asks for
IfNotPresent. -/
theorem pull_policy_default_witness :
    ∃ sts c, Stateful.makeStatefulSet Examples.validQuantity Examples.database "db" = some sts ∧
      sts.Spec.Template.Containers = [c] ∧ c.ImagePullPolicy = "IfNotPresent" := by
  obtain ⟨sts, c, h1, h2, -, h4⟩ :=
    pull_policy_default.2.2 Examples.validQuantity Examples.database "db" (by decide)
  exact ⟨sts, c, h1, h2, h4 rfl⟩

/-- C17: `makeHeadlessService` returns a service with cluster IP "None", the single port
5432 and the selector `app=name`, which is the label set `makeStatefulSet` puts on the pods
for the same name; `getServiceObject` of a TaskJob and of an HPCJob returns a service with
the single port 8080 targeting 8080, a cluster IP that is not "None", and a selector equal
to the pod template labels of the deployment built from the same resource. -/
theorem service_builders :
    (∀ name : String,
      (Stateful.makeHeadlessService name).Spec.ClusterIP = "None" ∧
        (Stateful.makeHeadlessService name).Spec.Ports =
          [{ Port := 5432, TargetPort := IntOrString.ofInt 5432 }] ∧
        (Stateful.makeHeadlessService name).Spec.Selector = [("app", name)]) ∧
    (∀ (validQuantity : String → Bool) (db : Stateful.Database) (name : String),
      validQuantity (if db.Spec.Storage = "" then "1Gi" else db.Spec.Storage) = true →
      ∃ sts, Stateful.makeStatefulSet validQuantity db name = some sts ∧
        sts.Spec.Template.Labels = (Stateful.makeHeadlessService name).Spec.Selector) ∧
    (∀ taskJob : Stateless.TaskJob,
      (Stateless.getServiceObject taskJob).Spec.Ports =
          [{ Port := 8080, TargetPort := IntOrString.ofInt 8080 }] ∧
        (Stateless.getServiceObject taskJob).Spec.ClusterIP ≠ "None" ∧
        (Stateless.getServiceObject taskJob).Spec.Selector =
          (Stateless.getDeploymentObject taskJob).Spec.Template.Labels) ∧
    (∀ hpcJob : HPC.HPCJob,
      (HPC.getServiceObject hpcJob).Spec.Ports =
          [{ Port := 8080, TargetPort := IntOrString.ofInt 8080 }] ∧
        (HPC.getServiceObject hpcJob).Spec.ClusterIP ≠ "None" ∧
        (HPC.getServiceObject hpcJob).Spec.Selector =
          (HPC.getDeploymentObject hpcJob).Spec.Template.Labels) := by
  refine ⟨?_, ?_, ?_, ?_⟩
  · intro name
    exact ⟨rfl, rfl, rfl⟩
  · intro validQuantity db name hv
    exact ⟨_, Stateful.makeStatefulSet_eq validQuantity db name hv, rfl⟩
  · intro taskJob
    refine ⟨rfl, ?_, rfl⟩
    show ("" : String) ≠ "None"
    decide
  · intro hpcJob
    refine ⟨rfl, ?_, rfl⟩
    show ("" : String) ≠ "None"
    decide

/-- C17, at the example Database: the pods of its stateful set carry the label the
headless service selects. -/
theorem service_builders_witness :
    ∃ sts, Stateful.makeStatefulSet Examples.validQuantity Examples.database "db" = some sts ∧
      sts.Spec.Template.Labels = [("app", "db")] :=
  service_builders.2.1 Examples.validQuantity Examples.database "db" (by decide)

/-! ### Deep copies -/

/-- C20 (what the code does): `DeepCopyObject` copies the type metadata and the object
metadata of every kind and the spec of a TaskJob and of a Database, but the copy of an
HPCJob has an empty `ImagePullPolicy`, and the copy of every kind has the zero status: the
state or phase, the completion time and the ready-replica count are not copied. At the
three example objects the copy differs from the original. -/
theorem DeepCopyObject_loses_fields :
    (∀ x : HPC.HPCJob,
      (HPC.DeepCopyObject x).TypeMeta = x.TypeMeta ∧
        (HPC.DeepCopyObject x).ObjectMeta = x.ObjectMeta ∧
        (HPC.DeepCopyObject x).Spec = { x.Spec with ImagePullPolicy := "" } ∧
        (HPC.DeepCopyObject x).Status = {}) ∧
    (∀ x : Stateless.TaskJob,
      (Stateless.DeepCopyObject x).TypeMeta = x.TypeMeta ∧
        (Stateless.DeepCopyObject x).ObjectMeta = x.ObjectMeta ∧
        (Stateless.DeepCopyObject x).Spec = x.Spec ∧
        (Stateless.DeepCopyObject x).Status = {}) ∧
    (∀ x : Stateful.Database,
      (Stateful.DeepCopyObject x).TypeMeta = x.TypeMeta ∧
        (Stateful.DeepCopyObject x).ObjectMeta = x.ObjectMeta ∧
        (Stateful.DeepCopyObject x).Spec = x.Spec ∧
        (Stateful.DeepCopyObject x).Status = {}) ∧
    (HPC.DeepCopyObject Examples.hpcJobAlways ≠ Examples.hpcJobAlways ∧
      (HPC.DeepCopyObject Examples.hpcJobAlways).Spec.ImagePullPolicy = "" ∧
      (HPC.DeepCopyObject Examples.hpcJobAlways).Status.State = "" ∧
      (HPC.DeepCopyObject Examples.hpcJobAlways).Status.CompletionTime = none) ∧
    (Stateless.DeepCopyObject Examples.taskJobDone ≠ Examples.taskJobDone ∧
      (Stateless.DeepCopyObject Examples.taskJobDone).Status.State = "" ∧
      (Stateless.DeepCopyObject Examples.taskJobDone).Status.CompletionTime = none) ∧
    (Stateful.DeepCopyObject Examples.databaseReady ≠ Examples.databaseReady ∧
      (Stateful.DeepCopyObject Examples.databaseReady).Status.Phase = "" ∧
      (Stateful.DeepCopyObject Examples.databaseReady).Status.ReadyReplicas = 0) := by
  refine ⟨?_, ?_, ?_, ?_, ?_, ?_⟩
  · intro x
    exact ⟨rfl, rfl, rfl, rfl⟩
  · intro x
    exact ⟨rfl, rfl, rfl, rfl⟩
  · intro x
    exact ⟨rfl, rfl, rfl, rfl⟩
  · refine ⟨?_, ?_, ?_, ?_⟩ <;> decide
  · refine ⟨?_, ?_, ?_⟩ <;> decide
  · refine ⟨?_, ?_, ?_⟩ <;> decide

/-! ### Names of the children, and the create path -/

/-- C11 (what the code does): the stateless builders name the children after the job name
of the spec, with no fallback, while `Reconcile` fetches and deletes under the name of the
request. For a TaskJob `job` whose spec names the job `worker`, the first pass looks for the
deployment `job`, does not find it and creates the children `worker`; the second pass looks
for `job` again and fails on the create of `worker`, which exists; once the TaskJob is gone
the pass tries to delete `job` and the children `worker` stay. For an empty job name the
builders give the empty name, not the name of the custom resource. -/
theorem Stateless.child_names_disagree :
    (∀ taskJob : Stateless.TaskJob,
      (Stateless.getDeploymentObject taskJob).ObjectMeta.Name = taskJob.Spec.JobName ∧
        (Stateless.getServiceObject taskJob).ObjectMeta.Name = taskJob.Spec.JobName) ∧
    ((Stateless.Reconcile Examples.jobReq Examples.taskWorkerFresh).2.trace =
        [⟨.getCR "default" "job", none⟩,
         ⟨.getDeployment "default" "job", some .notFound⟩,
         ⟨.createDeployment "default" (Stateless.getDeploymentObject Examples.taskJobWorker),
           none⟩,
         ⟨.createService "default" (Stateless.getServiceObject Examples.taskJobWorker), none⟩] ∧
      (Stateless.getDeploymentObject Examples.taskJobWorker).ObjectMeta.Name = "worker" ∧
      (Stateless.getServiceObject Examples.taskJobWorker).ObjectMeta.Name = "worker") ∧
    ((Stateless.Reconcile Examples.jobReq
        ((Stateless.Reconcile Examples.jobReq Examples.taskWorkerFresh).2.nextPass [])).2.trace =
        [⟨.getCR "default" "job", none⟩,
         ⟨.getDeployment "default" "job", some .notFound⟩,
         ⟨.createDeployment "default" (Stateless.getDeploymentObject Examples.taskJobWorker),
           some .alreadyExists⟩] ∧
      (Stateless.Reconcile Examples.jobReq
        ((Stateless.Reconcile Examples.jobReq Examples.taskWorkerFresh).2.nextPass [])).1 =
        .error ⟨["couldn't create deployment"], .alreadyExists⟩) ∧
    ((Stateless.Reconcile Examples.jobReq Examples.taskWorkerOrphans).2.trace =
        [⟨.getCR "default" "job", some .notFound⟩,
         ⟨.deleteDeployment "default" "job", some .notFound⟩] ∧
      (Stateless.Reconcile Examples.jobReq Examples.taskWorkerOrphans).2.deployments
        ("default", "worker") = some (Stateless.getDeploymentObject Examples.taskJobWorker) ∧
      (Stateless.Reconcile Examples.jobReq Examples.taskWorkerOrphans).2.services
        ("default", "worker") = some (Stateless.getServiceObject Examples.taskJobWorker)) ∧
    (Examples.taskJobUnnamed.ObjectMeta.Name = "job" ∧
      (Stateless.getDeploymentObject Examples.taskJobUnnamed).ObjectMeta.Name = "" ∧
      (Stateless.getServiceObject Examples.taskJobUnnamed).ObjectMeta.Name = "") := by
  refine ⟨fun _ => ⟨rfl, rfl⟩, ⟨?_, ?_, ?_⟩, ⟨?_, ?_⟩, ⟨?_, ?_, ?_⟩, ⟨?_, ?_, ?_⟩⟩ <;> decide

/-- C12 (what the code does): the service is created only in the pass that does not find
the deployment. When a first pass creates the deployment and its create of the service
fails, the pass returns the error; the next pass finds the deployment, goes on to the status
step, sends no create, and the service stays absent; so for the stateless and the HPC
kind. -/
theorem service_not_created_when_deployment_exists :
    ((Stateless.Reconcile Examples.jobReq Examples.taskCreateFails).1 =
        .error ⟨["couldn't create service"], .unavailable⟩ ∧
      (Stateless.Reconcile Examples.jobReq Examples.taskCreateFails).2.deployments
        ("default", "job") = some (Stateless.getDeploymentObject Examples.taskJobFive) ∧
      (Stateless.Reconcile Examples.jobReq Examples.taskCreateFails).2.services
        ("default", "job") = none ∧
      (Stateless.Reconcile Examples.jobReq
        ((Stateless.Reconcile Examples.jobReq Examples.taskCreateFails).2.nextPass [])).2.trace =
        [⟨.getCR "default" "job", none⟩,
         ⟨.getDeployment "default" "job", none⟩,
         ⟨.listPods "default" "app=job", none⟩,
         ⟨.updateStatus { Examples.taskJobFive with Status := { State := "Pending" } }, none⟩] ∧
      (Stateless.Reconcile Examples.jobReq
        ((Stateless.Reconcile Examples.jobReq Examples.taskCreateFails).2.nextPass [])).1 =
        .ok { RequeueAfter := 10 } ∧
      (Stateless.Reconcile Examples.jobReq
        ((Stateless.Reconcile Examples.jobReq Examples.taskCreateFails).2.nextPass [])).2.services
        ("default", "job") = none) ∧
    ((HPC.Reconcile Examples.jobReq Examples.hpcCreateFails).1 =
        .error ⟨["couldn't create service"], .unavailable⟩ ∧
      (HPC.Reconcile Examples.jobReq Examples.hpcCreateFails).2.deployments
        ("default", "job") = some (HPC.getDeploymentObject Examples.hpcJobFive) ∧
      (HPC.Reconcile Examples.jobReq Examples.hpcCreateFails).2.services
        ("default", "job") = none ∧
      childWrites (HPC.Reconcile Examples.jobReq
        ((HPC.Reconcile Examples.jobReq Examples.hpcCreateFails).2.nextPass [])).2.trace = [] ∧
      (HPC.Reconcile Examples.jobReq
        ((HPC.Reconcile Examples.jobReq Examples.hpcCreateFails).2.nextPass [])).1 = .ok {} ∧
      (HPC.Reconcile Examples.jobReq
        ((HPC.Reconcile Examples.jobReq Examples.hpcCreateFails).2.nextPass [])).2.services
        ("default", "job") = none) := by
  refine ⟨⟨?_, ?_, ?_, ?_, ?_, ?_⟩, ⟨?_, ?_, ?_, ?_, ?_, ?_⟩⟩ <;> decide

/-! ### Replica counts -/

namespace Stateless

/-- A scale pass that is not disturbed stores the fetched deployment with the replica count
of the spec, converted to 32 bits, and leaves the custom resources as they were. -/
theorem taskJob_scale_pass (req : Request) (w : World TaskJob) (cr : TaskJob) (d : Deployment)
    (live : Int) (hq : w.quiet 3 = true) (hcr : w.crs (req.Namespace, req.Name) = some cr)
    (hd : w.deployments (req.Namespace, req.Name) = some d)
    (hdn : d.ObjectMeta.Name = req.Name) (hl : d.Spec.Replicas = some live)
    (hne : live ≠ cr.Spec.Replicas) :
    (Reconcile req w).1 = .ok {} ∧
      (Reconcile req w).2.crs = w.crs ∧
      (Reconcile req w).2.deployments =
        Function.update w.deployments (req.Namespace, req.Name)
          (some { d with Spec := { d.Spec with Replicas := some (int32 cr.Spec.Replicas) } }) := by
  have hq2 : w.quiet 2 = true := World.quiet_mono w 2 3 (by omega) hq
  rw [taskJob_Reconcile_of_fetched req w cr d live hq2 hcr hd hl, if_pos hne]
  have hq1 := World.record_quiet w 2 (.getCR req.Namespace req.Name) none hq
  have hq0 := World.record_quiet _ 1 (.getDeployment req.Namespace req.Name) none hq1
  have hf := World.fault_of_quiet _ 0 hq0
  unfold scaleDeployment
  dsimp only
  simp only [taskJob_copy_Spec]
  rcases World.updateDeployment_cases req.Namespace
      { d with Spec := { d.Spec with Replicas := some (int32 cr.Spec.Replicas) } }
      ((w.record (.getCR req.Namespace req.Name) none).record
        (.getDeployment req.Namespace req.Name) none) with
    ⟨e, hf2, _⟩ | ⟨old, _, _, h⟩ | ⟨_, hc, _⟩
  · rw [hf] at hf2; cases hf2
  · rw [h]
    refine ⟨rfl, rfl, ?_⟩
    dsimp only
    rw [World.setDeployment_deployments, hdn]
    rfl
  · dsimp only at hc
    rw [World.record_deployments, World.record_deployments, hdn, hd] at hc
    cases hc

end Stateless

namespace HPC

/-- A scale pass that is not disturbed stores the fetched deployment with the replica count
of the spec, converted to 32 bits, and leaves the custom resources as they were. -/
theorem hpcJob_scale_pass (req : Request) (w : World HPCJob) (cr : HPCJob) (d : Deployment)
    (live : Int) (hq : w.quiet 3 = true) (hcr : w.crs (req.Namespace, req.Name) = some cr)
    (hd : w.deployments (req.Namespace, req.Name) = some d)
    (hdn : d.ObjectMeta.Name = req.Name) (hl : d.Spec.Replicas = some live)
    (hne : live ≠ cr.Spec.Replicas) :
    (Reconcile req w).1 = .ok {} ∧
      (Reconcile req w).2.crs = w.crs ∧
      (Reconcile req w).2.deployments =
        Function.update w.deployments (req.Namespace, req.Name)
          (some { d with Spec := { d.Spec with Replicas := some (int32 cr.Spec.Replicas) } }) := by
  have hq2 : w.quiet 2 = true := World.quiet_mono w 2 3 (by omega) hq
  rw [hpcJob_Reconcile_of_fetched req w cr d live hq2 hcr hd hl, if_pos hne]
  have hq1 := World.record_quiet w 2 (.getCR req.Namespace req.Name) none hq
  have hq0 := World.record_quiet _ 1 (.getDeployment req.Namespace req.Name) none hq1
  have hf := World.fault_of_quiet _ 0 hq0
  unfold scaleDeployment
  dsimp only
  simp only [hpcJob_copy_Replicas]
  rcases World.updateDeployment_cases req.Namespace
      { d with Spec := { d.Spec with Replicas := some (int32 cr.Spec.Replicas) } }
      ((w.record (.getCR req.Namespace req.Name) none).record
        (.getDeployment req.Namespace req.Name) none) with
    ⟨e, hf2, _⟩ | ⟨old, _, _, h⟩ | ⟨_, hc, _⟩
  · rw [hf] at hf2; cases hf2
  · rw [h]
    refine ⟨rfl, rfl, ?_⟩
    dsimp only
    rw [World.setDeployment_deployments, hdn]
    rfl
  · dsimp only at hc
    rw [World.record_deployments, World.record_deployments, hdn, hd] at hc
    cases hc

end HPC

namespace Stateless

/-- The status step of the stateless kind sends no child write. -/
theorem taskJob_updateJobStatus_childWrites (cr : TaskJob) (w : World TaskJob) :
    childWrites (updateJobStatus cr w).2.2.trace = childWrites w.trace := by
  unfold updateJobStatus
  rcases World.listPods_cases cr.ObjectMeta.Namespace ("app=" ++ cr.Spec.JobName) w with
    ⟨e, _, h⟩ | ⟨_, h⟩
  · rw [h]; simp [childWrites, Call.isChildWrite, Call.isWrite, Call.isStatusWrite]
  · rw [h]; dsimp only
    by_cases hch : cr.Status.State ≠
        inferState (w.pods (cr.ObjectMeta.Namespace, "app=" ++ cr.Spec.JobName))
    · rw [if_pos hch, taskJob_stamped]
      rcases World.updateStatus_cases
          ({ cr with
            Status :=
              { State := inferState (w.pods (cr.ObjectMeta.Namespace, "app=" ++ cr.Spec.JobName)),
                CompletionTime :=
                  if inferState (w.pods (cr.ObjectMeta.Namespace, "app=" ++ cr.Spec.JobName)) =
                      "Completed" then
                    some (w.record (.listPods cr.ObjectMeta.Namespace
                      ("app=" ++ cr.Spec.JobName)) none).now
                  else cr.Status.CompletionTime } } : TaskJob)
          (w.record (.listPods cr.ObjectMeta.Namespace ("app=" ++ cr.Spec.JobName)) none) with
        ⟨e, _, h2⟩ | ⟨stored, _, _, h2⟩ | ⟨_, _, h2⟩
      · rw [h2]; simp [childWrites, Call.isChildWrite, Call.isWrite, Call.isStatusWrite]
      · rw [h2]; simp [childWrites, Call.isChildWrite, Call.isWrite, Call.isStatusWrite]
      · rw [h2]; simp [childWrites, Call.isChildWrite, Call.isWrite, Call.isStatusWrite]
    · rw [if_neg hch]
      simp [childWrites, Call.isChildWrite, Call.isWrite, Call.isStatusWrite]

/-- After a scale pass that was not disturbed, with a spec count within 32 bits, the next
stateless pass on the same cluster with no fault sends no child write. -/
theorem taskJob_no_second_scale (req : Request) (w : World TaskJob) (cr : TaskJob)
    (d : Deployment) (live : Int) (hq : w.quiet 3 = true)
    (hcr : w.crs (req.Namespace, req.Name) = some cr)
    (hd : w.deployments (req.Namespace, req.Name) = some d)
    (hdn : d.ObjectMeta.Name = req.Name) (hl : d.Spec.Replicas = some live)
    (hne : live ≠ cr.Spec.Replicas)
    (h1 : -2147483648 ≤ cr.Spec.Replicas) (h2 : cr.Spec.Replicas < 2147483648) :
    childWrites (Reconcile req ((Reconcile req w).2.nextPass [])).2.trace = [] := by
  obtain ⟨-, h4, h5⟩ := taskJob_scale_pass req w cr d live hq hcr hd hdn hl hne
  have hq' : ((Reconcile req w).2.nextPass []).quiet 2 = true := by simp [World.quiet]
  have hcr2 : ((Reconcile req w).2.nextPass []).crs (req.Namespace, req.Name) = some cr := by
    rw [World.nextPass_crs, h4, hcr]
  have hd2 : ((Reconcile req w).2.nextPass []).deployments (req.Namespace, req.Name) =
      some { d with Spec := { d.Spec with Replicas := some (int32 cr.Spec.Replicas) } } := by
    rw [World.nextPass_deployments, h5, Function.update_same]
  rw [taskJob_Reconcile_of_fetched req _ cr _ (int32 cr.Spec.Replicas) hq' hcr2 hd2 rfl]
  rw [if_neg (not_not.2 (int32_of_range _ h1 h2))]
  have hcw := taskJob_updateJobStatus_childWrites (DeepCopyObject cr)
    ((((Reconcile req w).2.nextPass []).record (.getCR req.Namespace req.Name) none).record
      (.getDeployment req.Namespace req.Name) none)
  rcases hu : updateJobStatus (DeepCopyObject cr)
    ((((Reconcile req w).2.nextPass []).record (.getCR req.Namespace req.Name) none).record
      (.getDeployment req.Namespace req.Name) none) with ⟨a, cr2, w'⟩
  rw [hu] at hcw
  dsimp only at hcw
  cases a <;>
    simpa [childWrites, Call.isChildWrite, Call.isWrite, Call.isStatusWrite] using hcw

end Stateless

namespace HPC

/-- The status update of the HPC kind sends no child write. -/
theorem hpcJob_updateJobStatus_childWrites (cr : HPCJob) (w : World HPCJob) :
    childWrites (updateJobStatus cr w).2.2.trace = childWrites w.trace := by
  unfold updateJobStatus
  obtain ⟨obj, hobj⟩ : ∃ obj : HPCJob, obj =
      (if cr.Status.State = "" then
        { cr with Status := { cr.Status with State := "Pending" } } else cr) := ⟨_, rfl⟩
  rw [← hobj]
  dsimp only
  rcases World.updateStatus_cases obj w with ⟨e, _, h⟩ | ⟨stored, _, _, h⟩ | ⟨_, _, h⟩
  · rw [h]; simp [childWrites, Call.isChildWrite, Call.isWrite, Call.isStatusWrite]
  · rw [h]; simp [childWrites, Call.isChildWrite, Call.isWrite, Call.isStatusWrite]
  · rw [h]; simp [childWrites, Call.isChildWrite, Call.isWrite, Call.isStatusWrite]

/-- The simulated completion of the HPC kind sends no child write. -/
theorem simulateCompletion_childWrites (cr : HPCJob) (w : World HPCJob) :
    childWrites (simulateCompletion cr w).2.trace = childWrites w.trace := by
  unfold simulateCompletion
  by_cases hs : cr.Status.State ≠ "Completed"
  · rw [if_pos hs]
    dsimp only
    rcases World.updateStatus_cases
        ({ cr with Status := { State := "Completed", CompletionTime := some zeroTime } } : HPCJob)
        (w.sleep 5) with ⟨e, _, h⟩ | ⟨stored, _, _, h⟩ | ⟨_, _, h⟩
    · rw [h]; simp [childWrites, Call.isChildWrite, Call.isWrite, Call.isStatusWrite]
    · rw [h]; simp [childWrites, Call.isChildWrite, Call.isWrite, Call.isStatusWrite]
    · rw [h]; simp [childWrites, Call.isChildWrite, Call.isWrite, Call.isStatusWrite]
  · rw [if_neg hs]

/-- After a scale pass that was not disturbed, with a spec count within 32 bits, the next
HPC pass on the same cluster with no fault sends no child write. -/
theorem hpcJob_no_second_scale (req : Request) (w : World HPCJob) (cr : HPCJob)
    (d : Deployment) (live : Int) (hq : w.quiet 3 = true)
    (hcr : w.crs (req.Namespace, req.Name) = some cr)
    (hd : w.deployments (req.Namespace, req.Name) = some d)
    (hdn : d.ObjectMeta.Name = req.Name) (hl : d.Spec.Replicas = some live)
    (hne : live ≠ cr.Spec.Replicas)
    (h1 : -2147483648 ≤ cr.Spec.Replicas) (h2 : cr.Spec.Replicas < 2147483648) :
    childWrites (Reconcile req ((Reconcile req w).2.nextPass [])).2.trace = [] := by
  obtain ⟨-, h4, h5⟩ := hpcJob_scale_pass req w cr d live hq hcr hd hdn hl hne
  have hq' : ((Reconcile req w).2.nextPass []).quiet 2 = true := by simp [World.quiet]
  have hcr2 : ((Reconcile req w).2.nextPass []).crs (req.Namespace, req.Name) = some cr := by
    rw [World.nextPass_crs, h4, hcr]
  have hd2 : ((Reconcile req w).2.nextPass []).deployments (req.Namespace, req.Name) =
      some { d with Spec := { d.Spec with Replicas := some (int32 cr.Spec.Replicas) } } := by
    rw [World.nextPass_deployments, h5, Function.update_same]
  rw [hpcJob_Reconcile_of_fetched req _ cr _ (int32 cr.Spec.Replicas) hq' hcr2 hd2 rfl]
  rw [if_neg (not_not.2 (int32_of_range _ h1 h2))]
  have hcw := hpcJob_updateJobStatus_childWrites (DeepCopyObject cr)
    ((((Reconcile req w).2.nextPass []).record (.getCR req.Namespace req.Name) none).record
      (.getDeployment req.Namespace req.Name) none)
  rcases hu : updateJobStatus (DeepCopyObject cr)
    ((((Reconcile req w).2.nextPass []).record (.getCR req.Namespace req.Name) none).record
      (.getDeployment req.Namespace req.Name) none) with ⟨a, cr2, w'⟩
  rw [hu] at hcw
  dsimp only at hcw
  cases a with
  | some e =>
    simpa [childWrites, Call.isChildWrite, Call.isWrite, Call.isStatusWrite] using hcw
  | none =>
    dsimp only
    rw [simulateCompletion_childWrites]
    simpa [childWrites, Call.isChildWrite, Call.isWrite, Call.isStatusWrite] using hcw

end HPC

/-- C13, as stated, fails: a spec count beyond 32 bits is not copied as it is. For a TaskJob
asking for 4294967298 replicas the builder gives the deployment two replicas; and with a
deployment at two replicas the stateless pass sends an update that writes two again, and
the next pass, with nothing changed, sends the same update once more. -/
theorem replica_count_counterexample :
    Examples.taskJobHuge.Spec.Replicas = 4294967298 ∧
      (Stateless.getDeploymentObject Examples.taskJobHuge).Spec.Replicas = some 2 ∧
      childWrites (Stateless.Reconcile Examples.jobReq Examples.taskHuge).2.trace =
        [⟨.updateDeployment "default" (Examples.jobDeployment 2), none⟩] ∧
      childWrites (Stateless.Reconcile Examples.jobReq
        ((Stateless.Reconcile Examples.jobReq Examples.taskHuge).2.nextPass [])).2.trace =
        [⟨.updateDeployment "default" (Examples.jobDeployment 2), none⟩] := by
  refine ⟨?_, ?_, ?_, ?_⟩ <;> decide

/-- C13, amended: the replica count of the workload controller each builder returns is
present and is the count of the spec converted to 32 bits, which is the count of the spec
itself exactly when that lies within the 32-bit range, zero included; and for such a count,
after a stateless or HPC scale pass that was not disturbed, the next pass on the same
cluster with no fault sends no child write: no further update is issued. -/
theorem replica_count_copied :
    (∀ taskJob : Stateless.TaskJob,
      (Stateless.getDeploymentObject taskJob).Spec.Replicas =
        some (int32 taskJob.Spec.Replicas)) ∧
    (∀ hpcJob : HPC.HPCJob,
      (HPC.getDeploymentObject hpcJob).Spec.Replicas = some (int32 hpcJob.Spec.Replicas)) ∧
    (∀ (validQuantity : String → Bool) (db : Stateful.Database) (name : String),
      validQuantity (if db.Spec.Storage = "" then "1Gi" else db.Spec.Storage) = true →
      ∃ sts, Stateful.makeStatefulSet validQuantity db name = some sts ∧
        sts.Spec.Replicas = some (int32 db.Spec.Replicas)) ∧
    (∀ n : Int, int32 n = n ↔ -2147483648 ≤ n ∧ n < 2147483648) ∧
    (∀ (req : Request) (w : World Stateless.TaskJob) (cr : Stateless.TaskJob) (d : Deployment)
      (live : Int), w.quiet 3 = true → w.crs (req.Namespace, req.Name) = some cr →
      w.deployments (req.Namespace, req.Name) = some d → d.ObjectMeta.Name = req.Name →
      d.Spec.Replicas = some live → live ≠ cr.Spec.Replicas →
      -2147483648 ≤ cr.Spec.Replicas → cr.Spec.Replicas < 2147483648 →
      (Stateless.Reconcile req w).2.deployments (req.Namespace, req.Name) =
          some { d with Spec := { d.Spec with Replicas := some cr.Spec.Replicas } } ∧
        childWrites (Stateless.Reconcile req
          ((Stateless.Reconcile req w).2.nextPass [])).2.trace = []) ∧
    (∀ (req : Request) (w : World HPC.HPCJob) (cr : HPC.HPCJob) (d : Deployment)
      (live : Int), w.quiet 3 = true → w.crs (req.Namespace, req.Name) = some cr →
      w.deployments (req.Namespace, req.Name) = some d → d.ObjectMeta.Name = req.Name →
      d.Spec.Replicas = some live → live ≠ cr.Spec.Replicas →
      -2147483648 ≤ cr.Spec.Replicas → cr.Spec.Replicas < 2147483648 →
      (HPC.Reconcile req w).2.deployments (req.Namespace, req.Name) =
          some { d with Spec := { d.Spec with Replicas := some cr.Spec.Replicas } } ∧
        childWrites (HPC.Reconcile req ((HPC.Reconcile req w).2.nextPass [])).2.trace = []) := by
  refine ⟨fun _ => rfl, fun _ => rfl, ?_, ?_, ?_, ?_⟩
  · intro validQuantity db name hv
    exact ⟨_, Stateful.makeStatefulSet_eq validQuantity db name hv, rfl⟩
  · intro n
    unfold int32
    omega
  · intro req w cr d live hq hcr hd hdn hl hne h1 h2
    obtain ⟨-, -, h5⟩ := Stateless.taskJob_scale_pass req w cr d live hq hcr hd hdn hl hne
    refine ⟨?_, Stateless.taskJob_no_second_scale req w cr d live hq hcr hd hdn hl hne h1 h2⟩
    rw [h5, Function.update_same, int32_of_range _ h1 h2]
  · intro req w cr d live hq hcr hd hdn hl hne h1 h2
    obtain ⟨-, -, h5⟩ := HPC.hpcJob_scale_pass req w cr d live hq hcr hd hdn hl hne
    refine ⟨?_, HPC.hpcJob_no_second_scale req w cr d live hq hcr hd hdn hl hne h1 h2⟩
    rw [h5, Function.update_same, int32_of_range _ h1 h2]

/-- C13, amended, at a spec asking for zero replicas (the deployment built has the count
zero, present), and at a deployment with two replicas under a spec asking for five: after
the scale pass the deployment has five replicas and the next pass sends no child write. -/
theorem replica_count_copied_witness :
    (Stateless.getDeploymentObject Examples.taskJobZero).Spec.Replicas = some 0 ∧
      (∃ sts, Stateful.makeStatefulSet Examples.validQuantity Examples.database "db" = some sts ∧
        sts.Spec.Replicas = some 3) ∧
      ((Stateless.Reconcile Examples.jobReq Examples.taskScale).2.deployments
          ("default", "job") =
          some { Examples.jobDeployment 2 with
            Spec := { (Examples.jobDeployment 2).Spec with Replicas := some 5 } } ∧
        childWrites (Stateless.Reconcile Examples.jobReq
          ((Stateless.Reconcile Examples.jobReq Examples.taskScale).2.nextPass [])).2.trace = []) ∧
      ((HPC.Reconcile Examples.jobReq Examples.hpcScale).2.deployments ("default", "job") =
          some { Examples.jobDeployment 2 with
            Spec := { (Examples.jobDeployment 2).Spec with Replicas := some 5 } } ∧
        childWrites (HPC.Reconcile Examples.jobReq
          ((HPC.Reconcile Examples.jobReq Examples.hpcScale).2.nextPass [])).2.trace = []) :=
  ⟨(replica_count_copied.1 Examples.taskJobZero).trans (by decide),
    (by
      obtain ⟨sts, h1, h2⟩ :=
        replica_count_copied.2.2.1 Examples.validQuantity Examples.database "db" (by decide)
      exact ⟨sts, h1, h2.trans (by decide)⟩),
    replica_count_copied.2.2.2.2.1 Examples.jobReq Examples.taskScale Examples.taskJobFive
      (Examples.jobDeployment 2) 2 rfl rfl rfl rfl rfl (by decide) (by decide) (by decide),
    replica_count_copied.2.2.2.2.2 Examples.jobReq Examples.hpcScale Examples.hpcJobFive
      (Examples.jobDeployment 2) 2 rfl rfl rfl rfl rfl (by decide) (by decide) (by decide)⟩

/-! ### Negative replica counts -/

/-- In a trace whose writes of a negative replica count were all refused, no event is an
accepted write of a negative count. -/
theorem refusesNegative_mem {CR : Type} (t : List (Event CR)) (h : refusesNegative t = true)
    (ev : Event CR) (hm : ev ∈ t) : ev.negativeAccepted = false := by
  unfold refusesNegative at h
  rw [List.all_eq_true] at h
  simpa using h ev hm

namespace Stateless

/-- A pass that fetches the custom resource `cr` and finds no deployment, no fault on either
fetch, is the create path, run on the copy of `cr`. -/
theorem taskJob_Reconcile_of_absent (req : Request) (w : World TaskJob) (cr : TaskJob)
    (hq : w.quiet 2 = true) (hcr : w.crs (req.Namespace, req.Name) = some cr)
    (hd : w.deployments (req.Namespace, req.Name) = none) :
    Reconcile req w =
      createChildren req (DeepCopyObject cr)
        ((w.record (.getCR req.Namespace req.Name) none).record
          (.getDeployment req.Namespace req.Name) (some .notFound)) := by
  rw [taskJob_Reconcile_eq]
  have hf := World.fault_of_quiet w 1 hq
  have hq1 := World.record_quiet w 1 (.getCR req.Namespace req.Name) none hq
  have hf1 := World.fault_of_quiet _ 0 hq1
  rw [World.getCR_of_stored _ _ w cr hf hcr]; dsimp only
  rw [World.getDeployment_of_absent _ _ _ hf1 (by simpa using hd)]; dsimp only
  rw [if_pos rfl]
  rfl

/-- The create path with a negative count, when the server refuses such a count: the create
of the deployment is sent, refused, and its error ends the pass. -/
theorem taskJob_createChildren_refused (req : Request) (cr : TaskJob) (w : World TaskJob)
    (hn : int32 cr.Spec.Replicas < 0)
    (hr : refusesNegative (createChildren req cr w).2.trace = true) :
    ∃ e, (createChildren req cr w).2.trace =
        w.trace ++ [⟨.createDeployment req.Namespace (getDeploymentObject cr), some e⟩] ∧
      (createChildren req cr w).1 = .error ⟨["couldn't create deployment"], e⟩ := by
  obtain ⟨a1, a2, ht, ho⟩ := taskJob_createChildren_spec req cr w
  cases a1 with
  | some e => exact ⟨e, by rw [ht]; simp, by rw [ho]⟩
  | none =>
    exfalso
    have hm : (⟨.createDeployment req.Namespace (getDeploymentObject cr), none⟩ :
        Event TaskJob) ∈ (createChildren req cr w).2.trace := by
      rw [ht]; simp
    have := refusesNegative_mem _ hr _ hm
    simp [Event.negativeAccepted, Call.replicas, getDeploymentObject, hn] at this

/-- The replica update with a negative count, when the server refuses such a count: the
update is sent, refused, and its error ends the pass. -/
theorem taskJob_scaleDeployment_refused (req : Request) (cr : TaskJob) (d : Deployment)
    (w : World TaskJob) (hn : int32 cr.Spec.Replicas < 0)
    (hr : refusesNegative (scaleDeployment req cr d w).2.trace = true) :
    ∃ e, (scaleDeployment req cr d w).2.trace =
        w.trace ++ [⟨.updateDeployment req.Namespace
          { d with Spec := { d.Spec with Replicas := some (int32 cr.Spec.Replicas) } },
          some e⟩] ∧
      (scaleDeployment req cr d w).1 = .error ⟨["couldn't update deployment"], e⟩ := by
  obtain ⟨a, ht, ho⟩ := taskJob_scaleDeployment_spec req cr d w
  cases a with
  | some e => exact ⟨e, ht, by rw [ho]⟩
  | none =>
    exfalso
    have hm : (⟨.updateDeployment req.Namespace
        { d with Spec := { d.Spec with Replicas := some (int32 cr.Spec.Replicas) } }, none⟩ :
        Event TaskJob) ∈ (scaleDeployment req cr d w).2.trace := by
      rw [ht]; simp
    have := refusesNegative_mem _ hr _ hm
    simp [Event.negativeAccepted, Call.replicas, hn] at this

/-- A stateless pass on a stored custom resource with a negative count, against a server
that holds no deployment with a negative or unset count and refuses a negative count: the
pass returns an error. -/
theorem taskJob_negative_error (req : Request) (w : World TaskJob) (cr : TaskJob)
    (hcr : w.crs (req.Namespace, req.Name) = some cr) (hnf : w.fault ≠ some .notFound)
    (hneg : cr.Spec.Replicas < 0) (hlo : -2147483648 ≤ cr.Spec.Replicas)
    (hst : ∀ d, w.deployments (req.Namespace, req.Name) = some d →
      ∃ live, d.Spec.Replicas = some live ∧ 0 ≤ live)
    (hr : refusesNegative (Reconcile req w).2.trace = true) :
    ∃ err, (Reconcile req w).1 = .error err := by
  have hn : int32 (DeepCopyObject cr).Spec.Replicas < 0 := by
    rw [taskJob_copy_Spec, int32_of_range _ hlo (by omega)]; exact hneg
  revert hr
  rw [taskJob_Reconcile_eq]
  rcases World.getCR_cases req.Namespace req.Name w with
    ⟨e, hf, h⟩ | ⟨obj, _, hc, h⟩ | ⟨_, hc, _⟩
  · rw [h]; dsimp only
    intro _
    rw [if_neg (by rintro rfl; exact hnf hf)]
    exact ⟨_, rfl⟩
  · rw [hcr] at hc; cases hc
    rw [h]; dsimp only
    rcases World.getDeployment_cases req.Namespace req.Name
        (w.record (.getCR req.Namespace req.Name) none) with
      ⟨e, _, h2⟩ | ⟨d, _, hd, h2⟩ | ⟨_, _, h2⟩
    · rw [h2]; dsimp only
      by_cases he : e = .notFound
      · rw [if_pos he]
        intro hr
        obtain ⟨e2, -, ho⟩ := taskJob_createChildren_refused req _ _ hn hr
        exact ⟨_, ho⟩
      · rw [if_neg he]
        intro _
        exact ⟨_, rfl⟩
    · rw [h2]; dsimp only
      rw [World.record_deployments] at hd
      obtain ⟨live, hl, hpos⟩ := hst d hd
      rw [hl]; dsimp only
      have hne : live ≠ (CustomResource.DeepCopyObject cr : TaskJob).Spec.Replicas := by
        show live ≠ cr.Spec.Replicas
        omega
      rw [if_pos hne]
      intro hr
      obtain ⟨e2, -, ho⟩ := taskJob_scaleDeployment_refused req _ d _ hn hr
      exact ⟨_, ho⟩
    · rw [h2]; dsimp only
      rw [if_pos rfl]
      intro hr
      obtain ⟨e2, -, ho⟩ := taskJob_createChildren_refused req _ _ hn hr
      exact ⟨_, ho⟩
  · rw [hcr] at hc; cases hc

/-- A stateless pass on a stored custom resource with a negative count whose two fetches
meet no fault, against a server that holds no deployment with a negative or unset count and
refuses a negative count: the last call of the pass is the create or the update of the
deployment carrying the negative count, and its refusal is the error of the pass. -/
theorem taskJob_negative_sent (req : Request) (w : World TaskJob) (cr : TaskJob)
    (hq : w.quiet 2 = true) (hcr : w.crs (req.Namespace, req.Name) = some cr)
    (hneg : cr.Spec.Replicas < 0) (hlo : -2147483648 ≤ cr.Spec.Replicas)
    (hst : ∀ d, w.deployments (req.Namespace, req.Name) = some d →
      ∃ live, d.Spec.Replicas = some live ∧ 0 ≤ live)
    (hr : refusesNegative (Reconcile req w).2.trace = true) :
    ∃ (pre : List (Event TaskJob)) (call : Call TaskJob) (e : ApiError) (ctx : List String),
      (Reconcile req w).2.trace = pre ++ [⟨call, some e⟩] ∧
      call.replicas = some cr.Spec.Replicas ∧ call.isChildWrite = true ∧
      (Reconcile req w).1 = .error ⟨ctx, e⟩ := by
  have h32 : int32 cr.Spec.Replicas = cr.Spec.Replicas := int32_of_range _ hlo (by omega)
  have hn : int32 (DeepCopyObject cr).Spec.Replicas < 0 := by
    rw [taskJob_copy_Spec, h32]; exact hneg
  revert hr
  cases hd : w.deployments (req.Namespace, req.Name) with
  | none =>
    rw [taskJob_Reconcile_of_absent req w cr hq hcr hd]
    intro hr
    obtain ⟨e, ht, ho⟩ := taskJob_createChildren_refused req _ _ hn hr
    refine ⟨_, _, e, _, ht, ?_, rfl, ho⟩
    show some (int32 cr.Spec.Replicas) = some cr.Spec.Replicas
    rw [h32]
  | some d =>
    obtain ⟨live, hl, hpos⟩ := hst d hd
    rw [taskJob_Reconcile_of_fetched req w cr d live hq hcr hd hl, if_pos (by omega)]
    intro hr
    obtain ⟨e, ht, ho⟩ := taskJob_scaleDeployment_refused req _ d _ hn hr
    refine ⟨_, _, e, _, ht, ?_, rfl, ho⟩
    show some (int32 cr.Spec.Replicas) = some cr.Spec.Replicas
    rw [h32]

end Stateless

namespace HPC

/-- A pass that fetches the custom resource `cr` and finds no deployment, no fault on either
fetch, is the create path, run on the copy of `cr`. -/
theorem hpcJob_Reconcile_of_absent (req : Request) (w : World HPCJob) (cr : HPCJob)
    (hq : w.quiet 2 = true) (hcr : w.crs (req.Namespace, req.Name) = some cr)
    (hd : w.deployments (req.Namespace, req.Name) = none) :
    Reconcile req w =
      createChildren req (DeepCopyObject cr)
        ((w.record (.getCR req.Namespace req.Name) none).record
          (.getDeployment req.Namespace req.Name) (some .notFound)) := by
  rw [hpcJob_Reconcile_eq]
  have hf := World.fault_of_quiet w 1 hq
  have hq1 := World.record_quiet w 1 (.getCR req.Namespace req.Name) none hq
  have hf1 := World.fault_of_quiet _ 0 hq1
  rw [World.getCR_of_stored _ _ w cr hf hcr]; dsimp only
  rw [World.getDeployment_of_absent _ _ _ hf1 (by simpa using hd)]; dsimp only
  rw [if_pos rfl]
  rfl

/-- The create path with a negative count, when the server refuses such a count: the create
of the deployment is sent, refused, and its error ends the pass. -/
theorem hpcJob_createChildren_refused (req : Request) (cr : HPCJob) (w : World HPCJob)
    (hn : int32 cr.Spec.Replicas < 0)
    (hr : refusesNegative (createChildren req cr w).2.trace = true) :
    ∃ e, (createChildren req cr w).2.trace =
        w.trace ++ [⟨.createDeployment req.Namespace (getDeploymentObject cr), some e⟩] ∧
      (createChildren req cr w).1 = .error ⟨["couldn't create deployment"], e⟩ := by
  obtain ⟨a1, a2, ht, ho⟩ := hpcJob_createChildren_spec req cr w
  cases a1 with
  | some e => exact ⟨e, by rw [ht]; simp, by rw [ho]⟩
  | none =>
    exfalso
    have hm : (⟨.createDeployment req.Namespace (getDeploymentObject cr), none⟩ :
        Event HPCJob) ∈ (createChildren req cr w).2.trace := by
      rw [ht]; simp
    have := refusesNegative_mem _ hr _ hm
    simp [Event.negativeAccepted, Call.replicas, getDeploymentObject, hn] at this

/-- The replica update with a negative count, when the server refuses such a count: the
update is sent, refused, and its error ends the pass. -/
theorem hpcJob_scaleDeployment_refused (req : Request) (cr : HPCJob) (d : Deployment)
    (w : World HPCJob) (hn : int32 cr.Spec.Replicas < 0)
    (hr : refusesNegative (scaleDeployment req cr d w).2.trace = true) :
    ∃ e, (scaleDeployment req cr d w).2.trace =
        w.trace ++ [⟨.updateDeployment req.Namespace
          { d with Spec := { d.Spec with Replicas := some (int32 cr.Spec.Replicas) } },
          some e⟩] ∧
      (scaleDeployment req cr d w).1 = .error ⟨["couldn't update deployment"], e⟩ := by
  obtain ⟨a, ht, ho⟩ := hpcJob_scaleDeployment_spec req cr d w
  cases a with
  | some e => exact ⟨e, ht, by rw [ho]⟩
  | none =>
    exfalso
    have hm : (⟨.updateDeployment req.Namespace
        { d with Spec := { d.Spec with Replicas := some (int32 cr.Spec.Replicas) } }, none⟩ :
        Event HPCJob) ∈ (scaleDeployment req cr d w).2.trace := by
      rw [ht]; simp
    have := refusesNegative_mem _ hr _ hm
    simp [Event.negativeAccepted, Call.replicas, hn] at this

/-- An HPC pass on a stored custom resource with a negative count, against a server
that holds no deployment with a negative or unset count and refuses a negative count: the
pass returns an error. -/
theorem hpcJob_negative_error (req : Request) (w : World HPCJob) (cr : HPCJob)
    (hcr : w.crs (req.Namespace, req.Name) = some cr) (hnf : w.fault ≠ some .notFound)
    (hneg : cr.Spec.Replicas < 0) (hlo : -2147483648 ≤ cr.Spec.Replicas)
    (hst : ∀ d, w.deployments (req.Namespace, req.Name) = some d →
      ∃ live, d.Spec.Replicas = some live ∧ 0 ≤ live)
    (hr : refusesNegative (Reconcile req w).2.trace = true) :
    ∃ err, (Reconcile req w).1 = .error err := by
  have hn : int32 (DeepCopyObject cr).Spec.Replicas < 0 := by
    rw [hpcJob_copy_Replicas, int32_of_range _ hlo (by omega)]; exact hneg
  revert hr
  rw [hpcJob_Reconcile_eq]
  rcases World.getCR_cases req.Namespace req.Name w with
    ⟨e, hf, h⟩ | ⟨obj, _, hc, h⟩ | ⟨_, hc, _⟩
  · rw [h]; dsimp only
    intro _
    rw [if_neg (by rintro rfl; exact hnf hf)]
    exact ⟨_, rfl⟩
  · rw [hcr] at hc; cases hc
    rw [h]; dsimp only
    rcases World.getDeployment_cases req.Namespace req.Name
        (w.record (.getCR req.Namespace req.Name) none) with
      ⟨e, _, h2⟩ | ⟨d, _, hd, h2⟩ | ⟨_, _, h2⟩
    · rw [h2]; dsimp only
      by_cases he : e = .notFound
      · rw [if_pos he]
        intro hr
        obtain ⟨e2, -, ho⟩ := hpcJob_createChildren_refused req _ _ hn hr
        exact ⟨_, ho⟩
      · rw [if_neg he]
        intro _
        exact ⟨_, rfl⟩
    · rw [h2]; dsimp only
      rw [World.record_deployments] at hd
      obtain ⟨live, hl, hpos⟩ := hst d hd
      rw [hl]; dsimp only
      have hne : live ≠ (CustomResource.DeepCopyObject cr : HPCJob).Spec.Replicas := by
        show live ≠ cr.Spec.Replicas
        omega
      rw [if_pos hne]
      intro hr
      obtain ⟨e2, -, ho⟩ := hpcJob_scaleDeployment_refused req _ d _ hn hr
      exact ⟨_, ho⟩
    · rw [h2]; dsimp only
      rw [if_pos rfl]
      intro hr
      obtain ⟨e2, -, ho⟩ := hpcJob_createChildren_refused req _ _ hn hr
      exact ⟨_, ho⟩
  · rw [hcr] at hc; cases hc

/-- An HPC pass on a stored custom resource with a negative count whose two fetches
meet no fault, against a server that holds no deployment with a negative or unset count and
refuses a negative count: the last call of the pass is the create or the update of the
deployment carrying the negative count, and its refusal is the error of the pass. -/
theorem hpcJob_negative_sent (req : Request) (w : World HPCJob) (cr : HPCJob)
    (hq : w.quiet 2 = true) (hcr : w.crs (req.Namespace, req.Name) = some cr)
    (hneg : cr.Spec.Replicas < 0) (hlo : -2147483648 ≤ cr.Spec.Replicas)
    (hst : ∀ d, w.deployments (req.Namespace, req.Name) = some d →
      ∃ live, d.Spec.Replicas = some live ∧ 0 ≤ live)
    (hr : refusesNegative (Reconcile req w).2.trace = true) :
    ∃ (pre : List (Event HPCJob)) (call : Call HPCJob) (e : ApiError) (ctx : List String),
      (Reconcile req w).2.trace = pre ++ [⟨call, some e⟩] ∧
      call.replicas = some cr.Spec.Replicas ∧ call.isChildWrite = true ∧
      (Reconcile req w).1 = .error ⟨ctx, e⟩ := by
  have h32 : int32 cr.Spec.Replicas = cr.Spec.Replicas := int32_of_range _ hlo (by omega)
  have hn : int32 (DeepCopyObject cr).Spec.Replicas < 0 := by
    rw [hpcJob_copy_Replicas, h32]; exact hneg
  revert hr
  cases hd : w.deployments (req.Namespace, req.Name) with
  | none =>
    rw [hpcJob_Reconcile_of_absent req w cr hq hcr hd]
    intro hr
    obtain ⟨e, ht, ho⟩ := hpcJob_createChildren_refused req _ _ hn hr
    refine ⟨_, _, e, _, ht, ?_, rfl, ho⟩
    show some (int32 cr.Spec.Replicas) = some cr.Spec.Replicas
    rw [h32]
  | some d =>
    obtain ⟨live, hl, hpos⟩ := hst d hd
    rw [hpcJob_Reconcile_of_fetched req w cr d live hq hcr hd hl, if_pos (by omega)]
    intro hr
    obtain ⟨e, ht, ho⟩ := hpcJob_scaleDeployment_refused req _ d _ hn hr
    refine ⟨_, _, e, _, ht, ?_, rfl, ho⟩
    show some (int32 cr.Spec.Replicas) = some cr.Spec.Replicas
    rw [h32]

end HPC

namespace Stateful

/-- The stateful-set half of a pass with a negative count and a storage text that parses,
against a server that holds no stateful set with a negative count and refuses a negative
count: the half returns an error. -/
theorem ensureStatefulSet_negative_error (validQuantity : String → Bool) (req : Request)
    (db : Database) (name : String) (w : World Database)
    (hn : int32 db.Spec.Replicas < 0)
    (hv : validQuantity (if db.Spec.Storage = "" then "1Gi" else db.Spec.Storage) = true)
    (hst : ∀ sts live, w.statefulSets (req.Namespace, name) = some sts →
      sts.Spec.Replicas = some live → 0 ≤ live)
    (hr : refusesNegative (ensureStatefulSet validQuantity req db name w).2.trace = true) :
    ∃ err, (ensureStatefulSet validQuantity req db name w).1 = .error err := by
  have hcreate : ∀ w2 : World Database,
      refusesNegative
        (match makeStatefulSet validQuantity db name with
          | none => ((.panic "cannot parse quantity" : Outcome), w2)
          | some stsObj =>
            match w2.createStatefulSet req.Namespace stsObj with
            | (some e, w) => (.error ⟨["create statefulset"], e⟩, w)
            | (none, w) => (.ok { RequeueAfter := 5 }, w)).2.trace = true →
      ∃ err,
        (match makeStatefulSet validQuantity db name with
          | none => ((.panic "cannot parse quantity" : Outcome), w2)
          | some stsObj =>
            match w2.createStatefulSet req.Namespace stsObj with
            | (some e, w) => (.error ⟨["create statefulset"], e⟩, w)
            | (none, w) => (.ok { RequeueAfter := 5 }, w)).1 = .error err := by
    intro w2
    obtain ⟨sts, hsts, hrep⟩ : ∃ sts, makeStatefulSet validQuantity db name = some sts ∧
        sts.Spec.Replicas = some (int32 db.Spec.Replicas) :=
      ⟨_, makeStatefulSet_eq validQuantity db name hv, rfl⟩
    rw [hsts]
    dsimp only
    rcases World.createStatefulSet_cases req.Namespace sts w2 with
      ⟨e, _, h3⟩ | ⟨old, _, _, h3⟩ | ⟨_, _, h3⟩
    · rw [h3]; intro _; exact ⟨_, rfl⟩
    · rw [h3]; intro _; exact ⟨_, rfl⟩
    · rw [h3]; dsimp only
      intro hr
      exfalso
      have := refusesNegative_mem _ hr ⟨.createStatefulSet req.Namespace sts, none⟩
        (by simp)
      simp [Event.negativeAccepted, Call.replicas, hrep, hn] at this
  revert hr
  unfold ensureStatefulSet
  rcases World.getStatefulSet_cases req.Namespace name w with
    ⟨e, _, h⟩ | ⟨sts, _, hs, h⟩ | ⟨_, _, h⟩
  · rw [h]; dsimp only
    by_cases he : e = .notFound
    · rw [if_pos he]; exact hcreate _
    · rw [if_neg he]; intro _; exact ⟨_, rfl⟩
  · rw [h]; dsimp only
    have hsync : refusesNegative
        (syncReplicas req sts (int32 db.Spec.Replicas)
          (w.record (.getStatefulSet req.Namespace name) none)).2.trace = true →
        ∃ err, (syncReplicas req sts (int32 db.Spec.Replicas)
          (w.record (.getStatefulSet req.Namespace name) none)).1 = .error err := by
      intro hr
      obtain ⟨a, ht, ho⟩ := syncReplicas_spec req sts (int32 db.Spec.Replicas)
        (w.record (.getStatefulSet req.Namespace name) none)
      cases a with
      | some e => exact ⟨_, ho⟩
      | none =>
        exfalso
        have := refusesNegative_mem _ hr
          ⟨.updateStatefulSet req.Namespace
            { sts with Spec := { sts.Spec with Replicas := some (int32 db.Spec.Replicas) } },
            none⟩ (by rw [ht]; simp)
        simp [Event.negativeAccepted, Call.replicas, hn] at this
    cases hl : sts.Spec.Replicas with
    | none => dsimp only; exact hsync
    | some live =>
      dsimp only
      have hpos := hst sts live hs hl
      rw [if_pos (by omega)]
      exact hsync
  · rw [h]; dsimp only
    rw [if_pos rfl]; exact hcreate _

end Stateful

namespace Stateful

/-- The stateful-set half of a pass with a negative count and a storage text that parses,
whose fetch meets no fault, against a server that holds no stateful set with a negative
count and refuses a negative count: the last call of the half is the create or the update
of the stateful set carrying the negative count, and its refusal is the error returned. -/
theorem ensureStatefulSet_negative_sent (validQuantity : String → Bool) (req : Request)
    (db : Database) (name : String) (w : World Database) (hf : w.fault = none)
    (hn : int32 db.Spec.Replicas < 0)
    (hv : validQuantity (if db.Spec.Storage = "" then "1Gi" else db.Spec.Storage) = true)
    (hst : ∀ sts live, w.statefulSets (req.Namespace, name) = some sts →
      sts.Spec.Replicas = some live → 0 ≤ live)
    (hr : refusesNegative (ensureStatefulSet validQuantity req db name w).2.trace = true) :
    ∃ (pre : List (Event Database)) (call : Call Database) (e : ApiError) (ctx : List String),
      (ensureStatefulSet validQuantity req db name w).2.trace = pre ++ [⟨call, some e⟩] ∧
      call.replicas = some (int32 db.Spec.Replicas) ∧ call.isChildWrite = true ∧
      (ensureStatefulSet validQuantity req db name w).1 = .error ⟨ctx, e⟩ := by
  revert hr
  unfold ensureStatefulSet
  rcases World.getStatefulSet_cases req.Namespace name w with
    ⟨e, hf2, _⟩ | ⟨sts, _, hs, h⟩ | ⟨_, _, h⟩
  · rw [hf] at hf2; cases hf2
  · rw [h]; dsimp only
    have hsync : refusesNegative
        (syncReplicas req sts (int32 db.Spec.Replicas)
          (w.record (.getStatefulSet req.Namespace name) none)).2.trace = true →
        ∃ (pre : List (Event Database)) (call : Call Database) (e : ApiError)
          (ctx : List String),
          (syncReplicas req sts (int32 db.Spec.Replicas)
            (w.record (.getStatefulSet req.Namespace name) none)).2.trace =
            pre ++ [⟨call, some e⟩] ∧
          call.replicas = some (int32 db.Spec.Replicas) ∧ call.isChildWrite = true ∧
          (syncReplicas req sts (int32 db.Spec.Replicas)
            (w.record (.getStatefulSet req.Namespace name) none)).1 = .error ⟨ctx, e⟩ := by
      intro hr
      obtain ⟨a, ht, ho⟩ := syncReplicas_spec req sts (int32 db.Spec.Replicas)
        (w.record (.getStatefulSet req.Namespace name) none)
      cases a with
      | some e => exact ⟨_, _, e, _, ht, rfl, rfl, ho⟩
      | none =>
        exfalso
        have := refusesNegative_mem _ hr
          ⟨.updateStatefulSet req.Namespace
            { sts with Spec := { sts.Spec with Replicas := some (int32 db.Spec.Replicas) } },
            none⟩ (by rw [ht]; simp)
        simp [Event.negativeAccepted, Call.replicas, hn] at this
    cases hl : sts.Spec.Replicas with
    | none => dsimp only; exact hsync
    | some live =>
      dsimp only
      have hpos := hst sts live hs hl
      rw [if_pos (by omega)]
      exact hsync
  · rw [h]; dsimp only
    rw [if_pos rfl]
    obtain ⟨sts, hsts, hrep⟩ : ∃ sts, makeStatefulSet validQuantity db name = some sts ∧
        sts.Spec.Replicas = some (int32 db.Spec.Replicas) :=
      ⟨_, makeStatefulSet_eq validQuantity db name hv, rfl⟩
    rw [hsts]
    dsimp only
    rcases World.createStatefulSet_cases req.Namespace sts
        (w.record (.getStatefulSet req.Namespace name) (some .notFound)) with
      ⟨e, _, h3⟩ | ⟨old, _, _, h3⟩ | ⟨_, _, h3⟩
    · rw [h3]; intro _; exact ⟨_, _, e, _, rfl, hrep, rfl, rfl⟩
    · rw [h3]; intro _; exact ⟨_, _, .alreadyExists, _, rfl, hrep, rfl, rfl⟩
    · rw [h3]; dsimp only
      intro hr
      exfalso
      have := refusesNegative_mem _ hr ⟨.createStatefulSet req.Namespace sts, none⟩
        (by simp)
      simp [Event.negativeAccepted, Call.replicas, hrep, hn] at this

/-- A stateful pass on a stored Database with a negative count and a storage text that
parses, against a server that holds no stateful set with a negative count and refuses a
negative count: the pass returns an error. -/
theorem database_negative_error (validQuantity : String → Bool) (req : Request)
    (w : World Database) (db : Database)
    (hcr : w.crs (req.Namespace, req.Name) = some db) (hnf : w.fault ≠ some .notFound)
    (hneg : db.Spec.Replicas < 0) (hlo : -2147483648 ≤ db.Spec.Replicas)
    (hv : validQuantity (if db.Spec.Storage = "" then "1Gi" else db.Spec.Storage) = true)
    (hst : ∀ sts live, w.statefulSets (req.Namespace, childName db) = some sts →
      sts.Spec.Replicas = some live → 0 ≤ live)
    (hr : refusesNegative (Reconcile validQuantity req w).2.trace = true) :
    ∃ err, (Reconcile validQuantity req w).1 = .error err := by
  have hn : int32 (DeepCopyObject db).Spec.Replicas < 0 := by
    rw [database_copy_Spec, int32_of_range _ hlo (by omega)]; exact hneg
  have hv2 : validQuantity (if (DeepCopyObject db).Spec.Storage = "" then "1Gi"
      else (DeepCopyObject db).Spec.Storage) = true := by
    rw [database_copy_Spec]; exact hv
  revert hr
  cases hf : w.fault with
  | some e =>
    unfold Reconcile
    rcases World.getCR_cases req.Namespace req.Name w with
      ⟨e2, hf2, h⟩ | ⟨_, hf2, _, _⟩ | ⟨hf2, _, _⟩
    · rw [h]; dsimp only
      rw [hf] at hf2; cases hf2
      rw [if_neg (by rintro rfl; exact hnf hf)]
      intro _; exact ⟨_, rfl⟩
    · rw [hf] at hf2; cases hf2
    · rw [hf] at hf2; cases hf2
  | none =>
    rw [database_Reconcile_of_fetched validQuantity req w db hf hcr]
    rcases World.getService_cases req.Namespace (childName db)
        (w.record (.getCR req.Namespace req.Name) none) with
      ⟨e, _, h⟩ | ⟨svc, _, _, h⟩ | ⟨_, _, h⟩
    · rw [h]; dsimp only
      by_cases he : e = .notFound
      · rw [if_pos he]
        rcases World.createService_cases req.Namespace (makeHeadlessService (childName db))
            ((w.record (.getCR req.Namespace req.Name) none).record
              (.getService req.Namespace (childName db)) (some e)) with
          ⟨e2, _, h2⟩ | ⟨old, _, _, h2⟩ | ⟨_, _, h2⟩
        · rw [h2]; intro _; exact ⟨_, rfl⟩
        · rw [h2]; intro _; exact ⟨_, rfl⟩
        · rw [h2]; dsimp only
          exact ensureStatefulSet_negative_error validQuantity req _ _ _ hn hv2
            (by simpa using hst)
      · rw [if_neg he]; intro _; exact ⟨_, rfl⟩
    · rw [h]; dsimp only
      exact ensureStatefulSet_negative_error validQuantity req _ _ _ hn hv2
        (by simpa using hst)
    · rw [h]; dsimp only
      rw [if_pos rfl]
      rcases World.createService_cases req.Namespace (makeHeadlessService (childName db))
          ((w.record (.getCR req.Namespace req.Name) none).record
            (.getService req.Namespace (childName db)) (some .notFound)) with
        ⟨e2, _, h2⟩ | ⟨old, _, _, h2⟩ | ⟨_, _, h2⟩
      · rw [h2]; intro _; exact ⟨_, rfl⟩
      · rw [h2]; intro _; exact ⟨_, rfl⟩
      · rw [h2]; dsimp only
        exact ensureStatefulSet_negative_error validQuantity req _ _ _ hn hv2
          (by simpa using hst)

/-- A stateful pass on a stored Database with a negative count and a storage text that
parses, whose fetches and service create meet no fault, against a server that holds no
stateful set with a negative count and refuses a negative count: the last call of the pass
is the create or the update of the stateful set carrying the negative count, and its refusal
is the error of the pass. -/
theorem database_negative_sent (validQuantity : String → Bool) (req : Request)
    (w : World Database) (db : Database)
    (hq : w.quiet (match w.services (req.Namespace, childName db) with
      | some _ => 3 | none => 4) = true)
    (hcr : w.crs (req.Namespace, req.Name) = some db)
    (hneg : db.Spec.Replicas < 0) (hlo : -2147483648 ≤ db.Spec.Replicas)
    (hv : validQuantity (if db.Spec.Storage = "" then "1Gi" else db.Spec.Storage) = true)
    (hst : ∀ sts live, w.statefulSets (req.Namespace, childName db) = some sts →
      sts.Spec.Replicas = some live → 0 ≤ live)
    (hr : refusesNegative (Reconcile validQuantity req w).2.trace = true) :
    ∃ (pre : List (Event Database)) (call : Call Database) (e : ApiError) (ctx : List String),
      (Reconcile validQuantity req w).2.trace = pre ++ [⟨call, some e⟩] ∧
      call.replicas = some db.Spec.Replicas ∧ call.isChildWrite = true ∧
      (Reconcile validQuantity req w).1 = .error ⟨ctx, e⟩ := by
  have h32 : int32 (DeepCopyObject db).Spec.Replicas = db.Spec.Replicas := by
    rw [database_copy_Spec, int32_of_range _ hlo (by omega)]
  have hn : int32 (DeepCopyObject db).Spec.Replicas < 0 := by
    rw [h32]; exact hneg
  have hv2 : validQuantity (if (DeepCopyObject db).Spec.Storage = "" then "1Gi"
      else (DeepCopyObject db).Spec.Storage) = true := by
    rw [database_copy_Spec]; exact hv
  have hq3 : w.quiet 3 = true := by
    cases hsv : w.services (req.Namespace, childName db) with
    | some svc => rw [hsv] at hq; exact hq
    | none => rw [hsv] at hq; exact World.quiet_mono w 3 4 (by omega) hq
  have hf0 := World.fault_of_quiet w 2 hq3
  have hq1 := World.record_quiet w 2 (.getCR req.Namespace req.Name) none hq3
  have hf1 := World.fault_of_quiet _ 1 hq1
  revert hr
  rw [database_Reconcile_of_fetched validQuantity req w db hf0 hcr]
  rcases World.getService_cases req.Namespace (childName db)
      (w.record (.getCR req.Namespace req.Name) none) with
    ⟨e, hf2, _⟩ | ⟨svc, _, hsv, h⟩ | ⟨_, hsv, h⟩
  · rw [hf1] at hf2; cases hf2
  · rw [h]; dsimp only
    have hq2 := World.record_quiet _ 1 (.getService req.Namespace (childName db)) none hq1
    have hf2 := World.fault_of_quiet _ 0 hq2
    intro hr
    have := ensureStatefulSet_negative_sent validQuantity req _ _ _ hf2 hn hv2
      (by simpa using hst) hr
    rw [h32] at this
    exact this
  · rw [h]; dsimp only
    rw [if_pos rfl]
    rw [World.record_services] at hsv
    rw [hsv] at hq
    have hq1 := World.record_quiet w 3 (.getCR req.Namespace req.Name) none hq
    have hq2 := World.record_quiet _ 2 (.getService req.Namespace (childName db))
      (some .notFound) hq1
    have hf2 := World.fault_of_quiet _ 1 hq2
    rcases World.createService_cases req.Namespace (makeHeadlessService (childName db))
        ((w.record (.getCR req.Namespace req.Name) none).record
          (.getService req.Namespace (childName db)) (some .notFound)) with
      ⟨e2, hf3, _⟩ | ⟨old, _, hc, _⟩ | ⟨_, _, h2⟩
    · rw [hf2] at hf3; cases hf3
    · rw [World.record_services, World.record_services] at hc
      have hname : (makeHeadlessService (childName db)).ObjectMeta.Name = childName db := rfl
      rw [hname, hsv] at hc; cases hc
    · rw [h2]; dsimp only
      have hq3 := World.record_quiet _ 1
        (.createService req.Namespace (makeHeadlessService (childName db))) none hq2
      have hf3 := World.fault_of_quiet _ 0 hq3
      intro hr
      have := ensureStatefulSet_negative_sent validQuantity req _ _ _
        (by simpa using hf3) hn hv2 (by simpa using hst) hr
      rw [h32] at this
      exact this

end Stateful

/-- C14, as stated, fails. A TaskJob asking for minus one replica with no deployment yet: the
stateless pass sends the create of a deployment carrying the count minus one. The same
TaskJob with a deployment of two replicas: the pass sends the update of the deployment
carrying the count minus one. A TaskJob asking for -4294967293 replicas: the conversion to
32 bits turns the count into 3, the creates are accepted and the pass returns no error. A
Database asking for minus one replica with the storage text "big": the pass stops in the
parser of the quantity and returns no error. A TaskJob asking for minus one replica whose
fetch is answered not found: the pass deletes the children and returns no error. -/
theorem negative_replicas_counterexample :
    (Examples.taskJobNegative.Spec.Replicas = -1 ∧
      (Stateless.getDeploymentObject
        (Stateless.DeepCopyObject Examples.taskJobNegative)).Spec.Replicas = some (-1) ∧
      (Stateless.Reconcile Examples.jobReq Examples.taskNegative).2.trace =
        [⟨.getCR "default" "job", none⟩,
         ⟨.getDeployment "default" "job", some .notFound⟩,
         ⟨.createDeployment "default"
           (Stateless.getDeploymentObject (Stateless.DeepCopyObject Examples.taskJobNegative)),
           some .invalid⟩]) ∧
    ((Stateless.Reconcile Examples.jobReq Examples.taskNegativeScale).2.trace =
        [⟨.getCR "default" "job", none⟩,
         ⟨.getDeployment "default" "job", none⟩,
         ⟨.updateDeployment "default"
           { Examples.jobDeployment 2 with
             Spec := { (Examples.jobDeployment 2).Spec with Replicas := some (-1) } },
           some .invalid⟩]) ∧
    (Examples.taskJobWrap.Spec.Replicas < 0 ∧
      (Stateless.getDeploymentObject
        (Stateless.DeepCopyObject Examples.taskJobWrap)).Spec.Replicas = some 3 ∧
      refusesNegative (Stateless.Reconcile Examples.jobReq Examples.taskWrap).2.trace = true ∧
      (Stateless.Reconcile Examples.jobReq Examples.taskWrap).1 = .ok {}) ∧
    (Examples.databaseNegativeBad.Spec.Replicas = -1 ∧
      Examples.validQuantity "big" = false ∧
      refusesNegative
        (Stateful.Reconcile Examples.validQuantity Examples.dbReq
          Examples.dbNegativeBad).2.trace = true ∧
      (Stateful.Reconcile Examples.validQuantity Examples.dbReq Examples.dbNegativeBad).1 =
        .panic "cannot parse quantity") ∧
    (Examples.taskNegativeUnseen.crs ("default", "job") = some Examples.taskJobNegative ∧
      (Stateless.Reconcile Examples.jobReq Examples.taskNegativeUnseen).2.trace =
        [⟨.getCR "default" "job", some .notFound⟩,
         ⟨.deleteDeployment "default" "job", none⟩,
         ⟨.deleteService "default" "job", none⟩] ∧
      (Stateless.Reconcile Examples.jobReq Examples.taskNegativeUnseen).1 = .ok {}) := by
  refine ⟨⟨?_, ?_, ?_⟩, ?_, ⟨?_, ?_, ?_, ?_⟩, ⟨?_, ?_, ?_, ?_⟩, ⟨?_, ?_, ?_⟩⟩ <;> decide

/-- C14, amended: no pass checks the replica count itself. Take a stored custom resource
whose spec has a negative replica count within the 32-bit range and whose fetch is not
answered not-found, a server that holds no workload controller with a negative count (for
the stateless and the HPC kind: nor one without a count) and that refuses every create and
update of a workload controller carrying a negative count, and, for the stateful kind, a
storage text (the default "1Gi" when the spec has none) that parses. Then the pass returns
an error; and when the fetches of the pass (and the create of an absent headless service in
the stateful kind) meet no fault, the last call of the pass is the create or the update of
the workload controller carrying the negative count, and the refusal of that call is the
error the pass returns. -/
theorem negative_replicas_not_checked :
    (∀ (req : Request) (w : World Stateless.TaskJob) (cr : Stateless.TaskJob),
      w.crs (req.Namespace, req.Name) = some cr → w.fault ≠ some .notFound →
      cr.Spec.Replicas < 0 → -2147483648 ≤ cr.Spec.Replicas →
      (∀ d, w.deployments (req.Namespace, req.Name) = some d →
        ∃ live, d.Spec.Replicas = some live ∧ 0 ≤ live) →
      refusesNegative (Stateless.Reconcile req w).2.trace = true →
      (∃ err, (Stateless.Reconcile req w).1 = .error err) ∧
      (w.quiet 2 = true →
        ∃ (pre : List (Event Stateless.TaskJob)) (call : Call Stateless.TaskJob)
          (e : ApiError) (ctx : List String),
          (Stateless.Reconcile req w).2.trace = pre ++ [⟨call, some e⟩] ∧
          call.replicas = some cr.Spec.Replicas ∧ call.isChildWrite = true ∧
          (Stateless.Reconcile req w).1 = .error ⟨ctx, e⟩)) ∧
    (∀ (req : Request) (w : World HPC.HPCJob) (cr : HPC.HPCJob),
      w.crs (req.Namespace, req.Name) = some cr → w.fault ≠ some .notFound →
      cr.Spec.Replicas < 0 → -2147483648 ≤ cr.Spec.Replicas →
      (∀ d, w.deployments (req.Namespace, req.Name) = some d →
        ∃ live, d.Spec.Replicas = some live ∧ 0 ≤ live) →
      refusesNegative (HPC.Reconcile req w).2.trace = true →
      (∃ err, (HPC.Reconcile req w).1 = .error err) ∧
      (w.quiet 2 = true →
        ∃ (pre : List (Event HPC.HPCJob)) (call : Call HPC.HPCJob)
          (e : ApiError) (ctx : List String),
          (HPC.Reconcile req w).2.trace = pre ++ [⟨call, some e⟩] ∧
          call.replicas = some cr.Spec.Replicas ∧ call.isChildWrite = true ∧
          (HPC.Reconcile req w).1 = .error ⟨ctx, e⟩)) ∧
    (∀ (validQuantity : String → Bool) (req : Request) (w : World Stateful.Database)
      (db : Stateful.Database),
      w.crs (req.Namespace, req.Name) = some db → w.fault ≠ some .notFound →
      db.Spec.Replicas < 0 → -2147483648 ≤ db.Spec.Replicas →
      validQuantity (if db.Spec.Storage = "" then "1Gi" else db.Spec.Storage) = true →
      (∀ sts live, w.statefulSets (req.Namespace, Stateful.childName db) = some sts →
        sts.Spec.Replicas = some live → 0 ≤ live) →
      refusesNegative (Stateful.Reconcile validQuantity req w).2.trace = true →
      (∃ err, (Stateful.Reconcile validQuantity req w).1 = .error err) ∧
      (w.quiet (match w.services (req.Namespace, Stateful.childName db) with
          | some _ => 3 | none => 4) = true →
        ∃ (pre : List (Event Stateful.Database)) (call : Call Stateful.Database)
          (e : ApiError) (ctx : List String),
          (Stateful.Reconcile validQuantity req w).2.trace = pre ++ [⟨call, some e⟩] ∧
          call.replicas = some db.Spec.Replicas ∧ call.isChildWrite = true ∧
          (Stateful.Reconcile validQuantity req w).1 = .error ⟨ctx, e⟩)) := by
  refine ⟨?_, ?_, ?_⟩
  · intro req w cr hcr hnf hneg hlo hst hr
    exact ⟨Stateless.taskJob_negative_error req w cr hcr hnf hneg hlo hst hr,
      fun hq => Stateless.taskJob_negative_sent req w cr hq hcr hneg hlo hst hr⟩
  · intro req w cr hcr hnf hneg hlo hst hr
    exact ⟨HPC.hpcJob_negative_error req w cr hcr hnf hneg hlo hst hr,
      fun hq => HPC.hpcJob_negative_sent req w cr hq hcr hneg hlo hst hr⟩
  · intro validQuantity req w db hcr hnf hneg hlo hv hst hr
    exact ⟨Stateful.database_negative_error validQuantity req w db hcr hnf hneg hlo hv hst hr,
      fun hq =>
        Stateful.database_negative_sent validQuantity req w db hq hcr hneg hlo hv hst hr⟩

/-- C14, amended, at four example clusters whose custom resource asks for minus one replica
and whose server refuses the write of the workload controller: a TaskJob without a
deployment, a TaskJob with a deployment of two replicas, an HPCJob without a deployment and
a Database without a stateful set. Each pass returns an error, which is the refusal of its
last call, the create or update carrying the count minus one. -/
theorem negative_replicas_not_checked_witness :
    ((∃ err, (Stateless.Reconcile Examples.jobReq Examples.taskNegative).1 = .error err) ∧
      (Examples.taskNegative.quiet 2 = true →
        ∃ (pre : List (Event Stateless.TaskJob)) (call : Call Stateless.TaskJob)
          (e : ApiError) (ctx : List String),
          (Stateless.Reconcile Examples.jobReq Examples.taskNegative).2.trace =
            pre ++ [⟨call, some e⟩] ∧
          call.replicas = some Examples.taskJobNegative.Spec.Replicas ∧
          call.isChildWrite = true ∧
          (Stateless.Reconcile Examples.jobReq Examples.taskNegative).1 = .error ⟨ctx, e⟩)) ∧
    ((∃ err, (Stateless.Reconcile Examples.jobReq Examples.taskNegativeScale).1 = .error err) ∧
      (Examples.taskNegativeScale.quiet 2 = true →
        ∃ (pre : List (Event Stateless.TaskJob)) (call : Call Stateless.TaskJob)
          (e : ApiError) (ctx : List String),
          (Stateless.Reconcile Examples.jobReq Examples.taskNegativeScale).2.trace =
            pre ++ [⟨call, some e⟩] ∧
          call.replicas = some Examples.taskJobNegative.Spec.Replicas ∧
          call.isChildWrite = true ∧
          (Stateless.Reconcile Examples.jobReq Examples.taskNegativeScale).1 =
            .error ⟨ctx, e⟩)) ∧
    ((∃ err, (HPC.Reconcile Examples.jobReq Examples.hpcNegative).1 = .error err) ∧
      (Examples.hpcNegative.quiet 2 = true →
        ∃ (pre : List (Event HPC.HPCJob)) (call : Call HPC.HPCJob)
          (e : ApiError) (ctx : List String),
          (HPC.Reconcile Examples.jobReq Examples.hpcNegative).2.trace =
            pre ++ [⟨call, some e⟩] ∧
          call.replicas = some Examples.hpcJobNegative.Spec.Replicas ∧
          call.isChildWrite = true ∧
          (HPC.Reconcile Examples.jobReq Examples.hpcNegative).1 = .error ⟨ctx, e⟩)) ∧
    ((∃ err, (Stateful.Reconcile Examples.validQuantity Examples.dbReq
        Examples.dbNegative).1 = .error err) ∧
      (Examples.dbNegative.quiet
          (match Examples.dbNegative.services
              (Examples.dbReq.Namespace, Stateful.childName Examples.databaseNegative) with
            | some _ => 3 | none => 4) = true →
        ∃ (pre : List (Event Stateful.Database)) (call : Call Stateful.Database)
          (e : ApiError) (ctx : List String),
          (Stateful.Reconcile Examples.validQuantity Examples.dbReq
            Examples.dbNegative).2.trace = pre ++ [⟨call, some e⟩] ∧
          call.replicas = some Examples.databaseNegative.Spec.Replicas ∧
          call.isChildWrite = true ∧
          (Stateful.Reconcile Examples.validQuantity Examples.dbReq Examples.dbNegative).1 =
            .error ⟨ctx, e⟩)) :=
  ⟨negative_replicas_not_checked.1 Examples.jobReq Examples.taskNegative
      Examples.taskJobNegative rfl (by decide) (by decide) (by decide)
      (fun _ h => Option.noConfusion h) (by decide),
    negative_replicas_not_checked.1 Examples.jobReq Examples.taskNegativeScale
      Examples.taskJobNegative rfl (by decide) (by decide) (by decide)
      (fun d h => by
        have h2 : some (Examples.jobDeployment 2) = some d := h
        cases h2
        exact ⟨2, rfl, by decide⟩) (by decide),
    negative_replicas_not_checked.2.1 Examples.jobReq Examples.hpcNegative
      Examples.hpcJobNegative rfl (by decide) (by decide) (by decide)
      (fun _ h => Option.noConfusion h) (by decide),
    negative_replicas_not_checked.2.2 Examples.validQuantity Examples.dbReq Examples.dbNegative
      Examples.databaseNegative rfl (by decide) (by decide) (by decide) (by decide)
      (fun _ _ h => Option.noConfusion h) (by decide)⟩

/-! ### Completion time -/

namespace Stateless

/-- C18 (what the code does): the status step works on the copy the fetch handed out, whose
status is empty, so the stored state and the stored completion time play no part in it.
Whatever status the server holds, a pass that finds the deployment with the replica count of
the spec and meets no fault writes the inferred state together with the current time as
completion time when that state is "Completed", and with no completion time otherwise, and
that is what the server holds afterwards. At the TaskJob stored as "Completed" since
1700000000 with a succeeded pod and the clock at 1700000600 the pass stamps 1700000600; at
the same TaskJob with a ready pod the pass writes "Running" and the stored completion time
is gone. -/
theorem completion_time_restamped :
    (∀ (req : Request) (w : World TaskJob) (cr : TaskJob) (d : Deployment),
      w.quiet 4 = true → w.crs (req.Namespace, req.Name) = some cr →
      cr.ObjectMeta.Namespace = req.Namespace → cr.ObjectMeta.Name = req.Name →
      w.deployments (req.Namespace, req.Name) = some d →
      d.Spec.Replicas = some cr.Spec.Replicas →
      (Reconcile req w).1 = .ok { RequeueAfter := 10 } ∧
      (Reconcile req w).2.trace =
        w.trace ++
          [⟨.getCR req.Namespace req.Name, none⟩,
           ⟨.getDeployment req.Namespace req.Name, none⟩,
           ⟨.listPods req.Namespace ("app=" ++ cr.Spec.JobName), none⟩,
           ⟨.updateStatus
              { cr with
                Status :=
                  { State := inferState (w.pods (req.Namespace, "app=" ++ cr.Spec.JobName))
                    CompletionTime :=
                      if inferState (w.pods (req.Namespace, "app=" ++ cr.Spec.JobName)) =
                          "Completed" then some w.now
                      else none } }, none⟩] ∧
      (Reconcile req w).2.crs (req.Namespace, req.Name) =
        some
          { cr with
            Status :=
              { State := inferState (w.pods (req.Namespace, "app=" ++ cr.Spec.JobName))
                CompletionTime :=
                  storedTime
                    (if inferState (w.pods (req.Namespace, "app=" ++ cr.Spec.JobName)) =
                        "Completed" then some w.now
                      else none) } }) ∧
    (Examples.taskDone.crs ("default", "job") = some Examples.taskJobDone ∧
      Examples.taskJobDone.Status = { State := "Completed", CompletionTime := some 1700000000 } ∧
      inferState (Examples.taskDone.pods ("default", "app=job")) = "Completed" ∧
      Examples.taskDone.now = 1700000600 ∧
      statusWrites (Reconcile Examples.jobReq Examples.taskDone).2.trace =
        [⟨.updateStatus
          { Examples.taskJobDone with
            Status := { State := "Completed", CompletionTime := some 1700000600 } }, none⟩] ∧
      (Reconcile Examples.jobReq Examples.taskDone).2.crs ("default", "job") =
        some
          { Examples.taskJobDone with
            Status := { State := "Completed", CompletionTime := some 1700000600 } }) ∧
    (Examples.taskDoneRestarted.crs ("default", "job") = some Examples.taskJobDone ∧
      inferState (Examples.taskDoneRestarted.pods ("default", "app=job")) = "Running" ∧
      statusWrites (Reconcile Examples.jobReq Examples.taskDoneRestarted).2.trace =
        [⟨.updateStatus
          { Examples.taskJobDone with
            Status := { State := "Running", CompletionTime := none } }, none⟩] ∧
      (Reconcile Examples.jobReq Examples.taskDoneRestarted).2.crs ("default", "job") =
        some
          { Examples.taskJobDone with
            Status := { State := "Running", CompletionTime := none } }) := by
  refine ⟨?_, ⟨?_, ?_, ?_, ?_, ?_, ?_⟩, ⟨?_, ?_, ?_, ?_⟩⟩
  · intro req w cr d hq hcr hns hname hd hrep
    rw [taskJob_status_pass req w cr d hq hcr hns hname hd hrep]
    refine ⟨rfl, by simp, by simp⟩
  all_goals decide

/-- C18, at the example cluster whose TaskJob is stored as "Completed" since 1700000000: the
cluster meets no fault and holds the deployment with the replica count of the spec; the
pass writes "Completed" with the time of the pass. -/
theorem completion_time_restamped_witness :
    Examples.taskDone.quiet 4 = true ∧
      (Reconcile Examples.jobReq Examples.taskDone).1 = .ok { RequeueAfter := 10 } ∧
      (Reconcile Examples.jobReq Examples.taskDone).2.trace =
        Examples.taskDone.trace ++
          [⟨.getCR "default" "job", none⟩,
           ⟨.getDeployment "default" "job", none⟩,
           ⟨.listPods "default" ("app=" ++ Examples.taskJobDone.Spec.JobName), none⟩,
           ⟨.updateStatus
              { Examples.taskJobDone with
                Status :=
                  { State := inferState (Examples.taskDone.pods
                      ("default", "app=" ++ Examples.taskJobDone.Spec.JobName))
                    CompletionTime :=
                      if inferState (Examples.taskDone.pods
                          ("default", "app=" ++ Examples.taskJobDone.Spec.JobName)) =
                          "Completed" then some Examples.taskDone.now
                      else none } }, none⟩] ∧
      (Reconcile Examples.jobReq Examples.taskDone).2.crs ("default", "job") =
        some
          { Examples.taskJobDone with
            Status :=
              { State := inferState (Examples.taskDone.pods
                  ("default", "app=" ++ Examples.taskJobDone.Spec.JobName))
                CompletionTime :=
                  storedTime
                    (if inferState (Examples.taskDone.pods
                        ("default", "app=" ++ Examples.taskJobDone.Spec.JobName)) =
                        "Completed" then some Examples.taskDone.now
                      else none) } } :=
  ⟨by decide,
    completion_time_restamped.1 Examples.jobReq Examples.taskDone Examples.taskJobDone
      (Examples.jobDeployment 1) (by decide) rfl rfl rfl rfl rfl⟩

end Stateless

/-- C19 (what the code does): the completion time the HPC pass writes when it moves the
state to "Completed" is the zero time, not the time of the pass. On a cluster whose clock
is at 1700000000, the pass on an HPCJob with no stored state writes "Pending", sleeps five
seconds, and writes "Completed" with the zero time as completion time; the zero time goes
over the wire as null, so the server then holds "Completed" with no completion time. -/
theorem HPC.completion_time_is_zero :
    Examples.hpcSteady.now = 1700000000 ∧
      (HPC.Reconcile Examples.jobReq Examples.hpcSteady).2.now = 1700000005 ∧
      (HPC.Reconcile Examples.jobReq Examples.hpcSteady).1 = .ok {} ∧
      (HPC.Reconcile Examples.jobReq Examples.hpcSteady).2.trace =
        [⟨.getCR "default" "job", none⟩,
         ⟨.getDeployment "default" "job", none⟩,
         ⟨.updateStatus { Examples.hpcJobOne with Status := { State := "Pending" } }, none⟩,
         ⟨.sleep 5, none⟩,
         ⟨.updateStatus
            { Examples.hpcJobOne with
              Status := { State := "Completed", CompletionTime := some zeroTime } }, none⟩] ∧
      (HPC.Reconcile Examples.jobReq Examples.hpcSteady).2.crs ("default", "job") =
        some { Examples.hpcJobOne with
          Status := { State := "Completed", CompletionTime := none } } ∧
      zeroTime = -62135596800 ∧
      (some zeroTime : Option Time) ≠ some 1700000000 ∧
      (some zeroTime : Option Time) ≠ some 1700000005 ∧
      (none : Option Time) ≠ some 1700000000 ∧
      (none : Option Time) ≠ some 1700000005 := by
  refine ⟨?_, ?_, ?_, ?_, ?_, ?_, ?_, ?_, ?_, ?_⟩ <;> decide

/-! ### Panics -/

namespace Stateless

/-- The deletion path of the stateless pass returns. -/
theorem taskJob_cleanup_isPanic (req : Request) (name : String) (w : World TaskJob) :
    (cleanup req name w).1.isPanic = false := by
  unfold cleanup
  repeat' split
  all_goals rfl

/-- The create path of the stateless pass returns. -/
theorem taskJob_createChildren_isPanic (req : Request) (cr : TaskJob) (w : World TaskJob) :
    (createChildren req cr w).1.isPanic = false := by
  unfold createChildren
  repeat' split
  all_goals rfl

/-- The replica update of the stateless pass returns. -/
theorem taskJob_scaleDeployment_isPanic (req : Request) (cr : TaskJob) (d : Deployment)
    (w : World TaskJob) : (scaleDeployment req cr d w).1.isPanic = false := by
  unfold scaleDeployment
  dsimp only
  split <;> rfl

/-- The stateless pass panics exactly when both fetches go through and the fetched
deployment carries no replica count. -/
theorem taskJob_Reconcile_isPanic (req : Request) (w : World TaskJob) :
    (Reconcile req w).1.isPanic = true ↔
      w.quiet 2 = true ∧ (∃ cr, w.crs (req.Namespace, req.Name) = some cr) ∧
        ∃ d, w.deployments (req.Namespace, req.Name) = some d ∧ d.Spec.Replicas = none := by
  rw [taskJob_Reconcile_eq]
  rcases World.getCR_cases req.Namespace req.Name w with
    ⟨e, hf, h⟩ | ⟨cr, hf, hc, h⟩ | ⟨hf, hc, h⟩
  · rw [h]; dsimp only
    constructor
    · intro hp; exfalso; revert hp
      split
      · rw [taskJob_cleanup_isPanic]; simp
      · simp [Outcome.isPanic]
    · rintro ⟨hq, -⟩
      rw [World.fault_of_quiet w 1 hq] at hf; cases hf
  · rw [h]; dsimp only
    rcases World.getDeployment_cases req.Namespace req.Name
        (w.record (.getCR req.Namespace req.Name) none) with
      ⟨e, hf1, h1⟩ | ⟨d, hf1, hd, h1⟩ | ⟨hf1, hd, h1⟩
    · rw [h1]; dsimp only
      constructor
      · intro hp; exfalso; revert hp
        split
        · rw [taskJob_createChildren_isPanic]; simp
        · simp [Outcome.isPanic]
      · rintro ⟨hq, -⟩
        have hq1 := World.record_quiet w 1 (.getCR req.Namespace req.Name) none hq
        rw [World.fault_of_quiet _ 0 hq1] at hf1; cases hf1
    · rw [h1]; dsimp only
      rw [World.record_deployments] at hd
      cases hrep : d.Spec.Replicas with
      | none =>
        dsimp only
        refine ⟨fun _ => ⟨?_, ⟨cr, hc⟩, d, hd, hrep⟩, fun _ => rfl⟩
        exact World.quiet_succ_of_fault w 1 _ _ hf
          (World.quiet_succ_of_fault _ 0 (.getDeployment req.Namespace req.Name) none hf1 rfl)
      | some live =>
        dsimp only
        constructor
        · intro hp; exfalso; revert hp
          split
          · rw [taskJob_scaleDeployment_isPanic]; simp
          · split <;> simp [Outcome.isPanic]
        · rintro ⟨-, -, d2, hd2, hrep2⟩
          rw [hd] at hd2; cases hd2
          rw [hrep] at hrep2; cases hrep2
    · rw [h1]; dsimp only
      rw [World.record_deployments] at hd
      constructor
      · intro hp; exfalso; revert hp
        rw [if_pos rfl, taskJob_createChildren_isPanic]; simp
      · rintro ⟨-, -, d2, hd2, -⟩
        rw [hd] at hd2; cases hd2
  · rw [h]; dsimp only
    constructor
    · intro hp; exfalso; revert hp
      rw [if_pos rfl, taskJob_cleanup_isPanic]; simp
    · rintro ⟨-, ⟨cr, hcr⟩, -⟩
      rw [hc] at hcr; cases hcr

end Stateless

namespace HPC

/-- The deletion path of the HPC pass returns. -/
theorem hpcJob_cleanup_isPanic (req : Request) (name : String) (w : World HPCJob) :
    (cleanup req name w).1.isPanic = false := by
  unfold cleanup
  repeat' split
  all_goals rfl

/-- The create path of the HPC pass returns. -/
theorem hpcJob_createChildren_isPanic (req : Request) (cr : HPCJob) (w : World HPCJob) :
    (createChildren req cr w).1.isPanic = false := by
  unfold createChildren
  repeat' split
  all_goals rfl

/-- The replica update of the HPC pass returns. -/
theorem hpcJob_scaleDeployment_isPanic (req : Request) (cr : HPCJob) (d : Deployment)
    (w : World HPCJob) : (scaleDeployment req cr d w).1.isPanic = false := by
  unfold scaleDeployment
  dsimp only
  split <;> rfl

/-- The simulated completion of the HPC pass returns. -/
theorem simulateCompletion_isPanic (cr : HPCJob) (w : World HPCJob) :
    (simulateCompletion cr w).1.isPanic = false := by
  unfold simulateCompletion
  dsimp only
  repeat' split
  all_goals rfl

/-- The HPC pass panics exactly when both fetches go through and the fetched deployment
carries no replica count. -/
theorem hpcJob_Reconcile_isPanic (req : Request) (w : World HPCJob) :
    (Reconcile req w).1.isPanic = true ↔
      w.quiet 2 = true ∧ (∃ cr, w.crs (req.Namespace, req.Name) = some cr) ∧
        ∃ d, w.deployments (req.Namespace, req.Name) = some d ∧ d.Spec.Replicas = none := by
  rw [hpcJob_Reconcile_eq]
  rcases World.getCR_cases req.Namespace req.Name w with
    ⟨e, hf, h⟩ | ⟨cr, hf, hc, h⟩ | ⟨hf, hc, h⟩
  · rw [h]; dsimp only
    constructor
    · intro hp; exfalso; revert hp
      split
      · rw [hpcJob_cleanup_isPanic]; simp
      · simp [Outcome.isPanic]
    · rintro ⟨hq, -⟩
      rw [World.fault_of_quiet w 1 hq] at hf; cases hf
  · rw [h]; dsimp only
    rcases World.getDeployment_cases req.Namespace req.Name
        (w.record (.getCR req.Namespace req.Name) none) with
      ⟨e, hf1, h1⟩ | ⟨d, hf1, hd, h1⟩ | ⟨hf1, hd, h1⟩
    · rw [h1]; dsimp only
      constructor
      · intro hp; exfalso; revert hp
        split
        · rw [hpcJob_createChildren_isPanic]; simp
        · simp [Outcome.isPanic]
      · rintro ⟨hq, -⟩
        have hq1 := World.record_quiet w 1 (.getCR req.Namespace req.Name) none hq
        rw [World.fault_of_quiet _ 0 hq1] at hf1; cases hf1
    · rw [h1]; dsimp only
      rw [World.record_deployments] at hd
      cases hrep : d.Spec.Replicas with
      | none =>
        dsimp only
        refine ⟨fun _ => ⟨?_, ⟨cr, hc⟩, d, hd, hrep⟩, fun _ => rfl⟩
        exact World.quiet_succ_of_fault w 1 _ _ hf
          (World.quiet_succ_of_fault _ 0 (.getDeployment req.Namespace req.Name) none hf1 rfl)
      | some live =>
        dsimp only
        constructor
        · intro hp; exfalso; revert hp
          split
          · rw [hpcJob_scaleDeployment_isPanic]; simp
          · split
            · simp [Outcome.isPanic]
            · rw [simulateCompletion_isPanic]; simp
        · rintro ⟨-, -, d2, hd2, hrep2⟩
          rw [hd] at hd2; cases hd2
          rw [hrep] at hrep2; cases hrep2
    · rw [h1]; dsimp only
      rw [World.record_deployments] at hd
      constructor
      · intro hp; exfalso; revert hp
        rw [if_pos rfl, hpcJob_createChildren_isPanic]; simp
      · rintro ⟨-, -, d2, hd2, -⟩
        rw [hd] at hd2; cases hd2
  · rw [h]; dsimp only
    constructor
    · intro hp; exfalso; revert hp
      rw [if_pos rfl, hpcJob_cleanup_isPanic]; simp
    · rintro ⟨-, ⟨cr, hcr⟩, -⟩
      rw [hc] at hcr; cases hcr

end HPC

namespace World

variable {CR : Type}

/-- With no fault on the call, the fetch of a stateful set is answered not-found exactly
when none is stored under the name. -/
theorem getStatefulSet_notFound_iff (ns name : String) (w : World CR) (hf : w.fault = none) :
    (w.getStatefulSet ns name).1 = .error .notFound ↔ w.statefulSets (ns, name) = none := by
  rcases getStatefulSet_cases ns name w with ⟨e, hf2, _⟩ | ⟨sts, _, hs, h⟩ | ⟨_, hs, h⟩
  · rw [hf] at hf2; cases hf2
  · rw [h, hs]; simp
  · rw [h, hs]; simp

end World

namespace Stateful

/-- The replica update of the stateful pass returns. -/
theorem syncReplicas_isPanic (req : Request) (sts : StatefulSet) (desired : Int)
    (w : World Database) : (syncReplicas req sts desired w).1.isPanic = false := by
  unfold syncReplicas
  dsimp only
  split <;> rfl

/-- The status step of the stateful pass returns. -/
theorem syncStatus_isPanic (db : Database) (sts : StatefulSet) (replicas : Int)
    (w : World Database) : (syncStatus db sts replicas w).1.isPanic = false := by
  unfold syncStatus
  dsimp only
  repeat' split
  all_goals rfl

/-- The stateful-set half of a pass panics exactly when the fetch of the stateful set is
answered not-found and the resolved storage of the spec does not parse. -/
theorem ensureStatefulSet_isPanic (validQuantity : String → Bool) (req : Request)
    (db : Database) (name : String) (w : World Database) :
    (ensureStatefulSet validQuantity req db name w).1.isPanic = true ↔
      (w.getStatefulSet req.Namespace name).1 = .error .notFound ∧
        validQuantity (if db.Spec.Storage = "" then "1Gi" else db.Spec.Storage) = false := by
  have hsome := makeStatefulSet_isSome validQuantity db name
  unfold ensureStatefulSet
  rcases World.getStatefulSet_cases req.Namespace name w with
    ⟨e, _, h⟩ | ⟨sts, _, _, h⟩ | ⟨_, _, h⟩
  · rw [h]; dsimp only
    by_cases he : e = .notFound
    · rw [if_pos he]
      cases hm : makeStatefulSet validQuantity db name with
      | none =>
        rw [hm] at hsome
        dsimp only
        exact ⟨fun _ => ⟨by rw [he], hsome.symm⟩, fun _ => rfl⟩
      | some stsObj =>
        rw [hm] at hsome
        dsimp only
        constructor
        · intro hp; exfalso; revert hp
          split <;> simp [Outcome.isPanic]
        · rintro ⟨-, hv⟩
          rw [hv] at hsome; cases hsome
    · rw [if_neg he]
      constructor
      · intro hp; cases hp
      · rintro ⟨h1, -⟩
        exact absurd (Except.error.inj h1) he
  · rw [h]; dsimp only
    constructor
    · intro hp; exfalso; revert hp
      split
      · rw [syncReplicas_isPanic]; simp
      · split
        · rw [syncReplicas_isPanic]; simp
        · rw [syncStatus_isPanic]; simp
    · rintro ⟨h1, -⟩; cases h1
  · rw [h]; dsimp only
    rw [if_pos rfl]
    cases hm : makeStatefulSet validQuantity db name with
    | none =>
      rw [hm] at hsome
      dsimp only
      exact ⟨fun _ => ⟨rfl, hsome.symm⟩, fun _ => rfl⟩
    | some stsObj =>
      rw [hm] at hsome
      dsimp only
      constructor
      · intro hp; exfalso; revert hp
        split <;> simp [Outcome.isPanic]
      · rintro ⟨-, hv⟩
        rw [hv] at hsome; cases hsome

/-- A stateful pass that panics fetched a Database whose resolved storage does not parse. -/
theorem database_Reconcile_isPanic (validQuantity : String → Bool) (req : Request)
    (w : World Database) (hp : (Reconcile validQuantity req w).1.isPanic = true) :
    ∃ db, w.crs (req.Namespace, req.Name) = some db ∧
      validQuantity (if db.Spec.Storage = "" then "1Gi" else db.Spec.Storage) = false := by
  revert hp
  rcases World.getCR_cases req.Namespace req.Name w with
    ⟨e, _, h⟩ | ⟨db, hf, hc, _⟩ | ⟨_, _, h⟩
  · unfold Reconcile
    rw [h]; dsimp only
    split <;> simp [Outcome.isPanic]
  · rw [database_Reconcile_of_fetched validQuantity req w db hf hc]
    intro hp
    refine ⟨db, hc, ?_⟩
    revert hp
    split
    · split
      · split
        · simp [Outcome.isPanic]
        · intro hp
          exact ((ensureStatefulSet_isPanic _ _ _ _ _).1 hp).2
      · simp [Outcome.isPanic]
    · intro hp
      exact ((ensureStatefulSet_isPanic _ _ _ _ _).1 hp).2
  · unfold Reconcile
    rw [h]; simp [Outcome.isPanic]

/-- On a pass that meets no fault, the panic comes exactly when the Database is stored, no
stateful set is stored under the name of its children and its resolved storage does not
parse. -/
theorem database_Reconcile_isPanic_quiet (validQuantity : String → Bool) (req : Request)
    (w : World Database) (hq : w.quiet 4 = true) :
    (Reconcile validQuantity req w).1.isPanic = true ↔
      ∃ db, w.crs (req.Namespace, req.Name) = some db ∧
        w.statefulSets (req.Namespace, childName db) = none ∧
        validQuantity (if db.Spec.Storage = "" then "1Gi" else db.Spec.Storage) = false := by
  have hf := World.fault_of_quiet w 3 hq
  have hq1 := World.record_quiet w 3 (.getCR req.Namespace req.Name) none hq
  have hf1 := World.fault_of_quiet _ 2 hq1
  rcases World.getCR_cases req.Namespace req.Name w with
    ⟨e, hf2, _⟩ | ⟨db, _, hc, _⟩ | ⟨_, hc, h⟩
  · rw [hf] at hf2; cases hf2
  · rw [database_Reconcile_of_fetched validQuantity req w db hf hc]
    have key : ∀ w2 : World Database, w2.fault = none → w2.statefulSets = w.statefulSets →
        ((ensureStatefulSet validQuantity req (DeepCopyObject db) (childName db)
            w2).1.isPanic = true ↔
          ∃ db2, w.crs (req.Namespace, req.Name) = some db2 ∧
            w.statefulSets (req.Namespace, childName db2) = none ∧
            validQuantity (if db2.Spec.Storage = "" then "1Gi" else db2.Spec.Storage) =
              false) := by
      intro w2 hf2 hs2
      rw [ensureStatefulSet_isPanic, World.getStatefulSet_notFound_iff _ _ _ hf2, hs2]
      simp only [database_copy_Spec]
      constructor
      · rintro ⟨h1, h2⟩; exact ⟨db, hc, h1, h2⟩
      · rintro ⟨db2, hc2, h1, h2⟩
        rw [hc] at hc2; cases hc2
        exact ⟨h1, h2⟩
    rcases World.getService_cases req.Namespace (childName db)
        (w.record (.getCR req.Namespace req.Name) none) with
      ⟨e, hf2, _⟩ | ⟨svc, _, _, h1⟩ | ⟨_, hsv, h1⟩
    · rw [hf1] at hf2; cases hf2
    · rw [h1]; dsimp only
      have hq2 := World.record_quiet _ 2 (.getService req.Namespace (childName db)) none hq1
      exact key _ (World.fault_of_quiet _ 1 hq2) rfl
    · rw [h1]; dsimp only
      rw [if_pos rfl]
      have hq2 := World.record_quiet _ 2 (.getService req.Namespace (childName db))
        (some .notFound) hq1
      have hf2 := World.fault_of_quiet _ 1 hq2
      rcases World.createService_cases req.Namespace (makeHeadlessService (childName db))
          ((w.record (.getCR req.Namespace req.Name) none).record
            (.getService req.Namespace (childName db)) (some .notFound)) with
        ⟨e, hf3, _⟩ | ⟨old, _, hold, _⟩ | ⟨_, _, h2⟩
      · rw [hf2] at hf3; cases hf3
      · rw [World.record_services] at hold
        rw [show (makeHeadlessService (childName db)).ObjectMeta.Name = childName db from rfl,
          hsv] at hold
        cases hold
      · rw [h2]; dsimp only
        have hq3 := World.record_quiet _ 1
          (.createService req.Namespace (makeHeadlessService (childName db))) none hq2
        exact key _ (World.fault_of_quiet _ 0 hq3) rfl
  · unfold Reconcile
    rw [h]; dsimp only
    rw [if_pos rfl]
    constructor
    · intro hp; cases hp
    · rintro ⟨db, hcr, -⟩
      rw [hc] at hcr; cases hcr

end Stateful

/-- C21 (what the code does): a pass can end in a panic, at two places. The builder of the
stateful set returns exactly when the resolved storage text of the spec parses as a
quantity; a stateful pass that panics has fetched a Database whose resolved storage does
not parse, and a stateful pass that meets no fault panics exactly when the Database is
stored, no stateful set is stored under the name of its children and the resolved storage
does not parse. A stateless pass, and an HPC pass, panics exactly when the fetch of the
custom resource and the fetch of the deployment both go through and the fetched deployment
carries no replica count. At the Database `default/db` with the storage "big" and no child
yet, the builder does not return and the pass panics after creating the headless service;
at a deployment `job` without a replica count the stateless and the HPC pass panic after
the two fetches; the stateful pass on a stateful set without a replica count returns, having
sent the update of the count. -/
theorem Reconcile_panics :
    (∀ (validQuantity : String → Bool) (db : Stateful.Database) (name : String),
      (Stateful.makeStatefulSet validQuantity db name).isSome =
        validQuantity (if db.Spec.Storage = "" then "1Gi" else db.Spec.Storage)) ∧
    (∀ (validQuantity : String → Bool) (req : Request) (w : World Stateful.Database),
      (Stateful.Reconcile validQuantity req w).1.isPanic = true →
      ∃ db, w.crs (req.Namespace, req.Name) = some db ∧
        validQuantity (if db.Spec.Storage = "" then "1Gi" else db.Spec.Storage) = false) ∧
    (∀ (validQuantity : String → Bool) (req : Request) (w : World Stateful.Database),
      w.quiet 4 = true →
      ((Stateful.Reconcile validQuantity req w).1.isPanic = true ↔
        ∃ db, w.crs (req.Namespace, req.Name) = some db ∧
          w.statefulSets (req.Namespace, Stateful.childName db) = none ∧
          validQuantity (if db.Spec.Storage = "" then "1Gi" else db.Spec.Storage) = false)) ∧
    (∀ (req : Request) (w : World Stateless.TaskJob),
      (Stateless.Reconcile req w).1.isPanic = true ↔
        w.quiet 2 = true ∧ (∃ cr, w.crs (req.Namespace, req.Name) = some cr) ∧
          ∃ d, w.deployments (req.Namespace, req.Name) = some d ∧ d.Spec.Replicas = none) ∧
    (∀ (req : Request) (w : World HPC.HPCJob),
      (HPC.Reconcile req w).1.isPanic = true ↔
        w.quiet 2 = true ∧ (∃ cr, w.crs (req.Namespace, req.Name) = some cr) ∧
          ∃ d, w.deployments (req.Namespace, req.Name) = some d ∧ d.Spec.Replicas = none) ∧
    Stateful.makeStatefulSet Examples.validQuantity Examples.databaseBadStorage "db" = none ∧
    (Stateful.Reconcile Examples.validQuantity Examples.dbReq Examples.dbBadStorage).1 =
      .panic "cannot parse quantity" ∧
    (Stateful.Reconcile Examples.validQuantity Examples.dbReq Examples.dbBadStorage).2.trace =
      [⟨.getCR "default" "db", none⟩,
       ⟨.getService "default" "db", some .notFound⟩,
       ⟨.createService "default" (Stateful.makeHeadlessService "db"), none⟩,
       ⟨.getStatefulSet "default" "db", some .notFound⟩] ∧
    (Stateless.Reconcile Examples.jobReq Examples.taskNoReplicas).1 =
      .panic "invalid memory address or nil pointer dereference" ∧
    (Stateless.Reconcile Examples.jobReq Examples.taskNoReplicas).2.trace =
      [⟨.getCR "default" "job", none⟩, ⟨.getDeployment "default" "job", none⟩] ∧
    (HPC.Reconcile Examples.jobReq Examples.hpcNoReplicas).1 =
      .panic "invalid memory address or nil pointer dereference" ∧
    (HPC.Reconcile Examples.jobReq Examples.hpcNoReplicas).2.trace =
      [⟨.getCR "default" "job", none⟩, ⟨.getDeployment "default" "job", none⟩] ∧
    (Stateful.Reconcile Examples.validQuantity Examples.dbReq Examples.dbNoReplicas).1 =
      .ok { RequeueAfter := 5 } := by
  refine ⟨Stateful.makeStatefulSet_isSome, Stateful.database_Reconcile_isPanic,
    Stateful.database_Reconcile_isPanic_quiet, Stateless.taskJob_Reconcile_isPanic,
    HPC.hpcJob_Reconcile_isPanic, ?_, ?_, ?_, ?_, ?_, ?_, ?_, ?_⟩ <;> decide

/-- C21, at concrete clusters: the cluster holding the Database `default/db` with the
storage "big" and no child meets no fault, so its pass panics, the Database it fetched being
one whose storage does not parse; the stateless and the HPC pass on a deployment without a
replica count panic. -/
theorem Reconcile_panics_witness :
    Examples.dbBadStorage.quiet 4 = true ∧
    (Stateful.Reconcile Examples.validQuantity Examples.dbReq Examples.dbBadStorage).1.isPanic =
      true ∧
    (∃ db, Examples.dbBadStorage.crs ("default", "db") = some db ∧
      Examples.validQuantity (if db.Spec.Storage = "" then "1Gi" else db.Spec.Storage) =
        false) ∧
    (Stateless.Reconcile Examples.jobReq Examples.taskNoReplicas).1.isPanic = true ∧
    (HPC.Reconcile Examples.jobReq Examples.hpcNoReplicas).1.isPanic = true :=
  ⟨by decide,
    (Reconcile_panics.2.2.1 Examples.validQuantity Examples.dbReq Examples.dbBadStorage
      (by decide)).2 ⟨Examples.databaseBadStorage, by decide, by decide, by decide⟩,
    Reconcile_panics.2.1 Examples.validQuantity Examples.dbReq Examples.dbBadStorage
      (by decide),
    (Reconcile_panics.2.2.2.1 Examples.jobReq Examples.taskNoReplicas).2
      ⟨by decide, ⟨Examples.taskJobFive, by decide⟩, Examples.deploymentNoReplicas,
        by decide, by decide⟩,
    (Reconcile_panics.2.2.2.2.1 Examples.jobReq Examples.hpcNoReplicas).2
      ⟨by decide, ⟨Examples.hpcJobFive, by decide⟩, Examples.deploymentNoReplicas,
        by decide, by decide⟩⟩

end JobOperator
